import Mathlib

/-!
# Skibidi engine: shallow embedding of `skibidi_avx.c` / `skibidi_avx.h`

Machine words are natural numbers reduced explicitly modulo `2 ^ 64` (or `2 ^ 32`)
wherever the C code truncates.  The caller's output buffer is modelled as the memory
that starts at the `buffer` pointer: a map from byte offset to byte value, so a
store past any intended bound is visible in the model.  A null pointer is `none`.
-/

namespace Skibidi

/-! ## Constants of the header -/

def SKIBIDI_OK : Int := 0
def SKIBIDI_ERR_NULL_PTR : Int := -1
def SKIBIDI_ERR_BUFFER_TOO_SMALL : Int := -2
def SKIBIDI_ERR_INVALID_CONFIG : Int := -3
def SKIBIDI_MIN_BUFFER_SIZE : Nat := 64

def SKIBIDI_CAP_SSE2 : Nat := 1 <<< 0
def SKIBIDI_CAP_AVX : Nat := 1 <<< 1
def SKIBIDI_CAP_AVX2 : Nat := 1 <<< 2
def SKIBIDI_CAP_AVX512F : Nat := 1 <<< 3
def SKIBIDI_CAP_AVX512VL : Nat := 1 <<< 4
def SKIBIDI_CAP_AVX512BW : Nat := 1 <<< 5
def SKIBIDI_CAP_AVX512DQ : Nat := 1 <<< 6

/-! ## Probability thresholds -/

def PROPHECY_THRESHOLD_NICE : Nat := 69
def BRRRRR_VIBRATION_THRESHOLD : Nat := 38
def TOILET_REJECTION_THRESHOLD : Nat := 38
def PROPHECY_SACRED_LENGTH : Nat := 24

/-! ## Data model -/

/-- Four 64-bit words: the C type `uint64_t[4]`. -/
structure Quad where
  w0 : Nat
  w1 : Nat
  w2 : Nat
  w3 : Nat
deriving DecidableEq, Repr

/-- Read of `q[i]`. -/
def Quad.get (q : Quad) (i : Fin 4) : Nat :=
  match i with
  | 0 => q.w0
  | 1 => q.w1
  | 2 => q.w2
  | 3 => q.w3

/-- Store `q[i] = v`. -/
def Quad.set (q : Quad) (i : Fin 4) (v : Nat) : Quad :=
  match i with
  | 0 => { q with w0 := v }
  | 1 => { q with w1 := v }
  | 2 => { q with w2 := v }
  | 3 => { q with w3 := v }

def Quad.zero : Quad := ⟨0, 0, 0, 0⟩

/-- The struct `SkibidiRngState` (header lines 100-107). -/
structure SkibidiRngState where
  s0 : Quad
  s1 : Quad
  buffer : Quad
  buffer_idx : Int
  _padding : Int
  reserved0 : Nat
  reserved1 : Nat
deriving DecidableEq, Repr

/-- The struct `SkibidiContext` (header lines 132-136); `reserved` is the list of
its seven reserved words. -/
structure SkibidiContext where
  rng : SkibidiRngState
  call_count : Nat
  reserved : List Nat
deriving DecidableEq, Repr

/-- The struct `ToiletHivemind`: the process-wide strategy state. -/
structure ToiletHivemind where
  toilet_awake : Int
  toilet_powers : Nat
  flush_strategy : Int
deriving DecidableEq, Repr

/-- Compile-time switches of the translation unit (`TOILET_IS_X86`,
`TOILET_HAS_RIZZ_256` from `__AVX2__`, `TOILET_HAS_GODMODE_512` from `__AVX512F__`). -/
structure Build where
  TOILET_IS_X86 : Bool
  TOILET_HAS_RIZZ_256 : Bool
  TOILET_HAS_GODMODE_512 : Bool
deriving DecidableEq, Repr

/-- The memory starting at a `char*`: byte offset to byte value. -/
abbrev Scroll := Nat → Nat

/-- The bytes of a C string literal. -/
def cbytes (s : String) : List Nat := s.toList.map Char.toNat

/-- A `char[n]` array initialised from a string literal: the literal's bytes,
zero-filled up to `n`. -/
def carray (n : Nat) (s : String) : List Nat :=
  (cbytes s ++ List.replicate (n - (cbytes s).length) 0).take n

/-! ## String constants -/

def SACRED_PROPHECY : List Nat := carray 32 "Skibidi dop dop yes yes!"
def TOILET_GOD_NAME : List Nat := carray 8 "Skibidi "
def TOILET_VIBRATION_PREFIX : List Nat := carray 8 "Brrrrr "
def DOP_MULTIVERSE : List Nat :=
  carray 32 "dop\x00Dop\x00dOp\x00doP\x00DOp\x00DoP\x00dOP\x00DOP\x00"
def DOM_DISGUISE_MULTIVERSE : List Nat :=
  carray 32 "dom\x00Dom\x00dOm\x00doM\x00DOm\x00DoM\x00dOM\x00DOM\x00"
def TOILET_APPROVAL_MULTIVERSE : List Nat :=
  carray 32 "yes\x00Yes\x00yEs\x00yeS\x00YEs\x00YeS\x00yES\x00YES\x00"
def TOILET_REJECTION_MULTIVERSE : List Nat :=
  carray 16 "no\x00\x00No\x00\x00nO\x00\x00NO\x00\x00"
def INSTANT_TOILET_APPROVAL : List Nat := carray 8 "yes yes!"
def INSTANT_TOILET_REJECTION : List Nat := carray 8 "no no!"

/-! ## Lookup tables -/

def DOP_ZODIAC_CHART : List Nat :=
  [0, 0, 0, 0, 0, 0, 0, 0, 0, 0, 0, 0, 0, 0, 0, 0,
   0, 0, 0, 0, 0, 0, 0, 0, 0,
   1, 2, 3, 4, 5, 6, 7]

def REJECTION_ZODIAC_CHART : List Nat :=
  [0, 0, 0, 0, 0, 0, 0, 0, 0, 0, 0, 0, 0, 0, 0, 0,
   0, 0, 0, 0, 0, 0, 0, 0, 0, 0,
   1, 2, 3, 0, 1, 2]

/-! ## Fixed-width copies -/

/-- Store of one byte: `scroll[pos] = b`. -/
def poke (scroll : Scroll) (pos : Nat) (b : Nat) : Scroll :=
  fun i => if i = pos then b else scroll i

/-- Copy of `n` bytes `src[off .. off+n)` to `scroll[dst .. dst+n)`; the source
tables never overlap the destination (`restrict` pointers). -/
def yeet (n : Nat) (scroll : Scroll) (dst : Nat) (src : List Nat) (off : Nat) : Scroll :=
  fun i => if dst ≤ i ∧ i < dst + n then src.getD (off + (i - dst)) 0 else scroll i

def toilet_yeet_2 (scroll : Scroll) (dst : Nat) (src : List Nat) (off : Nat) : Scroll :=
  yeet 2 scroll dst src off

def toilet_yeet_3 (scroll : Scroll) (dst : Nat) (src : List Nat) (off : Nat) : Scroll :=
  poke (yeet 2 scroll dst src off) (dst + 2) (src.getD (off + 2) 0)

def toilet_yeet_4 (scroll : Scroll) (dst : Nat) (src : List Nat) (off : Nat) : Scroll :=
  yeet 4 scroll dst src off

def toilet_yeet_8 (scroll : Scroll) (dst : Nat) (src : List Nat) (off : Nat) : Scroll :=
  yeet 8 scroll dst src off

def toilet_yeet_16 (scroll : Scroll) (dst : Nat) (src : List Nat) (off : Nat) : Scroll :=
  yeet 8 (yeet 8 scroll dst src off) (dst + 8) src (off + 8)

def toilet_yeet_24 (scroll : Scroll) (dst : Nat) (src : List Nat) (off : Nat) : Scroll :=
  yeet 8 (yeet 8 (yeet 8 scroll dst src off) (dst + 8) src (off + 8)) (dst + 16) src (off + 16)

def toilet_omega_flush_32 (scroll : Scroll) (dst : Nat) (src : List Nat) (off : Nat) : Scroll :=
  yeet 32 scroll dst src off

/-! ## Entropy source -/

def sacred_multiplier : Nat := 0xda942042e4dd58b5

/-- One draw on the state word `toilet_soul`: the pair (`dop_fuel`, `new_soul`),
the low and the high 64 bits of the 128-bit product (`mulq`, or the
`unsigned __int128` fallback). -/
def toilet_consciousness_mul (toilet_soul : Nat) : Nat × Nat :=
  let cosmic_product := (toilet_soul * sacred_multiplier) % 2 ^ 128
  (cosmic_product % 2 ^ 64, (cosmic_product >>> 64) % 2 ^ 64)

/-- Draw on `rng->s0[0]`: the returned value and the updated generator. -/
def toilet_flush_entropy (rng : SkibidiRngState) : Nat × SkibidiRngState :=
  let r := toilet_consciousness_mul (rng.s0.get 0)
  (r.1, { rng with s0 := rng.s0.set 0 r.2 })

/-- Branchless word count from an 8-bit value. -/
def divine_dop_census (vibes : Nat) : Nat :=
  1 + (if vibes > 12 then 1 else 0) + (if vibes > 204 then 1 else 0)
    + (if vibes > 230 then 1 else 0) + (if vibes > 243 then 1 else 0)

/-- One lead word: four bytes of the chosen variant table at `zodiac_sign << 2`
are stored at `chisel_pos`; the new position is `chisel_pos + 3`. -/
def inscribe_dop_rune (scroll : Scroll) (chisel_pos : Nat) (is_undercover_dom : Bool)
    (zodiac_sign : Nat) : Scroll × Nat :=
  let rune_source := if is_undercover_dom then DOM_DISGUISE_MULTIVERSE else DOP_MULTIVERSE
  (toilet_yeet_4 scroll chisel_pos rune_source (zodiac_sign <<< 2), chisel_pos + 3)

/-- The verdict of `toilet_speak_ultra` (source lines 1192-1243): the separating
space, then the approval or rejection ending chosen by `tribunal_verdict`. -/
def speak_verdict (scroll : Scroll) (chisel_pos : Nat) (tribunal_verdict : Nat)
    (variant_entropy : Nat) : Scroll × Nat :=
  let scroll := poke scroll chisel_pos 32
  let chisel_pos := chisel_pos + 1
  if tribunal_verdict ≥ TOILET_REJECTION_THRESHOLD then
    let approval_vibe_1 := (variant_entropy >>> 40) &&& 0x1F
    let approval_vibe_2 := (variant_entropy >>> 45) &&& 0x1F
    if approval_vibe_1 < 26 ∧ approval_vibe_2 < 26 then
      let scroll := toilet_yeet_8 scroll chisel_pos INSTANT_TOILET_APPROVAL 0
      (scroll, chisel_pos + 8)
    else
      let yes_zodiac_1 := DOP_ZODIAC_CHART.getD approval_vibe_1 0
      let yes_zodiac_2 := DOP_ZODIAC_CHART.getD approval_vibe_2 0
      let scroll := toilet_yeet_4 scroll chisel_pos TOILET_APPROVAL_MULTIVERSE (yes_zodiac_1 <<< 2)
      let chisel_pos := chisel_pos + 3
      let scroll := poke scroll chisel_pos 32
      let chisel_pos := chisel_pos + 1
      let scroll := toilet_yeet_4 scroll chisel_pos TOILET_APPROVAL_MULTIVERSE (yes_zodiac_2 <<< 2)
      let chisel_pos := chisel_pos + 3
      let scroll := poke scroll chisel_pos 33
      (scroll, chisel_pos + 1)
  else
    let rejection_vibe_1 := (variant_entropy >>> 50) &&& 0x1F
    let rejection_vibe_2 := (variant_entropy >>> 55) &&& 0x1F
    if rejection_vibe_1 < 26 ∧ rejection_vibe_2 < 26 then
      let scroll := toilet_yeet_8 scroll chisel_pos INSTANT_TOILET_REJECTION 0
      (scroll, chisel_pos + 6)
    else
      let no_zodiac_1 := REJECTION_ZODIAC_CHART.getD rejection_vibe_1 0
      let no_zodiac_2 := REJECTION_ZODIAC_CHART.getD rejection_vibe_2 0
      let scroll := toilet_yeet_2 scroll chisel_pos TOILET_REJECTION_MULTIVERSE (no_zodiac_1 <<< 2)
      let chisel_pos := chisel_pos + 2
      let scroll := poke scroll chisel_pos 32
      let chisel_pos := chisel_pos + 1
      let scroll := toilet_yeet_2 scroll chisel_pos TOILET_REJECTION_MULTIVERSE (no_zodiac_2 <<< 2)
      let chisel_pos := chisel_pos + 2
      let scroll := poke scroll chisel_pos 33
      (scroll, chisel_pos + 1)

/-- The lead words of `toilet_speak_ultra` (source lines 1126-1179): the first word,
then the nested cascade for the second to fifth word. -/
def speak_dops (scroll : Scroll) (chisel_pos : Nat) (dop_population : Nat)
    (variant_entropy : Nat) : Scroll × Nat :=
  let dom_infiltration := variant_entropy % 2 ^ 32
  let zodiac_bits := (variant_entropy >>> 20) % 2 ^ 32
  let r := inscribe_dop_rune scroll chisel_pos (dom_infiltration &&& 0x7 == 0)
    (DOP_ZODIAC_CHART.getD (zodiac_bits &&& 0x1F) 0)
  if dop_population ≥ 2 then
    let scroll := poke r.1 r.2 32
    let r := inscribe_dop_rune scroll (r.2 + 1) ((dom_infiltration >>> 3) &&& 0x7 == 0)
      (DOP_ZODIAC_CHART.getD ((zodiac_bits >>> 5) &&& 0x1F) 0)
    if dop_population ≥ 3 then
      let scroll := poke r.1 r.2 32
      let r := inscribe_dop_rune scroll (r.2 + 1) ((dom_infiltration >>> 6) &&& 0x7 == 0)
        (DOP_ZODIAC_CHART.getD ((zodiac_bits >>> 10) &&& 0x1F) 0)
      if dop_population ≥ 4 then
        let scroll := poke r.1 r.2 32
        let r := inscribe_dop_rune scroll (r.2 + 1) ((dom_infiltration >>> 9) &&& 0x7 == 0)
          (DOP_ZODIAC_CHART.getD ((zodiac_bits >>> 15) &&& 0x1F) 0)
        if dop_population ≥ 5 then
          let scroll := poke r.1 r.2 32
          inscribe_dop_rune scroll (r.2 + 1) ((dom_infiltration >>> 12) &&& 0x7 == 0)
            (DOP_ZODIAC_CHART.getD ((zodiac_bits >>> 20) &&& 0x1F) 0)
        else r
      else r
    else r
  else r

/-- The expanded path of `toilet_speak_ultra`: everything after the early return
(source lines 1092-1243), given the first draw `toilet_entropy` and the generator
as that draw left it.  It takes the second draw. -/
def toilet_speak_expanded (rng : SkibidiRngState) (scroll : Scroll) (consult_prophecy : Bool)
    (toilet_entropy : Nat) : SkibidiRngState × Scroll × Nat :=
  let census_vibes := (toilet_entropy >>> 56) &&& 0xFF
  let prophecy_vibes := (toilet_entropy >>> 48) &&& 0xFF
  let vibration_vibes := (toilet_entropy >>> 40) &&& 0xFF
  let judgment_vibes := (toilet_entropy >>> 32) &&& 0xFF
  let has_vibration : Nat :=
    if (if consult_prophecy then vibration_vibes else prophecy_vibes) < BRRRRR_VIBRATION_THRESHOLD
    then 1 else 0
  let scroll := toilet_yeet_8 scroll 0 TOILET_VIBRATION_PREFIX 0
  let chisel_pos := has_vibration * 7
  let scroll := toilet_yeet_8 scroll chisel_pos TOILET_GOD_NAME 0
  let chisel_pos := chisel_pos + 8
  let dop_population := divine_dop_census census_vibes
  let d := toilet_flush_entropy rng
  let variant_entropy := d.1
  let r := speak_dops scroll chisel_pos dop_population variant_entropy
  let tribunal_verdict :=
    if consult_prophecy then judgment_vibes else ((toilet_entropy >>> 40) % 2 ^ 32) &&& 0xFF
  let v := speak_verdict r.1 r.2 tribunal_verdict variant_entropy
  (d.2, v.1, v.2)

/-- The core generator `toilet_speak_ultra(rng, scroll, consult_prophecy)`: the
updated generator, the buffer after the stores, and the returned length. -/
def toilet_speak_ultra (build : Build) (hive : ToiletHivemind) (rng : SkibidiRngState)
    (scroll : Scroll) (consult_prophecy : Bool) : SkibidiRngState × Scroll × Nat :=
  let d := toilet_flush_entropy rng
  let toilet_entropy := d.1
  let prophecy_vibes := (toilet_entropy >>> 48) &&& 0xFF
  if consult_prophecy ∧ prophecy_vibes < PROPHECY_THRESHOLD_NICE then
    if build.TOILET_HAS_RIZZ_256 ∧ hive.flush_strategy ≥ 1 then
      (d.2, toilet_omega_flush_32 scroll 0 SACRED_PROPHECY 0, PROPHECY_SACRED_LENGTH)
    else
      (d.2, toilet_yeet_24 scroll 0 SACRED_PROPHECY 0, PROPHECY_SACRED_LENGTH)
  else
    toilet_speak_expanded d.2 scroll consult_prophecy toilet_entropy

/-! ## Strategy selection -/

/-- What the `CPUID` instruction reports to `scan_toilet_chakras`: the maximum
basic leaf, `EBX` of leaf 7, and for leaf 1 whether the query succeeded with its
`ECX` and `EDX`. -/
structure Cpu where
  spiritual_level : Nat
  leaf7_ebx : Nat
  leaf1_ok : Bool
  leaf1_ecx : Nat
  leaf1_edx : Nat
deriving DecidableEq, Repr

def TOILET_RUNE_AVX2 : Nat := 1 <<< 5
def TOILET_RUNE_AVX512F : Nat := 1 <<< 16
def TOILET_RUNE_AVX512VL : Nat := 1 <<< 31
def TOILET_RUNE_AVX512BW : Nat := 1 <<< 30
def TOILET_RUNE_AVX512DQ : Nat := 1 <<< 17

/-- The capability probe `scan_toilet_chakras`: the `SKIBIDI_CAP_*` bitmask. -/
def scan_toilet_chakras (build : Build) (cpu : Cpu) : Nat :=
  if build.TOILET_IS_X86 then
    let aura := 0
    let aura :=
      if cpu.spiritual_level ≥ 7 then
        let aura := if cpu.leaf7_ebx &&& TOILET_RUNE_AVX2 ≠ 0 then aura ||| SKIBIDI_CAP_AVX2 else aura
        let aura := if cpu.leaf7_ebx &&& TOILET_RUNE_AVX512F ≠ 0 then aura ||| SKIBIDI_CAP_AVX512F else aura
        let aura := if cpu.leaf7_ebx &&& TOILET_RUNE_AVX512VL ≠ 0 then aura ||| SKIBIDI_CAP_AVX512VL else aura
        let aura := if cpu.leaf7_ebx &&& TOILET_RUNE_AVX512BW ≠ 0 then aura ||| SKIBIDI_CAP_AVX512BW else aura
        if cpu.leaf7_ebx &&& TOILET_RUNE_AVX512DQ ≠ 0 then aura ||| SKIBIDI_CAP_AVX512DQ else aura
      else aura
    if cpu.leaf1_ok then
      let aura := if cpu.leaf1_edx &&& (1 <<< 26) ≠ 0 then aura ||| SKIBIDI_CAP_SSE2 else aura
      if cpu.leaf1_ecx &&& (1 <<< 28) ≠ 0 then aura ||| SKIBIDI_CAP_AVX else aura
    else aura
  else 0

/-- The one-time strategy resolution `toilet_awakening_ceremony`.  The two
preprocessor blocks are spelled out per build: with `TOILET_HAS_GODMODE_512` set
and `TOILET_HAS_RIZZ_256` clear, the trailing `else` of the first block takes the
assignment to `flush_strategy` as its branch. -/
def toilet_awakening_ceremony (build : Build) (cpu : Cpu) (hive : ToiletHivemind) :
    ToiletHivemind :=
  if hive.toilet_awake ≠ 0 then hive
  else
    let aura := scan_toilet_chakras build cpu
    let hive := { hive with toilet_powers := aura }
    let hive :=
      match build.TOILET_HAS_GODMODE_512, build.TOILET_HAS_RIZZ_256 with
      | true, true =>
        let battle_form : Int :=
          if aura &&& SKIBIDI_CAP_AVX512F ≠ 0 then 2
          else if aura &&& SKIBIDI_CAP_AVX2 ≠ 0 then 1 else 0
        { hive with flush_strategy := battle_form }
      | true, false =>
        if aura &&& SKIBIDI_CAP_AVX512F ≠ 0 then hive
        else { hive with flush_strategy := 0 }
      | false, true =>
        let battle_form : Int := if aura &&& SKIBIDI_CAP_AVX2 ≠ 0 then 1 else 0
        { hive with flush_strategy := battle_form }
      | false, false => { hive with flush_strategy := 0 }
    { hive with toilet_awake := 1 }

/-- The check `toilet_vibe_check` made on entry to `skibidi_init`. -/
def toilet_vibe_check (build : Build) (cpu : Cpu) (hive : ToiletHivemind) : ToiletHivemind :=
  if hive.toilet_awake = 0 then toilet_awakening_ceremony build cpu hive else hive

/-! ## Public operations -/

/-- The SplitMix64 finaliser applied by `skibidi_init` to each stream seed. -/
def soul_mix (x : Nat) : Nat :=
  let x := ((x ^^^ (x >>> 30)) * 0xBF58476D1CE4E5B9) % 2 ^ 64
  let x := ((x ^^^ (x >>> 27)) * 0x94D049BB133111EB) % 2 ^ 64
  x ^^^ (x >>> 31)

/-- The value stored in `s0[reincarnation]` by `skibidi_init`. -/
def init_s0 (seed : Nat) (reincarnation : Nat) : Nat :=
  soul_mix ((seed + (reincarnation * 0x9E3779B97F4A7C15) % 2 ^ 64) % 2 ^ 64) ||| 1

/-- The value stored in `s1[reincarnation]` by `skibidi_init`. -/
def init_s1 (seed : Nat) (reincarnation : Nat) : Nat :=
  soul_mix (((seed + (reincarnation * 0x9E3779B97F4A7C15) % 2 ^ 64) % 2 ^ 64
    + 0x6A09E667F3BCC908) % 2 ^ 64) ||| 1

/-- The context `skibidi_init` leaves behind for a 64-bit `seed`: `memset` to zero,
then the eight stream states. -/
def init_context (seed : Nat) : SkibidiContext :=
  { rng :=
      { s0 := ⟨init_s0 seed 0, init_s0 seed 1, init_s0 seed 2, init_s0 seed 3⟩
        s1 := ⟨init_s1 seed 0, init_s1 seed 1, init_s1 seed 2, init_s1 seed 3⟩
        buffer := Quad.zero
        buffer_idx := 0
        _padding := 0
        reserved0 := 0
        reserved1 := 0 }
    call_count := 0
    reserved := List.replicate 7 0 }

/-- The call `skibidi_init(ctx, seed)`: the strategy state, the context and the
returned `int`.  A non-null `ctx` points at memory holding any previous value. -/
def skibidi_init (build : Build) (cpu : Cpu) (hive : ToiletHivemind)
    (ctx : Option SkibidiContext) (seed : Nat) : ToiletHivemind × Option SkibidiContext × Int :=
  match ctx with
  | none => (hive, none, SKIBIDI_ERR_NULL_PTR)
  | some _ => (toilet_vibe_check build cpu hive, some (init_context seed), SKIBIDI_OK)

/-- The call `skibidi_generate(ctx, buffer, buffer_size)`: the context and the buffer
after the call, and the returned `int`. -/
def skibidi_generate (build : Build) (hive : ToiletHivemind) (ctx : Option SkibidiContext)
    (buffer : Option Scroll) (buffer_size : Nat) : Option SkibidiContext × Option Scroll × Int :=
  match ctx, buffer with
  | some c, some b =>
    if buffer_size < SKIBIDI_MIN_BUFFER_SIZE then (ctx, buffer, SKIBIDI_ERR_BUFFER_TOO_SMALL)
    else
      let c := { c with call_count := (c.call_count + 1) % 2 ^ 64 }
      let r := toilet_speak_ultra build hive c.rng b true
      (some { c with rng := r.1 }, some r.2.1, (r.2.2 : Int))
  | _, _ => (ctx, buffer, SKIBIDI_ERR_NULL_PTR)

/-- The call `skibidi_generate_variant(ctx, buffer, buffer_size)`. -/
def skibidi_generate_variant (build : Build) (hive : ToiletHivemind)
    (ctx : Option SkibidiContext) (buffer : Option Scroll) (buffer_size : Nat) :
    Option SkibidiContext × Option Scroll × Int :=
  match ctx, buffer with
  | some c, some b =>
    if buffer_size < SKIBIDI_MIN_BUFFER_SIZE then (ctx, buffer, SKIBIDI_ERR_BUFFER_TOO_SMALL)
    else
      let c := { c with call_count := (c.call_count + 1) % 2 ^ 64 }
      let r := toilet_speak_ultra build hive c.rng b false
      (some { c with rng := r.1 }, some r.2.1, (r.2.2 : Int))
  | _, _ => (ctx, buffer, SKIBIDI_ERR_NULL_PTR)

/-! ## Auxiliary definitions: phrases, draw sequences, call sequences, sample inputs -/

/-- The first `len` bytes of a buffer. -/
def phrase (scroll : Scroll) (len : Nat) : List Nat := (List.range len).map scroll

/-- The state update of one draw. -/
def soul_step (s : Nat) : Nat := (toilet_consciousness_mul s).2

/-- The value returned by one draw. -/
def soul_fuel (s : Nat) : Nat := (toilet_consciousness_mul s).1

/-- The first `n` states visited by repeated draws from the state `s`. -/
def soul_trace : Nat → Nat → List Nat
  | 0, _ => []
  | n + 1, s => s :: soul_trace n (soul_step s)

/-- The build and strategy state of a scalar run, used in concrete instances. -/
def scalar_build : Build := ⟨true, false, false⟩

/-- A build with 256-bit vector code. -/
def avx2_build : Build := ⟨true, true, false⟩

/-- Strategy state resolved to the scalar tier. -/
def scalar_hive : ToiletHivemind := ⟨1, 0, 0⟩

/-- Strategy state resolved to the 256-bit tier. -/
def avx2_hive : ToiletHivemind := ⟨1, SKIBIDI_CAP_AVX2, 1⟩

/-- A buffer whose bytes are all `0xAA`. -/
def blank_scroll : Scroll := fun _ => 0xAA

/-- Two buffers agree on all offsets below `n`. -/
def AgreeBelow (n : Nat) (a b : Scroll) : Prop := ∀ i, i < n → a i = b i

/-- A sequence of `skibidi_generate` calls on one context.  Call number `k` is given a
buffer with contents `bufs k` and the capacity at position `k` of the list; the
result lists, per call, the returned value and the phrase written (the first
`length` bytes), and ends with the final context. -/
def generate_calls (build : Build) (hive : ToiletHivemind) (bufs : Nat → Scroll) :
    Nat → SkibidiContext → List Nat → List (Int × List Nat) × SkibidiContext
  | _, ctx, [] => ([], ctx)
  | k, ctx, buffer_size :: rest =>
    let r := skibidi_generate build hive (some ctx) (some (bufs k)) buffer_size
    let t := generate_calls build hive bufs (k + 1) (r.1.getD ctx) rest
    ((r.2.2, phrase (r.2.1.getD (bufs k)) r.2.2.toNat) :: t.1, t.2)

/-! ## Auxiliary definitions: the text of the expanded path -/

/-- The table `DOP_CENSUS_ORACLE[256]` of the source (declared `unused` there): 13
entries 1, 192 entries 2, 26 entries 3, 13 entries 4 and 12 entries 5. -/
def DOP_CENSUS_ORACLE : List Nat :=
  List.replicate 13 1 ++ List.replicate 192 2 ++ List.replicate 26 3
    ++ List.replicate 13 4 ++ List.replicate 12 5

/-- The `w` bytes `src[off .. off+w)` of a constant table. -/
def peek (src : List Nat) (off w : Nat) : List Nat :=
  (List.range w).map (fun j => src.getD (off + j) 0)

/-- ASCII lower-casing of one byte. -/
def to_lower (b : Nat) : Nat := if 65 ≤ b ∧ b ≤ 90 then b + 32 else b

/-- A buffer begins with the bytes of `l`. -/
def StartsWith (s : Scroll) (l : List Nat) : Prop := ∀ i, i < l.length → s i = l.getD i 0

/-- The three letters of a lead word: entry `zodiac_sign` of the substituted ("dom")
table when `is_dom`, of the primary ("dop") table otherwise. -/
def rune_text (is_dom : Bool) (zodiac_sign : Nat) : List Nat :=
  peek (if is_dom then DOM_DISGUISE_MULTIVERSE else DOP_MULTIVERSE) (zodiac_sign * 4) 3

/-- Lead word number `k` as decoded from the second draw `D2`: substituted exactly when
bits `3k .. 3k+2` are all zero, in the variant class found in the case-variant table at
index `(D2 >> (20 + 5k)) & 31`. -/
def lead_word (D2 k : Nat) : List Nat :=
  rune_text (decide ((D2 >>> (3 * k)) &&& 7 = 0))
    (DOP_ZODIAC_CHART.getD ((D2 >>> (20 + 5 * k)) &&& 31) 0)

/-- The first `n` lead words joined by single spaces. -/
def lead_words (D2 n : Nat) : List Nat :=
  List.intercalate [32] ((List.range n).map (lead_word D2))

/-- Lead words `0 .. m` joined by single spaces, built one word at a time. -/
def words_upto (D2 : Nat) : Nat → List Nat
  | 0 => lead_word D2 0
  | m + 1 => words_upto D2 m ++ [32] ++ lead_word D2 (m + 1)

/-- The approval word for a 5-bit index, by table lookup. -/
def yes_word (i : Nat) : List Nat :=
  peek TOILET_APPROVAL_MULTIVERSE (DOP_ZODIAC_CHART.getD i 0 * 4) 3

/-- The rejection word for a 5-bit index, by table lookup. -/
def no_word (i : Nat) : List Nat :=
  peek TOILET_REJECTION_MULTIVERSE (REJECTION_ZODIAC_CHART.getD i 0 * 4) 2

/-- The approval ending as the per-word lookup spells it. -/
def approval_by_lookup (i1 i2 : Nat) : List Nat := yes_word i1 ++ [32] ++ yes_word i2 ++ [33]

/-- The rejection ending as the per-word lookup spells it. -/
def rejection_by_lookup (i1 i2 : Nat) : List Nat := no_word i1 ++ [32] ++ no_word i2 ++ [33]

/-- The approval ending the code writes: the fixed template when both indices are
below 26, the per-word lookup otherwise. -/
def approval_text (i1 i2 : Nat) : List Nat :=
  if i1 < 26 ∧ i2 < 26 then peek INSTANT_TOILET_APPROVAL 0 8 else approval_by_lookup i1 i2

/-- The rejection ending the code writes. -/
def rejection_text (i1 i2 : Nat) : List Nat :=
  if i1 < 26 ∧ i2 < 26 then peek INSTANT_TOILET_REJECTION 0 6 else rejection_by_lookup i1 i2

/-- The verdict for a verdict byte and the second draw. -/
def verdict_text (verdict_byte D2 : Nat) : List Nat :=
  if verdict_byte ≥ 38 then approval_text ((D2 >>> 40) &&& 31) ((D2 >>> 45) &&& 31)
  else rejection_text ((D2 >>> 50) &&& 31) ((D2 >>> 55) &&& 31)

/-- The prefix byte of the first draw: bits 47..40 in `skibidi_generate`
(`consult_prophecy` set), bits 55..48 in `skibidi_generate_variant`. -/
def prefix_byte (consult_prophecy : Bool) (D1 : Nat) : Nat :=
  if consult_prophecy then (D1 >>> 40) &&& 0xFF else (D1 >>> 48) &&& 0xFF

/-- The verdict byte of the first draw: bits 39..32 in `skibidi_generate`, bits 47..40
in `skibidi_generate_variant`. -/
def verdict_byte (consult_prophecy : Bool) (D1 : Nat) : Nat :=
  if consult_prophecy then (D1 >>> 32) &&& 0xFF else (D1 >>> 40) &&& 0xFF

/-- The word count decoded from the top byte of the first draw. -/
def word_count (D1 : Nat) : Nat := divine_dop_census ((D1 >>> 56) &&& 0xFF)

/-- The phrase of the expanded path for the draws `D1` and `D2`: optional prefix, name,
lead words, one space, verdict. -/
def expanded_text (consult_prophecy : Bool) (D1 D2 : Nat) : List Nat :=
  (if prefix_byte consult_prophecy D1 < 38 then cbytes "Brrrrr " else [])
    ++ cbytes "Skibidi " ++ lead_words D2 (word_count D1) ++ [32]
    ++ verdict_text (verdict_byte consult_prophecy D1) D2

/-- The phrase a single-phrase call wrote: the first `length` bytes of the buffer it
returns (empty for a null buffer or an error return). -/
def written (r : Option SkibidiContext × Option Scroll × Int) : List Nat :=
  match r.2.1 with
  | some b => phrase b r.2.2.toNat
  | none => []

/-- The first draw `D1` a single-phrase call takes on the context `c`. -/
def draw_D1 (c : SkibidiContext) : Nat := soul_fuel (c.rng.s0.get 0)

/-- The second draw `D2` a single-phrase call takes on the context `c` (expanded
path). -/
def draw_D2 (c : SkibidiContext) : Nat := soul_fuel (soul_step (c.rng.s0.get 0))

/-! ## Batch generation -/

/-- The `mulq` instruction with `rax` and the multiplier as operands: the pair
(`rax`, `rdx`) afterwards, the low and the high 64 bits of the 128-bit product. -/
def mulq (rax m : Nat) : Nat × Nat :=
  let product := (rax * m) % 2 ^ 128
  (product % 2 ^ 64, (product >>> 64) % 2 ^ 64)

/-- One four-instruction block of the inline assembly of `toilet_quad_flush` (source
lines 852-870) for the word `stall`: load `toilet_souls[stall]` into `rax`, `mulq`,
store `rax` to `dop_fuels[stall]` and `rdx` to `toilet_souls[stall]`.  The state is the
pair (`toilet_souls`, `dop_fuels`). -/
def quad_flush_block (stall : Fin 4) (st : Quad × Quad) : Quad × Quad :=
  let r := mulq (st.1.get stall) sacred_multiplier
  (st.1.set stall r.2, st.2.set stall r.1)

/-- The call `toilet_quad_flush(toilet_souls, dop_fuels)` in a 64-bit GNU build (the
inline assembly): the pair (`toilet_souls`, `dop_fuels`) after the four blocks. -/
def toilet_quad_flush (toilet_souls dop_fuels : Quad) : Quad × Quad :=
  quad_flush_block 3 (quad_flush_block 2 (quad_flush_block 1
    (quad_flush_block 0 (toilet_souls, dop_fuels))))

/-- The call `toilet_quad_flush` in every other build (source lines 876-878): the loop
over `stall = 0..3` calling `toilet_consciousness_mul(&toilet_souls[stall])`. -/
def toilet_quad_flush_loop (toilet_souls dop_fuels : Quad) : Quad × Quad :=
  (List.finRange 4).foldl
    (fun st stall =>
      let r := toilet_consciousness_mul (st.1.get stall)
      (st.1.set stall r.2, st.2.set stall r.1))
    (toilet_souls, dop_fuels)

/-- The value of a 64-bit lane read as a signed integer (two's complement). -/
def lane_signed (x : Nat) : Int :=
  if x % 2 ^ 64 < 2 ^ 63 then ((x % 2 ^ 64 : Nat) : Int) else ((x % 2 ^ 64 : Nat) : Int) - 2 ^ 64

/-- The intrinsic `_mm256_set1_epi64x`: the value in all four 64-bit lanes. -/
def _mm256_set1_epi64x (a : Nat) : Quad := ⟨a % 2 ^ 64, a % 2 ^ 64, a % 2 ^ 64, a % 2 ^ 64⟩

/-- The intrinsic `_mm256_and_si256`. -/
def _mm256_and_si256 (a b : Quad) : Quad :=
  ⟨a.w0 &&& b.w0, a.w1 &&& b.w1, a.w2 &&& b.w2, a.w3 &&& b.w3⟩

/-- The intrinsic `_mm256_cmpgt_epi64`: per lane, all ones when `a > b` as signed
64-bit integers, zero otherwise. -/
def _mm256_cmpgt_epi64 (a b : Quad) : Quad :=
  ⟨if lane_signed a.w0 > lane_signed b.w0 then 2 ^ 64 - 1 else 0,
   if lane_signed a.w1 > lane_signed b.w1 then 2 ^ 64 - 1 else 0,
   if lane_signed a.w2 > lane_signed b.w2 then 2 ^ 64 - 1 else 0,
   if lane_signed a.w3 > lane_signed b.w3 then 2 ^ 64 - 1 else 0⟩

/-- The intrinsic `_mm256_movemask_pd`: bit `i` of the result is the top bit of lane `i`. -/
def _mm256_movemask_pd (a : Quad) : Nat :=
  ((a.w0 >>> 63) &&& 1) ||| (((a.w1 >>> 63) &&& 1) <<< 1) ||| (((a.w2 >>> 63) &&& 1) <<< 2)
    ||| (((a.w3 >>> 63) &&& 1) <<< 3)

/-- The classification of `toilet_factory_avx2` (source lines 1509-1510 and 1578-1581):
the four first draws are loaded as one vector, masked to bits 55..48, compared with the
broadcast threshold `69 << 48`, and the comparison is gathered into a 4-bit mask. -/
def prophecy_mask (entropy1 : Quad) : Nat :=
  let prophecy_threshold := _mm256_set1_epi64x (PROPHECY_THRESHOLD_NICE <<< 48)
  let prophecy_mask_bits := _mm256_set1_epi64x (0xFF <<< 48)
  let entropy_vec := entropy1
  let masked := _mm256_and_si256 entropy_vec prophecy_mask_bits
  let cmp_result := _mm256_cmpgt_epi64 prophecy_threshold masked
  _mm256_movemask_pd cmp_result % 2 ^ 32

/-- The lead words of `toilet_speak_with_entropy` (source lines 1326-1368): as in
`toilet_speak_ultra`, except that the table index of the fifth word is
`(zodiac_bits >> 20) & 0`. -/
def speak_dops_with_entropy (scroll : Scroll) (chisel_pos : Nat) (dop_population : Nat)
    (entropy2 : Nat) : Scroll × Nat :=
  let dom_infiltration := entropy2 % 2 ^ 32
  let zodiac_bits := (entropy2 >>> 20) % 2 ^ 32
  let r := inscribe_dop_rune scroll chisel_pos (dom_infiltration &&& 0x7 == 0)
    (DOP_ZODIAC_CHART.getD (zodiac_bits &&& 0x1F) 0)
  if dop_population ≥ 2 then
    let scroll := poke r.1 r.2 32
    let r := inscribe_dop_rune scroll (r.2 + 1) ((dom_infiltration >>> 3) &&& 0x7 == 0)
      (DOP_ZODIAC_CHART.getD ((zodiac_bits >>> 5) &&& 0x1F) 0)
    if dop_population ≥ 3 then
      let scroll := poke r.1 r.2 32
      let r := inscribe_dop_rune scroll (r.2 + 1) ((dom_infiltration >>> 6) &&& 0x7 == 0)
        (DOP_ZODIAC_CHART.getD ((zodiac_bits >>> 10) &&& 0x1F) 0)
      if dop_population ≥ 4 then
        let scroll := poke r.1 r.2 32
        let r := inscribe_dop_rune scroll (r.2 + 1) ((dom_infiltration >>> 9) &&& 0x7 == 0)
          (DOP_ZODIAC_CHART.getD ((zodiac_bits >>> 15) &&& 0x1F) 0)
        if dop_population ≥ 5 then
          let scroll := poke r.1 r.2 32
          inscribe_dop_rune scroll (r.2 + 1) ((dom_infiltration >>> 12) &&& 0x7 == 0)
            (DOP_ZODIAC_CHART.getD ((zodiac_bits >>> 20) &&& 0) 0)
        else r
      else r
    else r
  else r

/-- The batch assembler `toilet_speak_with_entropy(scroll, entropy1, entropy2)`: the
buffer after the stores and the returned length.  Its ending (source lines 1377-1422)
is, statement for statement, the ending of `toilet_speak_ultra` with `judgment_vibes`
as the verdict byte, embedded as `speak_verdict`. -/
def toilet_speak_with_entropy (scroll : Scroll) (entropy1 entropy2 : Nat) : Scroll × Nat :=
  let census_vibes := (entropy1 >>> 56) &&& 0xFF
  let vibration_vibes := (entropy1 >>> 48) &&& 0xFF
  let judgment_vibes := (entropy1 >>> 32) &&& 0xFF
  let has_vibration : Nat := if vibration_vibes < BRRRRR_VIBRATION_THRESHOLD then 1 else 0
  let scroll := toilet_yeet_8 scroll 0 TOILET_VIBRATION_PREFIX 0
  let chisel_pos := has_vibration * 7
  let scroll := toilet_yeet_8 scroll chisel_pos TOILET_GOD_NAME 0
  let chisel_pos := chisel_pos + 8
  let dop_population := divine_dop_census census_vibes
  let r := speak_dops_with_entropy scroll chisel_pos dop_population entropy2
  speak_verdict r.1 r.2 judgment_vibes entropy2

/-- The memory starting at `scroll + off`. -/
def scroll_at (scroll : Scroll) (off : Nat) : Scroll := fun i => scroll (off + i)

/-- The memory starting at `scroll` once the memory starting at `scroll + off` holds
`output`. -/
def scroll_back (scroll : Scroll) (off : Nat) (output : Scroll) : Scroll :=
  fun j => if off ≤ j then output (j - off) else scroll j

/-- The variables of a running batch: the context, the caller's buffer, the caller's
`lengths` array (absent when the pointer is null), and the two counters. -/
structure Factory where
  ctx : SkibidiContext
  scroll : Scroll
  inscription_lengths : Option (Nat → Int)
  toilets_flushed : Nat
  scroll_offset : Nat

/-- The statements that follow each phrase in the three batch loops (source lines
1618-1624, 1642-1648 and 1891-1895), for a phrase of length `len` that left the
generator as `rng` and the memory at `scroll + scroll_offset` as `output`:
`call_count++`, the store to the lengths array at index `slot` when it is non-null,
the newline after the phrase, and the two counters. -/
def batch_bookkeeping (st : Factory) (rng : SkibidiRngState) (output : Scroll) (len : Nat)
    (slot : Nat) : Factory :=
  { ctx := { st.ctx with rng := rng, call_count := (st.ctx.call_count + 1) % 2 ^ 64 }
    scroll := poke (scroll_back st.scroll st.scroll_offset output) (st.scroll_offset + len) 10
    inscription_lengths := st.inscription_lengths.map (fun a => Function.update a slot (len : Int))
    toilets_flushed := st.toilets_flushed + 1
    scroll_offset := st.scroll_offset + (len + 1) }

/-- One pass of the inner `for` loop of `toilet_factory_avx2` (source lines 1594-1625):
item `i` of a group is the canonical phrase, stored with the 32-byte copy, when bit `i`
of the mask is set, and the output of the batch assembler on its two draws otherwise. -/
def factory_item (st : Factory) (mask : Nat) (entropy1 entropy2 : Quad) (i : Fin 4) :
    Factory :=
  let output := scroll_at st.scroll st.scroll_offset
  let r : Scroll × Nat :=
    if (mask >>> i.val) &&& 1 ≠ 0 then
      (toilet_omega_flush_32 output 0 SACRED_PROPHECY 0, PROPHECY_SACRED_LENGTH)
    else toilet_speak_with_entropy output (entropy1.get i) (entropy2.get i)
  batch_bookkeeping st st.ctx.rng r.1 r.2 st.toilets_flushed

/-- One pass of the main loop of `toilet_factory_avx2` (source lines 1533-1625): two
four-draw operations on `rng->s0`, the classification, and the four items. -/
def factory_group (st : Factory) : Factory :=
  let q1 := toilet_quad_flush st.ctx.rng.s0 Quad.zero
  let entropy1 := q1.2
  let q2 := toilet_quad_flush q1.1 Quad.zero
  let entropy2 := q2.2
  let st := { st with ctx := { st.ctx with rng := { st.ctx.rng with s0 := q2.1 } } }
  let mask := prophecy_mask entropy1
  (List.finRange 4).foldl (fun st i => factory_item st mask entropy1 entropy2 i) st

/-- The main loop of `toilet_factory_avx2` (source lines 1524-1626).  The first argument
bounds the number of passes; every pass adds 4 to `toilets_flushed`, so `quota` passes
are never exhausted before the loop condition fails. -/
def factory_main_loop (quota scroll_capacity : Nat) : Nat → Factory → Factory
  | 0, st => st
  | n + 1, st =>
    if st.toilets_flushed + 4 ≤ quota ∧
        st.scroll_offset + 4 * SKIBIDI_MIN_BUFFER_SIZE ≤ scroll_capacity then
      factory_main_loop quota scroll_capacity n (factory_group st)
    else st

/-- The straggler loop of `toilet_factory_avx2` (source lines 1638-1649).  The first
argument bounds the number of passes; every pass adds 1 to `toilets_flushed`. -/
def factory_straggler_loop (build : Build) (hive : ToiletHivemind)
    (quota scroll_capacity : Nat) : Nat → Factory → Factory
  | 0, st => st
  | n + 1, st =>
    if st.toilets_flushed < quota ∧
        st.scroll_offset + SKIBIDI_MIN_BUFFER_SIZE ≤ scroll_capacity then
      let r := toilet_speak_ultra build hive st.ctx.rng (scroll_at st.scroll st.scroll_offset) true
      factory_straggler_loop build hive quota scroll_capacity n
        (batch_bookkeeping st r.1 r.2.1 r.2.2 st.toilets_flushed)
    else st

/-- The function `toilet_factory_avx2(ctx, scroll, scroll_capacity, quota,
inscription_lengths)` for `quota >= 1`: the state of the batch when it returns
`toilets_flushed`.  The prefetch of line 1533 stores nothing. -/
def toilet_factory_avx2 (build : Build) (hive : ToiletHivemind) (ctx : SkibidiContext)
    (scroll : Scroll) (scroll_capacity : Nat) (quota : Nat)
    (inscription_lengths : Option (Nat → Int)) : Factory :=
  let st : Factory := ⟨ctx, scroll, inscription_lengths, 0, 0⟩
  let st := factory_main_loop quota scroll_capacity quota st
  factory_straggler_loop build hive quota scroll_capacity quota st

/-- The scalar loop of `skibidi_generate_batch` (source lines 1887-1896) from the loop
variable `soul` on.  The first argument bounds the number of passes; every pass adds 1
to `soul`.  The length returned by `toilet_speak_ultra` is never negative, so the
`break` of line 1889 is not taken. -/
def batch_scalar_loop (build : Build) (hive : ToiletHivemind) (count buffer_size : Nat) :
    Nat → Nat → Factory → Factory
  | 0, _, st => st
  | n + 1, soul, st =>
    if soul < count ∧ st.scroll_offset + SKIBIDI_MIN_BUFFER_SIZE ≤ buffer_size then
      let r := toilet_speak_ultra build hive st.ctx.rng (scroll_at st.scroll st.scroll_offset) true
      batch_scalar_loop build hive count buffer_size n (soul + 1)
        (batch_bookkeeping st r.1 r.2.1 r.2.2 soul)
    else st

/-- The call `skibidi_generate_batch(ctx, buffer, buffer_size, count, lengths)`: the
context, the buffer and the lengths array after the call, and the returned `int`.
Counters are unbounded here: an `int` or `size_t` counter of the source wraps only for
a buffer of more than `2^31 - 4` phrases. -/
def skibidi_generate_batch (build : Build) (hive : ToiletHivemind)
    (ctx : Option SkibidiContext) (buffer : Option Scroll) (buffer_size : Nat) (count : Int)
    (lengths : Option (Nat → Int)) :
    Option SkibidiContext × Option Scroll × Option (Nat → Int) × Int :=
  match ctx, buffer with
  | some c, some b =>
    if buffer_size < SKIBIDI_MIN_BUFFER_SIZE then (ctx, buffer, lengths, 0)
    else if count ≤ 0 then (ctx, buffer, lengths, 0)
    else
      let st : Factory :=
        if build.TOILET_HAS_RIZZ_256 ∧ hive.flush_strategy ≥ 1 then
          toilet_factory_avx2 build hive c b buffer_size count.toNat lengths
        else
          batch_scalar_loop build hive count.toNat buffer_size count.toNat 0
            ⟨c, b, lengths, 0, 0⟩
      (some st.ctx, some st.scroll, st.inscription_lengths, (st.toilets_flushed : Int))
  | _, _ => (ctx, buffer, lengths, 0)

/-! ## Destruction and configuration -/

/-- The memory starting at a `uint64_t*`: word index to 64-bit word. -/
abbrev Porcelain := Nat → Nat

/-- The number of 64-bit words of a context: `sizeof(SkibidiContext) / sizeof(uint64_t)`
with `sizeof(SkibidiContext) == 192` (the header's `_Static_assert`). -/
def CONTEXT_WORDS : Nat := 192 / 8

/-- The 64-bit words of a context object in memory order (header lines 100-107 and
132-136): `s0`, `s1`, `buffer`, the word shared by `buffer_idx` (low half) and `_padding`
(high half), the two reserved words of the generator, the word of tail padding that
rounds the 32-byte-aligned generator up to 128 bytes, `call_count`, and the seven
reserved words. No field names the tail padding: `tail` is what the memory holds there
(anything at all in an object that was never initialised). -/
def context_words (c : SkibidiContext) (tail : Nat) : List Nat :=
  [c.rng.s0.w0, c.rng.s0.w1, c.rng.s0.w2, c.rng.s0.w3,
   c.rng.s1.w0, c.rng.s1.w1, c.rng.s1.w2, c.rng.s1.w3,
   c.rng.buffer.w0, c.rng.buffer.w1, c.rng.buffer.w2, c.rng.buffer.w3,
   (c.rng.buffer_idx % 2 ^ 32).toNat + 2 ^ 32 * (c.rng._padding % 2 ^ 32).toNat,
   c.rng.reserved0, c.rng.reserved1, tail, c.call_count]
    ++ (c.reserved ++ List.replicate 7 0).take 7

/-- The memory at the address of a context object: its words, then the memory `beyond`
the object. -/
def context_porcelain (c : SkibidiContext) (tail : Nat) (beyond : Porcelain) : Porcelain :=
  fun shard => if shard < CONTEXT_WORDS then (context_words c tail).getD shard 0
    else beyond shard

/-- The words of the context object at the start of a memory. -/
def porcelain_words (porcelain : Porcelain) : List Nat :=
  (List.range CONTEXT_WORDS).map porcelain

/-- Byte `i` of a memory of 64-bit words (little-endian, the x86 byte order). -/
def porcelain_byte (porcelain : Porcelain) (i : Nat) : Nat :=
  (porcelain (i / 8) >>> (8 * (i % 8))) % 256

/-- A 32-bit word read as an `int32_t`. -/
def int32_of (w : Nat) : Int :=
  if w % 2 ^ 32 < 2 ^ 31 then (w % 2 ^ 32 : Nat) else ((w % 2 ^ 32 : Nat) : Int) - 2 ^ 32

/-- The context whose memory holds the given 64-bit words. -/
def context_of_words (w : List Nat) : SkibidiContext :=
  { rng :=
      { s0 := ⟨w.getD 0 0, w.getD 1 0, w.getD 2 0, w.getD 3 0⟩
        s1 := ⟨w.getD 4 0, w.getD 5 0, w.getD 6 0, w.getD 7 0⟩
        buffer := ⟨w.getD 8 0, w.getD 9 0, w.getD 10 0, w.getD 11 0⟩
        buffer_idx := int32_of (w.getD 12 0)
        _padding := int32_of (w.getD 12 0 >>> 32)
        reserved0 := w.getD 13 0
        reserved1 := w.getD 14 0 }
    call_count := w.getD 16 0
    reserved := (w.drop 17).take 7 }

/-- Store of one word: `porcelain[shard] = v`. -/
def store (porcelain : Porcelain) (shard : Nat) (v : Nat) : Porcelain :=
  fun i => if i = shard then v else porcelain i

/-- The call `skibidi_destroy(ctx)` on the memory the pointer addresses, read through
`(volatile uint64_t*)ctx`: for a non-null pointer the loop runs `shard` over
`0 .. CONTEXT_WORDS - 1` and stores `porcelain[shard] = 0`; a null pointer is left alone. -/
def skibidi_destroy (ctx : Option Porcelain) : Option Porcelain :=
  match ctx with
  | none => none
  | some porcelain =>
    some ((List.range CONTEXT_WORDS).foldl
      (fun porcelain shard => store porcelain shard 0) porcelain)

/-- The struct `SkibidiConfig` (header lines 165-169). -/
structure SkibidiConfig where
  enable_avx512 : Int
  enable_simd_rng : Int
  reserved : List Int
deriving DecidableEq, Repr

/-- The call `skibidi_configure(config)`: the strategy state afterwards and the returned
`int`.  With `TOILET_HAS_RIZZ_256` clear the trailing `else` of the first preprocessor
block takes `(void)aura;` as its branch. -/
def skibidi_configure (build : Build) (cpu : Cpu) (hive : ToiletHivemind)
    (config : Option SkibidiConfig) : ToiletHivemind × Int :=
  match config with
  | none => (hive, SKIBIDI_ERR_NULL_PTR)
  | some config =>
    let hive := { hive with toilet_awake := 0 }
    let aura := scan_toilet_chakras build cpu
    let hive := { hive with toilet_powers := aura }
    let battle_form : Int :=
      match build.TOILET_HAS_GODMODE_512, build.TOILET_HAS_RIZZ_256 with
      | true, true =>
        if aura &&& SKIBIDI_CAP_AVX512F ≠ 0 ∧ config.enable_avx512 ≠ 0 then 2
        else if aura &&& SKIBIDI_CAP_AVX2 ≠ 0 then 1 else 0
      | true, false =>
        if aura &&& SKIBIDI_CAP_AVX512F ≠ 0 ∧ config.enable_avx512 ≠ 0 then 2 else 0
      | false, true => if aura &&& SKIBIDI_CAP_AVX2 ≠ 0 then 1 else 0
      | false, false => 0
    let hive := { hive with flush_strategy := battle_form }
    ({ hive with toilet_awake := 1 }, SKIBIDI_OK)

/-- The call `skibidi_get_config(config)`: the configuration written and the returned
`int`. -/
def skibidi_get_config (hive : ToiletHivemind) (config : Option SkibidiConfig) :
    Option SkibidiConfig × Int :=
  match config with
  | none => (none, SKIBIDI_ERR_NULL_PTR)
  | some _ =>
    (some { enable_avx512 := if hive.flush_strategy = 2 then 1 else 0
            enable_simd_rng := if hive.flush_strategy ≥ 1 then 1 else 0
            reserved := List.replicate 6 0 }, SKIBIDI_OK)

/-! ## Auxiliary definitions: the batch assembler, batches, the resolution rule -/

/-- The second draw with bits 44..40 cleared. -/
def fifth_cleared (e : Nat) : Nat := e % 2 ^ 40 + (e >>> 45) <<< 45

/-- Lead word number `k` of the batch assembler: as `lead_word`, except that the fifth
word (`k = 4`) takes its variant class from table index 0. -/
def entropy_lead_word (D2 k : Nat) : List Nat :=
  rune_text (decide ((D2 >>> (3 * k)) &&& 7 = 0))
    (DOP_ZODIAC_CHART.getD (if k = 4 then 0 else (D2 >>> (20 + 5 * k)) &&& 31) 0)

/-- The first `n` lead words of the batch assembler joined by single spaces. -/
def entropy_lead_words (D2 n : Nat) : List Nat :=
  List.intercalate [32] ((List.range n).map (entropy_lead_word D2))

/-- The phrase of the batch assembler for the draws `D1` and `D2`: the prefix test reads
bits 55..48 of `D1`, the verdict byte is bits 39..32. -/
def entropy_text (D1 D2 : Nat) : List Nat :=
  (if (D1 >>> 48) &&& 0xFF < 38 then cbytes "Brrrrr " else [])
    ++ cbytes "Skibidi " ++ entropy_lead_words D2 (word_count D1) ++ [32]
    ++ verdict_text ((D1 >>> 32) &&& 0xFF) D2

/-- The stores shared by both assemblers once the prefix flag `hv`, the word count `n`,
the verdict byte `t` and the sources `Dw` of the lead words and `Dv` of the verdict are
fixed: prefix, name, lead words, verdict. -/
def assemble (s : Scroll) (hv n Dw Dv t : Nat) : Scroll × Nat :=
  speak_verdict
    (speak_dops
      (toilet_yeet_8 (toilet_yeet_8 s 0 TOILET_VIBRATION_PREFIX 0) (hv * 7) TOILET_GOD_NAME 0)
      (hv * 7 + 8) n Dw).1
    (speak_dops
      (toilet_yeet_8 (toilet_yeet_8 s 0 TOILET_VIBRATION_PREFIX 0) (hv * 7) TOILET_GOD_NAME 0)
      (hv * 7 + 8) n Dw).2 t Dv

/-- The text `assemble` writes. -/
def assemble_text (hv n Dw Dv t : Nat) : List Nat :=
  (if hv = 1 then cbytes "Brrrrr " else []) ++ cbytes "Skibidi " ++ lead_words Dw n
    ++ [32] ++ verdict_text t Dv

/-- A byte a phrase may hold: an ASCII letter, a space or an exclamation mark. -/
def phrase_byte (b : Nat) : Bool :=
  (65 ≤ b && b ≤ 90) || (97 ≤ b && b ≤ 122) || b == 32 || b == 33

/-- Phrases laid out back to back, each followed by one newline byte. -/
def batch_text : List (List Nat) → List Nat
  | [] => []
  | p :: ps => p ++ [10] ++ batch_text ps

/-- The offset of phrase `i` in such a layout: the sum over `j < i` of `len_j + 1`. -/
def phrase_start (ps : List (List Nat)) (i : Nat) : Nat :=
  ((ps.take i).map (fun p => p.length + 1)).sum

/-- The lengths array after the lengths of the phrases `ps` were stored at the indices
`0 .. ps.length - 1`. -/
def lengths_after (lengths : Option (Nat → Int)) (ps : List (List Nat)) :
    Option (Nat → Int) :=
  lengths.map (fun a i => if i < ps.length then ((ps.getD i []).length : Int) else a i)

/-- What one generator call leaves at its output pointer: the phrase `p` in the first
`len` bytes, made of phrase bytes, of length 8 to 43; from offset `len` on every byte is
as before or NUL, from offset 43 on as before. -/
structure ItemOK (inp out : Scroll) (len : Nat) (p : List Nat) : Prop where
  length_eq : len = p.length
  lower : 8 ≤ len
  upper : len ≤ 43
  text : StartsWith out p
  bytes : ∀ x ∈ p, phrase_byte x = true
  tail : ∀ i, len ≤ i → out i = inp i ∨ out i = 0
  frame : ∀ i, 43 ≤ i → out i = inp i

/-- The state of a running batch that has produced the phrases `ps` in a buffer of
`size` bytes that held `buf0`, with the lengths array `lens0` at the start. -/
structure BatchInv (buf0 : Scroll) (lens0 : Option (Nat → Int)) (size : Nat)
    (st : Factory) (ps : List (List Nat)) : Prop where
  flushed : st.toilets_flushed = ps.length
  offset : st.scroll_offset = (batch_text ps).length
  fits : st.scroll_offset ≤ size
  text : StartsWith st.scroll (batch_text ps)
  good : ∀ p ∈ ps, 8 ≤ p.length ∧ p.length ≤ 43 ∧ ∀ x ∈ p, phrase_byte x = true
  tail : ∀ j, st.scroll_offset ≤ j → st.scroll j = buf0 j ∨ st.scroll j = 0
  frame : ∀ j, size ≤ j → st.scroll j = buf0 j
  lens : st.inscription_lengths = lengths_after lens0 ps

/-- Two runs of a batch loop that differ only in the tier: same context, lengths and
counters, and buffers that agree below the write position. -/
structure SameBatch (st1 st2 : Factory) : Prop where
  ctx : st1.ctx = st2.ctx
  lens : st1.inscription_lengths = st2.inscription_lengths
  flushed : st1.toilets_flushed = st2.toilets_flushed
  offset : st1.scroll_offset = st2.scroll_offset
  agree : AgreeBelow st1.scroll_offset st1.scroll st2.scroll

/-- The resolution rule in the words of the specification: tier 2 when the mask reports
AVX-512F, the build has 512-bit code and 512-bit use is allowed; else tier 1 when the
mask reports AVX2 and the build has 256-bit code; else tier 0. -/
def spec_tier (aura : Nat) (build : Build) (allow_512 : Bool) : Int :=
  if aura &&& SKIBIDI_CAP_AVX512F ≠ 0 ∧ build.TOILET_HAS_GODMODE_512 = true ∧ allow_512 = true
  then 2
  else if aura &&& SKIBIDI_CAP_AVX2 ≠ 0 ∧ build.TOILET_HAS_RIZZ_256 = true then 1
  else 0

/-! ## Auxiliary definitions: call sequences of both kinds, byte classes -/

/-- One single-phrase call on a context and a buffer of `buffer_size` bytes:
`skibidi_generate_variant` when `variant` is set, `skibidi_generate` otherwise. -/
def api_call (build : Build) (hive : ToiletHivemind) (variant : Bool) (c : SkibidiContext)
    (b : Scroll) (buffer_size : Nat) : Option SkibidiContext × Option Scroll × Int :=
  if variant then skibidi_generate_variant build hive (some c) (some b) buffer_size
  else skibidi_generate build hive (some c) (some b) buffer_size

/-- The context after a sequence of single-phrase calls, each given by its kind, its
buffer and its buffer size. -/
def api_calls (build : Build) (hive : ToiletHivemind) :
    List (Bool × Scroll × Nat) → SkibidiContext → SkibidiContext
  | [], c => c
  | x :: rest, c =>
    api_calls build hive rest ((api_call build hive x.1 c x.2.1 x.2.2).1.getD c)

/-- An ASCII letter or a space. -/
def letter_or_space (b : Nat) : Bool := (65 ≤ b && b ≤ 90) || (97 ≤ b && b ≤ 122) || b == 32

/-- The capitalisation of a word: per byte, whether it is an upper-case letter. -/
def case_pattern (w : List Nat) : List Bool := w.map (fun b => decide (65 ≤ b ∧ b ≤ 90))

/-- The phrase a successful single-phrase call writes when the primary state word
`s0[0]` is `s`: the canonical phrase when `skibidi_generate` draws a value whose bits
55..48 are below 69, the expanded text of the first two draws otherwise. -/
def single_text (variant : Bool) (s : Nat) : List Nat :=
  if ¬ variant ∧ (soul_fuel s >>> 48) &&& 0xFF < 69 then cbytes "Skibidi dop dop yes yes!"
  else expanded_text (!variant) (soul_fuel s) (soul_fuel (soul_step s))

/-- The primary state word after a successful single-phrase call that found it at `s`:
one draw on the fast path, two otherwise. -/
def single_next (variant : Bool) (s : Nat) : Nat :=
  if ¬ variant ∧ (soul_fuel s >>> 48) &&& 0xFF < 69 then soul_step s
  else soul_step (soul_step s)

/-- The context after a successful single-phrase call: `s0[0]` replaced, `call_count`
incremented as a 64-bit counter, every other field kept. -/
def context_after (variant : Bool) (c : SkibidiContext) : SkibidiContext :=
  { c with
    rng := { c.rng with s0 := { c.rng.s0 with w0 := single_next variant (c.rng.s0.get 0) } }
    call_count := (c.call_count + 1) % 2 ^ 64 }

/-! ## Lemmas and theorems -/

theorem Quad.get_set_zero (q : Quad) (v : Nat) : (q.set 0 v).get 0 = v := rfl

theorem divine_dop_census_bounds (v : Nat) :
    1 ≤ divine_dop_census v ∧ divine_dop_census v ≤ 5 := by
  unfold divine_dop_census
  split_ifs <;> omega

theorem speak_verdict_pos (scroll : Scroll) (p t e : Nat) :
    (speak_verdict scroll p t e).2 = if t ≥ TOILET_REJECTION_THRESHOLD then p + 9 else p + 7 := by
  unfold speak_verdict
  simp only []
  split_ifs <;> simp

theorem poke_frame (s : Scroll) (pos b i : Nat) (h : i ≠ pos) : poke s pos b i = s i := by
  simp [poke, h]

theorem yeet_frame (n : Nat) (s : Scroll) (dst : Nat) (src : List Nat) (off i : Nat)
    (h : i < dst ∨ dst + n ≤ i) : yeet n s dst src off i = s i := by
  unfold yeet
  split_ifs with hc
  · omega
  · rfl

theorem speak_dops_frame (scroll : Scroll) (p n e i : Nat) (h : i < p ∨ p + 20 ≤ i) :
    (speak_dops scroll p n e).1 i = scroll i := by
  unfold speak_dops
  simp only [inscribe_dop_rune, toilet_yeet_4]
  split_ifs <;> simp only [] <;>
    repeat (first
      | rw [yeet_frame _ _ _ _ _ _ (by omega)]
      | rw [poke_frame _ _ _ _ (by omega)])

theorem speak_dops_pos_eq (scroll : Scroll) (p n e : Nat) :
    (speak_dops scroll p n e).2 = p + 4 * min (max n 1) 5 - 1 := by
  unfold speak_dops
  simp only [inscribe_dop_rune]
  split_ifs <;> dsimp only <;> omega

theorem speak_verdict_frame (scroll : Scroll) (p t e i : Nat) (h : i < p ∨ p + 9 ≤ i) :
    (speak_verdict scroll p t e).1 i = scroll i := by
  unfold speak_verdict
  simp only [toilet_yeet_8, toilet_yeet_4, toilet_yeet_2]
  split_ifs <;> simp only [] <;>
    repeat (first
      | rw [yeet_frame _ _ _ _ _ _ (by omega)]
      | rw [poke_frame _ _ _ _ (by omega)])

theorem expanded_len_bounds (rng : SkibidiRngState) (scroll : Scroll) (c : Bool) (e : Nat) :
    18 ≤ (toilet_speak_expanded rng scroll c e).2.2 ∧
      (toilet_speak_expanded rng scroll c e).2.2 ≤ 43 := by
  unfold toilet_speak_expanded
  simp only [speak_verdict_pos, speak_dops_pos_eq]
  split_ifs <;> omega

theorem speak_ultra_len_bounds (build : Build) (hive : ToiletHivemind) (rng : SkibidiRngState)
    (scroll : Scroll) (c : Bool) :
    18 ≤ (toilet_speak_ultra build hive rng scroll c).2.2 ∧
      (toilet_speak_ultra build hive rng scroll c).2.2 ≤ 43 := by
  unfold toilet_speak_ultra
  simp only []
  split_ifs
  · simp [PROPHECY_SACRED_LENGTH]
  · simp [PROPHECY_SACRED_LENGTH]
  · exact expanded_len_bounds _ _ _ _

theorem expanded_frame (rng : SkibidiRngState) (scroll : Scroll) (c : Bool) (e i : Nat)
    (h : 43 ≤ i) : (toilet_speak_expanded rng scroll c e).2.1 i = scroll i := by
  unfold toilet_speak_expanded
  simp only []
  rw [speak_verdict_frame _ _ _ _ _ (by
    right
    rw [speak_dops_pos_eq]
    split_ifs <;> omega)]
  rw [speak_dops_frame _ _ _ _ _ (by
    right
    split_ifs <;> omega)]
  unfold toilet_yeet_8
  rw [yeet_frame _ _ _ _ _ _ (by
    right
    split_ifs <;> omega)]
  rw [yeet_frame _ _ _ _ _ _ (by omega)]

theorem speak_ultra_frame (build : Build) (hive : ToiletHivemind) (rng : SkibidiRngState)
    (scroll : Scroll) (c : Bool) (i : Nat) (h : 43 ≤ i) :
    (toilet_speak_ultra build hive rng scroll c).2.1 i = scroll i := by
  unfold toilet_speak_ultra
  simp only []
  split_ifs
  · simp only [toilet_omega_flush_32]
    rw [yeet_frame _ _ _ _ _ _ (by omega)]
  · simp only [toilet_yeet_24]
    rw [yeet_frame _ _ _ _ _ _ (by omega), yeet_frame _ _ _ _ _ _ (by omega),
      yeet_frame _ _ _ _ _ _ (by omega)]
  · exact expanded_frame _ _ _ _ _ h

/-- C1: for every context state and every non-null buffer with `buffer_size >= 64`,
`skibidi_generate` and `skibidi_generate_variant` return a length `L` with
`8 <= L <= 43`. -/
theorem C1_length_in_8_43 (build : Build) (hive : ToiletHivemind) (c : SkibidiContext)
    (b : Scroll) (buffer_size : Nat) (h : 64 ≤ buffer_size) :
    (8 ≤ (skibidi_generate build hive (some c) (some b) buffer_size).2.2 ∧
      (skibidi_generate build hive (some c) (some b) buffer_size).2.2 ≤ 43) ∧
    (8 ≤ (skibidi_generate_variant build hive (some c) (some b) buffer_size).2.2 ∧
      (skibidi_generate_variant build hive (some c) (some b) buffer_size).2.2 ≤ 43) := by
  have hs : ¬ buffer_size < SKIBIDI_MIN_BUFFER_SIZE := by
    simp only [SKIBIDI_MIN_BUFFER_SIZE]; omega
  simp only [skibidi_generate, skibidi_generate_variant, hs, if_false]
  have h1 := speak_ultra_len_bounds build hive c.rng b true
  have h2 := speak_ultra_len_bounds build hive c.rng b false
  omega

theorem C1_length_in_8_43_witness :
    64 ≤ 64 ∧
    ((8 ≤ (skibidi_generate scalar_build scalar_hive (some (init_context 42))
        (some blank_scroll) 64).2.2 ∧
      (skibidi_generate scalar_build scalar_hive (some (init_context 42))
        (some blank_scroll) 64).2.2 ≤ 43) ∧
    (8 ≤ (skibidi_generate_variant scalar_build scalar_hive (some (init_context 42))
        (some blank_scroll) 64).2.2 ∧
      (skibidi_generate_variant scalar_build scalar_hive (some (init_context 42))
        (some blank_scroll) 64).2.2 ≤ 43)) :=
  ⟨by decide, C1_length_in_8_43 scalar_build scalar_hive (init_context 42) blank_scroll 64
    (by decide)⟩

/-- C2: `skibidi_generate` and `skibidi_generate_variant` return
`SKIBIDI_ERR_NULL_PTR` (-1) exactly when `ctx` or `buffer` is null; otherwise they
return `SKIBIDI_ERR_BUFFER_TOO_SMALL` (-2) exactly when `buffer_size < 64`; otherwise
they return a positive length.  The null check takes precedence over the size check. -/
theorem C2_error_codes (build : Build) (hive : ToiletHivemind) (ctx : Option SkibidiContext)
    (buffer : Option Scroll) (buffer_size : Nat) :
    (((skibidi_generate build hive ctx buffer buffer_size).2.2 = -1 ↔
        (ctx.isNone ∨ buffer.isNone)) ∧
      ((skibidi_generate build hive ctx buffer buffer_size).2.2 = -2 ↔
        (ctx.isSome ∧ buffer.isSome ∧ buffer_size < 64)) ∧
      (0 < (skibidi_generate build hive ctx buffer buffer_size).2.2 ↔
        (ctx.isSome ∧ buffer.isSome ∧ 64 ≤ buffer_size))) ∧
    (((skibidi_generate_variant build hive ctx buffer buffer_size).2.2 = -1 ↔
        (ctx.isNone ∨ buffer.isNone)) ∧
      ((skibidi_generate_variant build hive ctx buffer buffer_size).2.2 = -2 ↔
        (ctx.isSome ∧ buffer.isSome ∧ buffer_size < 64)) ∧
      (0 < (skibidi_generate_variant build hive ctx buffer buffer_size).2.2 ↔
        (ctx.isSome ∧ buffer.isSome ∧ 64 ≤ buffer_size))) := by
  cases ctx with
  | none =>
    cases buffer <;>
      simp [skibidi_generate, skibidi_generate_variant, SKIBIDI_ERR_NULL_PTR]
  | some c =>
    cases buffer with
    | none => simp [skibidi_generate, skibidi_generate_variant, SKIBIDI_ERR_NULL_PTR]
    | some b =>
      have h1 := speak_ultra_len_bounds build hive c.rng b true
      have h2 := speak_ultra_len_bounds build hive c.rng b false
      by_cases hs : buffer_size < 64
      · simp [skibidi_generate, skibidi_generate_variant, SKIBIDI_ERR_BUFFER_TOO_SMALL,
          SKIBIDI_MIN_BUFFER_SIZE, hs]
      · simp only [skibidi_generate, skibidi_generate_variant, SKIBIDI_MIN_BUFFER_SIZE, hs,
          if_false, Option.isNone_some, Option.isSome_some]
        have hs' : 64 ≤ buffer_size := by omega
        simp only [hs', and_true, and_false, or_false, iff_false, iff_true, Bool.false_eq_true]
        refine ⟨⟨?_, ?_, ?_⟩, ?_, ?_, ?_⟩ <;> omega

/-- C3: a `skibidi_generate` or `skibidi_generate_variant` call that returns an
error (a negative value) leaves the whole context unchanged, so no draw is consumed
and `call_count` is not incremented, and leaves the output buffer unchanged. -/
theorem C3_error_leaves_state (build : Build) (hive : ToiletHivemind)
    (ctx : Option SkibidiContext) (buffer : Option Scroll) (buffer_size : Nat) :
    ((skibidi_generate build hive ctx buffer buffer_size).2.2 < 0 →
      (skibidi_generate build hive ctx buffer buffer_size).1 = ctx ∧
      (skibidi_generate build hive ctx buffer buffer_size).2.1 = buffer) ∧
    ((skibidi_generate_variant build hive ctx buffer buffer_size).2.2 < 0 →
      (skibidi_generate_variant build hive ctx buffer buffer_size).1 = ctx ∧
      (skibidi_generate_variant build hive ctx buffer buffer_size).2.1 = buffer) := by
  cases ctx with
  | none => cases buffer <;> simp [skibidi_generate, skibidi_generate_variant]
  | some c =>
    cases buffer with
    | none => simp [skibidi_generate, skibidi_generate_variant]
    | some b =>
      by_cases hs : buffer_size < SKIBIDI_MIN_BUFFER_SIZE
      · simp [skibidi_generate, skibidi_generate_variant, hs]
      · simp only [skibidi_generate, skibidi_generate_variant, hs, if_false]
        constructor <;> intro h <;> omega

theorem C3_error_leaves_state_witness :
    ((skibidi_generate scalar_build scalar_hive (some (init_context 42))
        (some blank_scroll) 63).2.2 < 0 ∧
      (skibidi_generate scalar_build scalar_hive (some (init_context 42))
        (some blank_scroll) 63).1 = some (init_context 42) ∧
      (skibidi_generate scalar_build scalar_hive (some (init_context 42))
        (some blank_scroll) 63).2.1 = some blank_scroll) ∧
    ((skibidi_generate_variant scalar_build scalar_hive none
        (some blank_scroll) 64).2.2 < 0 ∧
      (skibidi_generate_variant scalar_build scalar_hive none
        (some blank_scroll) 64).1 = none ∧
      (skibidi_generate_variant scalar_build scalar_hive none
        (some blank_scroll) 64).2.1 = some blank_scroll) :=
  ⟨⟨by decide, (C3_error_leaves_state scalar_build scalar_hive (some (init_context 42))
      (some blank_scroll) 63).1 (by decide)⟩,
    ⟨by decide, (C3_error_leaves_state scalar_build scalar_hive none
      (some blank_scroll) 64).2 (by decide)⟩⟩

/-- C4: for every context state, both modes and every tier, a single-phrase
generation modifies no buffer byte at offset 43 or beyond (hence none at offset 64
or beyond), the over-wide fixed copies included. -/
theorem C4_no_write_from_43 (build : Build) (hive : ToiletHivemind) (c : SkibidiContext)
    (b : Scroll) (buffer_size : Nat) (i : Nat) (hi : 43 ≤ i) :
    (∃ b1, (skibidi_generate build hive (some c) (some b) buffer_size).2.1 = some b1 ∧
      b1 i = b i) ∧
    (∃ b2, (skibidi_generate_variant build hive (some c) (some b) buffer_size).2.1 = some b2 ∧
      b2 i = b i) ∧
    (toilet_speak_ultra build hive c.rng b true).2.1 i = b i ∧
    (toilet_speak_ultra build hive c.rng b false).2.1 i = b i := by
  have h1 := speak_ultra_frame build hive c.rng b true i hi
  have h2 := speak_ultra_frame build hive c.rng b false i hi
  refine ⟨?_, ?_, h1, h2⟩
  · by_cases hs : buffer_size < SKIBIDI_MIN_BUFFER_SIZE
    · exact ⟨b, by simp [skibidi_generate, hs], rfl⟩
    · exact ⟨_, by simp only [skibidi_generate, hs, if_false], h1⟩
  · by_cases hs : buffer_size < SKIBIDI_MIN_BUFFER_SIZE
    · exact ⟨b, by simp [skibidi_generate_variant, hs], rfl⟩
    · exact ⟨_, by simp only [skibidi_generate_variant, hs, if_false], h2⟩

theorem C4_no_write_from_43_witness :
    43 ≤ 43 ∧
    ((∃ b1, (skibidi_generate avx2_build avx2_hive (some (init_context 0))
        (some blank_scroll) 64).2.1 = some b1 ∧ b1 43 = blank_scroll 43) ∧
    (∃ b2, (skibidi_generate_variant avx2_build avx2_hive (some (init_context 0))
        (some blank_scroll) 64).2.1 = some b2 ∧ b2 43 = blank_scroll 43) ∧
    (toilet_speak_ultra avx2_build avx2_hive (init_context 0).rng blank_scroll true).2.1 43
      = blank_scroll 43 ∧
    (toilet_speak_ultra avx2_build avx2_hive (init_context 0).rng blank_scroll false).2.1 43
      = blank_scroll 43) :=
  ⟨by decide, C4_no_write_from_43 avx2_build avx2_hive (init_context 0) blank_scroll 64 43
    (by decide)⟩

/-- C7: for every 64-bit state `s`, one draw returns `(s * M) mod 2^64` and replaces
the state by `floor(s * M / 2^64)`, where `M = 0xda942042e4dd58b5`; the draw on a
generator applies this to `s0[0]`. -/
theorem C7_draw_is_mul_split (s : Nat) (hs : s < 2 ^ 64) (rng : SkibidiRngState) :
    toilet_consciousness_mul s
      = ((s * 0xda942042e4dd58b5) % 2 ^ 64, (s * 0xda942042e4dd58b5) / 2 ^ 64) ∧
    (toilet_flush_entropy rng).1 = (toilet_consciousness_mul (rng.s0.get 0)).1 ∧
    (toilet_flush_entropy rng).2.s0.get 0 = (toilet_consciousness_mul (rng.s0.get 0)).2 := by
  refine ⟨?_, rfl, rfl⟩
  unfold toilet_consciousness_mul sacred_multiplier
  have hlt : s * 0xda942042e4dd58b5 < 2 ^ 128 := by
    calc s * 0xda942042e4dd58b5 < 2 ^ 64 * 0xda942042e4dd58b5 :=
          Nat.mul_lt_mul_of_pos_right hs (by norm_num)
      _ ≤ 2 ^ 128 := by norm_num
  simp only [Nat.mod_eq_of_lt hlt, Nat.shiftRight_eq_div_pow]
  congr 1
  apply Nat.mod_eq_of_lt
  apply Nat.div_lt_of_lt_mul
  calc s * 0xda942042e4dd58b5 < 2 ^ 64 * 0xda942042e4dd58b5 :=
        Nat.mul_lt_mul_of_pos_right hs (by norm_num)
    _ ≤ 2 ^ 64 * 2 ^ 64 := by norm_num

theorem C7_draw_is_mul_split_witness :
    12058926934050108963 < 2 ^ 64 ∧
    (toilet_consciousness_mul 12058926934050108963
      = ((12058926934050108963 * 0xda942042e4dd58b5) % 2 ^ 64,
          (12058926934050108963 * 0xda942042e4dd58b5) / 2 ^ 64) ∧
    (toilet_flush_entropy (init_context 42).rng).1
      = (toilet_consciousness_mul ((init_context 42).rng.s0.get 0)).1 ∧
    (toilet_flush_entropy (init_context 42).rng).2.s0.get 0
      = (toilet_consciousness_mul ((init_context 42).rng.s0.get 0)).2) :=
  ⟨by norm_num, C7_draw_is_mul_split 12058926934050108963 (by norm_num) (init_context 42).rng⟩

theorem AgreeBelow.mono {n m : Nat} {a b : Scroll} (h : AgreeBelow n a b) (hm : m ≤ n) :
    AgreeBelow m a b := fun i hi => h i (Nat.lt_of_lt_of_le hi hm)

theorem agree_poke {n : Nat} {a b : Scroll} (h : AgreeBelow n a b) (pos v : Nat)
    (hp : pos ≤ n) : AgreeBelow (max n (pos + 1)) (poke a pos v) (poke b pos v) := by
  intro i hi
  unfold poke
  split_ifs with hc
  · rfl
  · exact h i (by omega)

theorem agree_yeet {n : Nat} {a b : Scroll} (h : AgreeBelow n a b) (k dst : Nat)
    (src : List Nat) (off : Nat) (hp : dst ≤ n) :
    AgreeBelow (max n (dst + k)) (yeet k a dst src off) (yeet k b dst src off) := by
  intro i hi
  unfold yeet
  split_ifs with hc
  · rfl
  · exact h i (by omega)

theorem agree_inscribe {n : Nat} {a b : Scroll} (h : AgreeBelow n a b) (p : Nat) (d : Bool)
    (z : Nat) (hp : p ≤ n) :
    AgreeBelow (p + 4) (inscribe_dop_rune a p d z).1 (inscribe_dop_rune b p d z).1 := by
  unfold inscribe_dop_rune toilet_yeet_4
  exact (agree_yeet h 4 p _ _ hp).mono (by omega)

theorem agree_space_inscribe {a b : Scroll} {p : Nat} (h : AgreeBelow (p + 1) a b) (d : Bool)
    (z : Nat) :
    AgreeBelow (p + 5) (inscribe_dop_rune (poke a p 32) (p + 1) d z).1
      (inscribe_dop_rune (poke b p 32) (p + 1) d z).1 :=
  agree_inscribe ((agree_poke h p 32 (by omega)).mono (le_max_left _ _)) (p + 1) d z (le_refl _)

theorem agree_speak_dops {a b : Scroll} {p : Nat} (h : AgreeBelow p a b) (n e : Nat) :
    AgreeBelow ((speak_dops a p n e).2 + 1) (speak_dops a p n e).1 (speak_dops b p n e).1 := by
  have h1 := agree_inscribe h p ((e % 2 ^ 32) &&& 0x7 == 0)
    (DOP_ZODIAC_CHART.getD (((e >>> 20) % 2 ^ 32) &&& 0x1F) 0) (le_refl _)
  unfold speak_dops
  simp only []
  split_ifs
  · exact agree_space_inscribe (agree_space_inscribe (agree_space_inscribe
      (agree_space_inscribe h1 _ _) _ _) _ _) _ _
  · exact agree_space_inscribe (agree_space_inscribe (agree_space_inscribe h1 _ _) _ _) _ _
  · exact agree_space_inscribe (agree_space_inscribe h1 _ _) _ _
  · exact agree_space_inscribe h1 _ _
  · exact h1

theorem agree_yeet_next {a b : Scroll} {p : Nat} (h : AgreeBelow p a b) (k w : Nat)
    (src : List Nat) (off : Nat) (hw : w ≤ k) :
    AgreeBelow (p + w) (yeet k a p src off) (yeet k b p src off) :=
  (agree_yeet h k p src off (le_refl _)).mono (by omega)

theorem agree_poke_next {a b : Scroll} {p : Nat} (h : AgreeBelow p a b) (v : Nat) :
    AgreeBelow (p + 1) (poke a p v) (poke b p v) :=
  (agree_poke h p v (le_refl _)).mono (le_max_right _ _)

theorem agree_speak_verdict {a b : Scroll} {p : Nat} (h : AgreeBelow p a b) (t e : Nat) :
    AgreeBelow (speak_verdict a p t e).2 (speak_verdict a p t e).1 (speak_verdict b p t e).1 := by
  have h0 := agree_poke_next h 32
  unfold speak_verdict toilet_yeet_8 toilet_yeet_4 toilet_yeet_2
  simp only []
  split_ifs
  · exact agree_yeet_next h0 8 8 _ _ (le_refl _)
  · exact agree_poke_next (agree_yeet_next (agree_poke_next
      (agree_yeet_next h0 4 3 TOILET_APPROVAL_MULTIVERSE _ (by omega)) 32) 4 3
      TOILET_APPROVAL_MULTIVERSE _ (by omega)) 33
  · exact agree_yeet_next h0 8 6 _ _ (by omega)
  · exact agree_poke_next (agree_yeet_next (agree_poke_next
      (agree_yeet_next h0 2 2 TOILET_REJECTION_MULTIVERSE _ (le_refl _)) 32) 2 2
      TOILET_REJECTION_MULTIVERSE _ (le_refl _)) 33

theorem agree_speak_verdict_at {a b : Scroll} {p q : Nat} (h : AgreeBelow p a b) (hq : p = q)
    (t e : Nat) :
    AgreeBelow (speak_verdict a p t e).2 (speak_verdict a p t e).1 (speak_verdict b q t e).1 := by
  subst hq
  exact agree_speak_verdict h t e

theorem speak_dops_pos_indep (a b : Scroll) (p n e : Nat) :
    (speak_dops a p n e).2 = (speak_dops b p n e).2 := by
  rw [speak_dops_pos_eq, speak_dops_pos_eq]

theorem speak_verdict_pos_indep (a b : Scroll) (p t e : Nat) :
    (speak_verdict a p t e).2 = (speak_verdict b p t e).2 := by
  rw [speak_verdict_pos, speak_verdict_pos]

theorem agree_prefix (a b : Scroll) (hv : Nat) (h : hv ≤ 1) :
    AgreeBelow (hv * 7 + 8)
      (toilet_yeet_8 (toilet_yeet_8 a 0 TOILET_VIBRATION_PREFIX 0) (hv * 7) TOILET_GOD_NAME 0)
      (toilet_yeet_8 (toilet_yeet_8 b 0 TOILET_VIBRATION_PREFIX 0) (hv * 7) TOILET_GOD_NAME 0) := by
  have h0 : AgreeBelow 0 a b := fun i hi => absurd hi (Nat.not_lt_zero i)
  have h1 := (agree_yeet h0 8 0 TOILET_VIBRATION_PREFIX 0 (le_refl _)).mono (m := 8) (by omega)
  unfold toilet_yeet_8
  exact (agree_yeet h1 8 (hv * 7) TOILET_GOD_NAME 0 (by omega)).mono (by omega)

theorem expanded_indep (rng : SkibidiRngState) (a b : Scroll) (c : Bool) (e : Nat) :
    (toilet_speak_expanded rng a c e).1 = (toilet_speak_expanded rng b c e).1 ∧
    (toilet_speak_expanded rng a c e).2.2 = (toilet_speak_expanded rng b c e).2.2 ∧
    AgreeBelow (toilet_speak_expanded rng a c e).2.2 (toilet_speak_expanded rng a c e).2.1
      (toilet_speak_expanded rng b c e).2.1 := by
  refine ⟨rfl, ?_, ?_⟩
  · unfold toilet_speak_expanded
    simp only [speak_verdict_pos, speak_dops_pos_eq]
  · unfold toilet_speak_expanded
    simp only []
    have hp := agree_prefix a b
      (if (if c = true then (e >>> 40) &&& 0xFF else (e >>> 48) &&& 0xFF) <
        BRRRRR_VIBRATION_THRESHOLD then 1 else 0) (by split_ifs <;> omega)
    have hd := (agree_speak_dops hp (divine_dop_census ((e >>> 56) &&& 0xFF))
      (toilet_flush_entropy rng).1).mono (Nat.le_succ _)
    exact agree_speak_verdict_at hd (speak_dops_pos_indep _ _ _ _ _) _ _

theorem phrase_congr {n : Nat} {a b : Scroll} (h : AgreeBelow n a b) : phrase a n = phrase b n := by
  unfold phrase
  apply List.map_congr_left
  intro i hi
  exact h i (List.mem_range.mp hi)

theorem prophecy_scalar_bytes (s : Scroll) (i : Nat) (h : i < 24) :
    toilet_yeet_24 s 0 SACRED_PROPHECY 0 i = SACRED_PROPHECY.getD i 0 := by
  unfold toilet_yeet_24 yeet
  split_ifs <;> first | omega | (congr 1; omega)

theorem prophecy_vector_bytes (s : Scroll) (i : Nat) (h : i < 32) :
    toilet_omega_flush_32 s 0 SACRED_PROPHECY 0 i = SACRED_PROPHECY.getD i 0 := by
  unfold toilet_omega_flush_32 yeet
  split_ifs <;> first | omega | (congr 1; omega)

theorem prophecy_phrase :
    phrase (fun i => SACRED_PROPHECY.getD i 0) 24 = cbytes "Skibidi dop dop yes yes!" := by
  decide

/-- The fast path of `toilet_speak_ultra`, whatever the tier: length 24 and the
canonical phrase in the first 24 bytes. -/
theorem speak_ultra_fast (build : Build) (hive : ToiletHivemind) (rng : SkibidiRngState)
    (s : Scroll) (hf : ((toilet_flush_entropy rng).1 >>> 48) &&& 0xFF < 69) :
    (toilet_speak_ultra build hive rng s true).1 = (toilet_flush_entropy rng).2 ∧
    (toilet_speak_ultra build hive rng s true).2.2 = 24 ∧
    phrase (toilet_speak_ultra build hive rng s true).2.1 24
      = cbytes "Skibidi dop dop yes yes!" := by
  have hc : (true = true ∧ ((toilet_flush_entropy rng).1 >>> 48) &&& 0xFF
      < PROPHECY_THRESHOLD_NICE) := ⟨rfl, hf⟩
  unfold toilet_speak_ultra
  dsimp only
  rw [if_pos hc]
  split_ifs
  · refine ⟨rfl, rfl, ?_⟩
    rw [← prophecy_phrase]
    exact phrase_congr (fun i hi => prophecy_vector_bytes s i (by omega))
  · refine ⟨rfl, rfl, ?_⟩
    rw [← prophecy_phrase]
    exact phrase_congr (fun i hi => prophecy_scalar_bytes s i hi)

/-- Outside the fast path `toilet_speak_ultra` is its expanded path. -/
theorem speak_ultra_slow (build : Build) (hive : ToiletHivemind) (rng : SkibidiRngState)
    (s : Scroll) (c : Bool)
    (hf : ¬ (c = true ∧ ((toilet_flush_entropy rng).1 >>> 48) &&& 0xFF < 69)) :
    toilet_speak_ultra build hive rng s c
      = toilet_speak_expanded (toilet_flush_entropy rng).2 s c (toilet_flush_entropy rng).1 := by
  have hc : ¬ (c = true ∧ ((toilet_flush_entropy rng).1 >>> 48) &&& 0xFF
      < PROPHECY_THRESHOLD_NICE) := hf
  unfold toilet_speak_ultra
  dsimp only
  rw [if_neg hc]

/-- The generator, the length and the phrase written by `toilet_speak_ultra` do not
depend on the tier or on what the buffer held before. -/
theorem speak_ultra_indep (build1 build2 : Build) (hive1 hive2 : ToiletHivemind)
    (rng : SkibidiRngState) (a b : Scroll) (c : Bool) :
    (toilet_speak_ultra build1 hive1 rng a c).1 = (toilet_speak_ultra build2 hive2 rng b c).1 ∧
    (toilet_speak_ultra build1 hive1 rng a c).2.2
      = (toilet_speak_ultra build2 hive2 rng b c).2.2 ∧
    phrase (toilet_speak_ultra build1 hive1 rng a c).2.1
        (toilet_speak_ultra build1 hive1 rng a c).2.2
      = phrase (toilet_speak_ultra build2 hive2 rng b c).2.1
        (toilet_speak_ultra build2 hive2 rng b c).2.2 := by
  by_cases hf : c = true ∧ ((toilet_flush_entropy rng).1 >>> 48) &&& 0xFF < 69
  · obtain ⟨hc, hlt⟩ := hf
    subst hc
    obtain ⟨a1, a2, a3⟩ := speak_ultra_fast build1 hive1 rng a hlt
    obtain ⟨b1, b2, b3⟩ := speak_ultra_fast build2 hive2 rng b hlt
    rw [a1, a2, b1, b2, a3, b3]
    exact ⟨rfl, rfl, rfl⟩
  · rw [speak_ultra_slow build1 hive1 rng a c hf, speak_ultra_slow build2 hive2 rng b c hf]
    obtain ⟨e1, e2, e3⟩ := expanded_indep (toilet_flush_entropy rng).2 a b c
      (toilet_flush_entropy rng).1
    refine ⟨e1, e2, ?_⟩
    rw [← e2]
    exact phrase_congr e3

theorem speak_ultra_fast_scroll (build : Build) (hive : ToiletHivemind) (rng : SkibidiRngState)
    (s : Scroll) (hf : ((toilet_flush_entropy rng).1 >>> 48) &&& 0xFF < 69) :
    (toilet_speak_ultra build hive rng s true).2.1
      = if build.TOILET_HAS_RIZZ_256 = true ∧ hive.flush_strategy ≥ 1
        then toilet_omega_flush_32 s 0 SACRED_PROPHECY 0
        else toilet_yeet_24 s 0 SACRED_PROPHECY 0 := by
  have hc : (true = true ∧ ((toilet_flush_entropy rng).1 >>> 48) &&& 0xFF
      < PROPHECY_THRESHOLD_NICE) := ⟨rfl, hf⟩
  unfold toilet_speak_ultra
  dsimp only
  rw [if_pos hc]
  split_ifs <;> rfl

theorem prophecy_padding (i : Nat) (h1 : 24 ≤ i) (h2 : i < 32) :
    SACRED_PROPHECY.getD i 0 = 0 := by
  interval_cases i <;> decide

/-- C5: when bits 55..48 of the first draw are below 69, `skibidi_generate` returns 24
and the first 24 bytes of the buffer are "Skibidi dop dop yes yes!" (the scalar tier
stores nothing else; the vector tier's 32-byte copy also zeroes offsets 24..31); when
that byte is 69 or more the call is the expanded path (no early return).  Exactly 69
of the 256 byte values select the fast path. -/
theorem C5_prophecy_fast_path (build : Build) (hive : ToiletHivemind) (c : SkibidiContext)
    (b : Scroll) (buffer_size : Nat) (h : 64 ≤ buffer_size) :
    (if (soul_fuel (c.rng.s0.get 0) >>> 48) &&& 0xFF < 69 then
      (skibidi_generate build hive (some c) (some b) buffer_size).2.2 = 24 ∧
      ∃ b1, (skibidi_generate build hive (some c) (some b) buffer_size).2.1 = some b1 ∧
        phrase b1 24 = cbytes "Skibidi dop dop yes yes!" ∧
        (∀ i, 32 ≤ i → b1 i = b i) ∧
        (if build.TOILET_HAS_RIZZ_256 = true ∧ hive.flush_strategy ≥ 1
          then ∀ i, 24 ≤ i → i < 32 → b1 i = 0
          else ∀ i, 24 ≤ i → b1 i = b i)
    else
      skibidi_generate build hive (some c) (some b) buffer_size
        = (some { c with
              call_count := (c.call_count + 1) % 2 ^ 64
              rng := (toilet_speak_expanded (toilet_flush_entropy c.rng).2 b true
                (soul_fuel (c.rng.s0.get 0))).1 },
            some (toilet_speak_expanded (toilet_flush_entropy c.rng).2 b true
              (soul_fuel (c.rng.s0.get 0))).2.1,
            ((toilet_speak_expanded (toilet_flush_entropy c.rng).2 b true
              (soul_fuel (c.rng.s0.get 0))).2.2 : Int))) ∧
    ((List.range 256).filter (fun v => v < PROPHECY_THRESHOLD_NICE)).length = 69 := by
  have hs : ¬ buffer_size < SKIBIDI_MIN_BUFFER_SIZE := by
    simp only [SKIBIDI_MIN_BUFFER_SIZE]; omega
  refine ⟨?_, by decide⟩
  have hfuel : soul_fuel (c.rng.s0.get 0) = (toilet_flush_entropy c.rng).1 := rfl
  by_cases hf : (soul_fuel (c.rng.s0.get 0) >>> 48) &&& 0xFF < 69
  · rw [if_pos hf]
    rw [hfuel] at hf
    obtain ⟨_, h2, h3⟩ := speak_ultra_fast build hive c.rng b hf
    have h4 := speak_ultra_fast_scroll build hive c.rng b hf
    simp only [skibidi_generate, hs, if_false]
    refine ⟨by rw [h2]; rfl, _, rfl, h3, ?_, ?_⟩
    · intro i hi
      rw [h4]
      split_ifs
      · exact yeet_frame _ _ _ _ _ _ (by omega)
      · unfold toilet_yeet_24
        rw [yeet_frame _ _ _ _ _ _ (by omega), yeet_frame _ _ _ _ _ _ (by omega),
          yeet_frame _ _ _ _ _ _ (by omega)]
    · rw [h4]
      split_ifs
      · intro i h24 h32
        rw [prophecy_vector_bytes b i h32]
        exact prophecy_padding i h24 h32
      · intro i hi
        unfold toilet_yeet_24
        rw [yeet_frame _ _ _ _ _ _ (by omega), yeet_frame _ _ _ _ _ _ (by omega),
          yeet_frame _ _ _ _ _ _ (by omega)]
  · rw [if_neg hf]
    rw [hfuel] at hf ⊢
    have hslow := speak_ultra_slow build hive c.rng b true (fun hc => hf hc.2)
    simp only [skibidi_generate, hs, if_false]
    rw [hslow]

theorem C5_prophecy_fast_path_witness :
    64 ≤ 64 ∧
    ((if (soul_fuel ((init_context 42).rng.s0.get 0) >>> 48) &&& 0xFF < 69 then
      (skibidi_generate avx2_build avx2_hive (some (init_context 42))
        (some blank_scroll) 64).2.2 = 24 ∧
      ∃ b1, (skibidi_generate avx2_build avx2_hive (some (init_context 42))
          (some blank_scroll) 64).2.1 = some b1 ∧
        phrase b1 24 = cbytes "Skibidi dop dop yes yes!" ∧
        (∀ i, 32 ≤ i → b1 i = blank_scroll i) ∧
        (if avx2_build.TOILET_HAS_RIZZ_256 = true ∧ avx2_hive.flush_strategy ≥ 1
          then ∀ i, 24 ≤ i → i < 32 → b1 i = 0
          else ∀ i, 24 ≤ i → b1 i = blank_scroll i)
    else
      skibidi_generate avx2_build avx2_hive (some (init_context 42)) (some blank_scroll) 64
        = (some { init_context 42 with
              call_count := ((init_context 42).call_count + 1) % 2 ^ 64
              rng := (toilet_speak_expanded (toilet_flush_entropy (init_context 42).rng).2
                blank_scroll true (soul_fuel ((init_context 42).rng.s0.get 0))).1 },
            some (toilet_speak_expanded (toilet_flush_entropy (init_context 42).rng).2
              blank_scroll true (soul_fuel ((init_context 42).rng.s0.get 0))).2.1,
            ((toilet_speak_expanded (toilet_flush_entropy (init_context 42).rng).2
              blank_scroll true (soul_fuel ((init_context 42).rng.s0.get 0))).2.2 : Int))) ∧
    ((List.range 256).filter (fun v => v < PROPHECY_THRESHOLD_NICE)).length = 69) :=
  ⟨by decide, C5_prophecy_fast_path avx2_build avx2_hive (init_context 42) blank_scroll 64
    (by decide)⟩

theorem generate_indep (build1 build2 : Build) (hive1 hive2 : ToiletHivemind)
    (ctx : SkibidiContext) (a b : Scroll) (buffer_size : Nat) :
    (skibidi_generate build1 hive1 (some ctx) (some a) buffer_size).1.getD ctx
      = (skibidi_generate build2 hive2 (some ctx) (some b) buffer_size).1.getD ctx ∧
    (skibidi_generate build1 hive1 (some ctx) (some a) buffer_size).2.2
      = (skibidi_generate build2 hive2 (some ctx) (some b) buffer_size).2.2 ∧
    phrase ((skibidi_generate build1 hive1 (some ctx) (some a) buffer_size).2.1.getD a)
        (skibidi_generate build1 hive1 (some ctx) (some a) buffer_size).2.2.toNat
      = phrase ((skibidi_generate build2 hive2 (some ctx) (some b) buffer_size).2.1.getD b)
        (skibidi_generate build2 hive2 (some ctx) (some b) buffer_size).2.2.toNat := by
  by_cases hs : buffer_size < SKIBIDI_MIN_BUFFER_SIZE
  · simp only [skibidi_generate, hs, if_true, Option.getD_some, SKIBIDI_ERR_BUFFER_TOO_SMALL]
    exact ⟨trivial, trivial, rfl⟩
  · simp only [skibidi_generate, hs, if_false, Option.getD_some, Int.toNat_ofNat]
    obtain ⟨e1, e2, e3⟩ := speak_ultra_indep build1 build2 hive1 hive2 ctx.rng a b true
    rw [e3, e1, e2]
    exact ⟨rfl, rfl, rfl⟩

theorem generate_calls_indep (build1 build2 : Build) (hive1 hive2 : ToiletHivemind)
    (bufs1 bufs2 : Nat → Scroll) (sizes : List Nat) :
    ∀ (k : Nat) (ctx : SkibidiContext),
      generate_calls build1 hive1 bufs1 k ctx sizes
        = generate_calls build2 hive2 bufs2 k ctx sizes := by
  induction sizes with
  | nil => intro k ctx; rfl
  | cons buffer_size rest ih =>
    intro k ctx
    obtain ⟨e1, e2, e3⟩ := generate_indep build1 build2 hive1 hive2 ctx (bufs1 k) (bufs2 k)
      buffer_size
    simp only [generate_calls]
    rw [e3, e1, e2, ih]

/-- C6: for every seed and every number of calls, the returned lengths, the written
phrases (the first `length` bytes of each call) and the resulting context of a
sequence of `skibidi_generate` calls after `skibidi_init(ctx, seed)` are the same
whatever the build, the probed CPU and the strategy state, hence the same under the
scalar tier and under the vector tiers, and whatever the buffers held before. -/
theorem C6_tier_independent_sequence (seed : Nat) (build1 build2 : Build) (cpu1 cpu2 : Cpu)
    (hive1 hive2 : ToiletHivemind) (c1 c2 : SkibidiContext) (bufs1 bufs2 : Nat → Scroll)
    (sizes : List Nat) :
    generate_calls build1 (skibidi_init build1 cpu1 hive1 (some c1) seed).1 bufs1 0
        ((skibidi_init build1 cpu1 hive1 (some c1) seed).2.1.getD c1) sizes
      = generate_calls build2 (skibidi_init build2 cpu2 hive2 (some c2) seed).1 bufs2 0
        ((skibidi_init build2 cpu2 hive2 (some c2) seed).2.1.getD c2) sizes := by
  have e1 : (skibidi_init build1 cpu1 hive1 (some c1) seed).2.1.getD c1 = init_context seed := rfl
  have e2 : (skibidi_init build2 cpu2 hive2 (some c2) seed).2.1.getD c2 = init_context seed := rfl
  rw [e1, e2]
  exact generate_calls_indep build1 build2 _ _ bufs1 bufs2 sizes 0 (init_context seed)

/-- C8: with `H` the state update of one draw and `s` the value of `s0[0]` before the
call, a successful `skibidi_generate` leaves `s0[0] = H(s)` when the fast path is taken
and `H(H(s))` otherwise; a successful `skibidi_generate_variant` always leaves
`H(H(s))`.  No third draw is taken. -/
theorem C8_draws_consumed (build : Build) (hive : ToiletHivemind) (c : SkibidiContext)
    (b : Scroll) (buffer_size : Nat) (h : 64 ≤ buffer_size) :
    (skibidi_generate build hive (some c) (some b) buffer_size).1.map
        (fun c1 => c1.rng.s0.get 0)
      = some (if (soul_fuel (c.rng.s0.get 0) >>> 48) &&& 0xFF < 69
          then soul_step (c.rng.s0.get 0)
          else soul_step (soul_step (c.rng.s0.get 0))) ∧
    (skibidi_generate_variant build hive (some c) (some b) buffer_size).1.map
        (fun c1 => c1.rng.s0.get 0)
      = some (soul_step (soul_step (c.rng.s0.get 0))) := by
  have hs : ¬ buffer_size < SKIBIDI_MIN_BUFFER_SIZE := by
    simp only [SKIBIDI_MIN_BUFFER_SIZE]; omega
  have hfuel : soul_fuel (c.rng.s0.get 0) = (toilet_flush_entropy c.rng).1 := rfl
  constructor
  · simp only [skibidi_generate, hs, if_false, Option.map_some']
    split_ifs with hf
    · rw [hfuel] at hf
      rw [(speak_ultra_fast build hive c.rng b hf).1]
      rfl
    · rw [hfuel] at hf
      rw [speak_ultra_slow build hive c.rng b true (fun hc => hf hc.2)]
      rfl
  · simp only [skibidi_generate_variant, hs, if_false, Option.map_some']
    rw [speak_ultra_slow build hive c.rng b false (fun hc => Bool.noConfusion hc.1)]
    rfl

theorem C8_draws_consumed_witness :
    64 ≤ 64 ∧
    ((skibidi_generate scalar_build scalar_hive (some (init_context 42))
        (some blank_scroll) 64).1.map (fun c1 => c1.rng.s0.get 0)
      = some (if (soul_fuel ((init_context 42).rng.s0.get 0) >>> 48) &&& 0xFF < 69
          then soul_step ((init_context 42).rng.s0.get 0)
          else soul_step (soul_step ((init_context 42).rng.s0.get 0))) ∧
    (skibidi_generate_variant scalar_build scalar_hive (some (init_context 42))
        (some blank_scroll) 64).1.map (fun c1 => c1.rng.s0.get 0)
      = some (soul_step (soul_step ((init_context 42).rng.s0.get 0)))) :=
  ⟨by decide, C8_draws_consumed scalar_build scalar_hive (init_context 42) blank_scroll 64
    (by decide)⟩

theorem init_words_odd (seed : Nat) (i : Fin 4) :
    (init_context seed).rng.s0.get i % 2 = 1 ∧ (init_context seed).rng.s1.get i % 2 = 1 := by
  fin_cases i <;>
    simp [init_context, Quad.get, init_s0, init_s1]

/-- C9 fails on the code: `skibidi_init` leaves all eight state words odd for every
seed, but a draw does not keep them odd.  After `skibidi_init(ctx, 0)`, where
`s0[0] = 1`, the single draw of the following `skibidi_generate` call leaves
`s0[0] = 0`; after `skibidi_init(ctx, 42)` one `skibidi_generate_variant` call leaves
the even word `8791117437499607420` in `s0[0]`. -/
theorem C9_first_draw_leaves_even_state :
    (∀ (seed : Nat) (i : Fin 4), (init_context seed).rng.s0.get i % 2 = 1 ∧
      (init_context seed).rng.s1.get i % 2 = 1) ∧
    (init_context 0).rng.s0.get 0 = 1 ∧
    (skibidi_generate scalar_build scalar_hive (some (init_context 0))
      (some blank_scroll) 64).1.map (fun c1 => c1.rng.s0.get 0) = some 0 ∧
    (skibidi_generate scalar_build scalar_hive (some (init_context 0))
      (some blank_scroll) 64).2.2 = 35 ∧
    (skibidi_generate_variant scalar_build scalar_hive (some (init_context 42))
      (some blank_scroll) 64).1.map (fun c1 => c1.rng.s0.get 0)
        = some 8791117437499607420 ∧
    8791117437499607420 % 2 = 0 := by
  refine ⟨fun seed i => init_words_odd seed i, by decide, by decide, by decide, by decide,
    by decide⟩

set_option maxRecDepth 100000 in
/-- C10 fails on the code: from the odd state 1 (which `skibidi_init(ctx, 0)` stores in
`s0[0]`) the states visited by repeated draws are 1, 0, 0, ...: the fixed point 0 is
reached after one draw, so the first 1000 states are not pairwise distinct.  From the
odd state that `skibidi_init(ctx, 42)` stores the state is 0 after 269 draws. -/
theorem C10_state_one_collapses :
    (init_context 0).rng.s0.get 0 = 1 ∧
    soul_trace 3 1 = [1, 0, 0] ∧
    soul_step 0 = 0 ∧
    ¬ (soul_trace 1000 1).Nodup ∧
    (init_context 42).rng.s0.get 0 = 12058926934050108963 ∧
    12058926934050108963 % 2 = 1 ∧
    (soul_step^[269]) 12058926934050108963 = 0 := by
  refine ⟨by decide, by decide, by decide, ?_, by decide, by decide, by decide⟩
  have h : soul_trace 1000 1 = 1 :: 0 :: 0 :: soul_trace 997 0 := by
    have e1 : soul_step 1 = 0 := by decide
    have e0 : soul_step 0 = 0 := by decide
    show 1 :: soul_trace 999 (soul_step 1) = _
    rw [e1]
    show 1 :: 0 :: soul_trace 998 (soul_step 0) = _
    rw [e0]
    show 1 :: 0 :: 0 :: soul_trace 997 (soul_step 0) = _
    rw [e0]
  rw [h]
  simp

/-! ## The expanded path: what is written -/

theorem peek_length (src : List Nat) (off w : Nat) : (peek src off w).length = w := by
  simp [peek]

theorem peek_getD (src : List Nat) (off w i : Nat) (h : i < w) :
    (peek src off w).getD i 0 = src.getD (off + i) 0 := by
  unfold peek
  rw [List.getD_eq_getElem _ _ (by simpa using h)]
  simp

theorem starts_nil (s : Scroll) : StartsWith s [] := fun i hi => absurd hi (Nat.not_lt_zero i)

theorem starts_poke {s : Scroll} {l : List Nat} (h : StartsWith s l) (q v : Nat)
    (hq : q = l.length) : StartsWith (poke s q v) (l ++ [v]) := by
  intro i hi
  rw [List.length_append, List.length_singleton] at hi
  unfold poke
  split_ifs with hc
  · subst hc; subst hq
    simp [List.getD_append_right]
  · rw [List.getD_append _ _ _ _ (by omega)]
    exact h i (by omega)

theorem starts_yeet {s : Scroll} {l : List Nat} (h : StartsWith s l) (n q : Nat)
    (src : List Nat) (off w : Nat) (hq : q = l.length) (hw : w ≤ n) :
    StartsWith (yeet n s q src off) (l ++ peek src off w) := by
  intro i hi
  rw [List.length_append, peek_length] at hi
  unfold yeet
  by_cases hc : i < l.length
  · rw [List.getD_append _ _ _ _ hc, if_neg (by omega)]
    exact h i hc
  · rw [List.getD_append_right _ _ _ _ (by omega), if_pos (by omega),
      peek_getD _ _ _ _ (by omega)]
    subst hq
    rfl

theorem phrase_of_starts {s : Scroll} {l : List Nat} (h : StartsWith s l) (n : Nat)
    (hn : n = l.length) : phrase s n = l := by
  subst hn
  apply List.ext_getElem
  · simp [phrase]
  · intro i h1 h2
    simp only [phrase, List.getElem_map, List.getElem_range]
    rw [h i h2, List.getD_eq_getElem _ _ h2]

theorem and_7_eq_mod (x : Nat) : x &&& 7 = x % 8 := Nat.and_pow_two_sub_one_eq_mod x 3

theorem and_31_eq_mod (x : Nat) : x &&& 31 = x % 32 := Nat.and_pow_two_sub_one_eq_mod x 5

theorem and_255_eq_mod (x : Nat) : x &&& 255 = x % 256 := Nat.and_pow_two_sub_one_eq_mod x 8

/-- The substitution bits of slot `k` read through the 32-bit `dom_infiltration`. -/
theorem dom_slot_eq (e k : Nat) (hk : k ≤ 4) :
    ((e % 2 ^ 32) >>> (3 * k)) &&& 7 = (e >>> (3 * k)) &&& 7 := by
  rw [and_7_eq_mod, and_7_eq_mod, Nat.shiftRight_eq_div_pow, Nat.shiftRight_eq_div_pow]
  interval_cases k <;> norm_num <;> omega

/-- The case-variant index of slot `k` read through the 32-bit `zodiac_bits`. -/
theorem zodiac_slot_eq (e k : Nat) (hk : k ≤ 4) :
    (((e >>> 20) % 2 ^ 32) >>> (5 * k)) &&& 31 = (e >>> (20 + 5 * k)) &&& 31 := by
  rw [and_31_eq_mod, and_31_eq_mod, Nat.shiftRight_eq_div_pow, Nat.shiftRight_eq_div_pow,
    Nat.shiftRight_eq_div_pow]
  interval_cases k <;> norm_num <;> omega

theorem verdict_byte_eq (e : Nat) : ((e >>> 40) % 2 ^ 32) &&& 255 = (e >>> 40) &&& 255 := by
  rw [and_255_eq_mod, and_255_eq_mod]
  omega

theorem starts_inscribe {s : Scroll} {l : List Nat} (h : StartsWith s l) (q : Nat) (d : Bool)
    (z : Nat) (hq : q = l.length) :
    StartsWith (inscribe_dop_rune s q d z).1 (l ++ rune_text d z) := by
  unfold inscribe_dop_rune toilet_yeet_4 rune_text
  have hz : z <<< 2 = z * 4 := by rw [Nat.shiftLeft_eq]
  rw [hz]
  exact starts_yeet h 4 q _ _ 3 hq (by omega)

theorem rune_text_length (d : Bool) (z : Nat) : (rune_text d z).length = 3 := by
  simp [rune_text, peek_length]

theorem lead_word_length (D2 k : Nat) : (lead_word D2 k).length = 3 := rune_text_length _ _

theorem words_upto_length (D2 m : Nat) : (words_upto D2 m).length = 4 * m + 3 := by
  induction m with
  | zero => simp [words_upto, lead_word_length]
  | succ m ih => simp [words_upto, lead_word_length, ih]; omega

/-- The word the code writes in slot `k` is the lead word decoded from `D2`. -/
theorem code_word_eq (e k : Nat) (hk : k ≤ 4) :
    rune_text (((e % 2 ^ 32) >>> (3 * k)) &&& 7 == 0)
        (DOP_ZODIAC_CHART.getD ((((e >>> 20) % 2 ^ 32) >>> (5 * k)) &&& 31) 0)
      = lead_word e k := by
  unfold lead_word
  rw [dom_slot_eq e k hk, zodiac_slot_eq e k hk]
  congr 1

theorem starts_first_word {s : Scroll} {l : List Nat} (h : StartsWith s l) (p e : Nat)
    (hp : p = l.length) :
    StartsWith (inscribe_dop_rune s p ((e % 2 ^ 32) &&& 0x7 == 0)
      (DOP_ZODIAC_CHART.getD (((e >>> 20) % 2 ^ 32) &&& 0x1F) 0)).1 (l ++ words_upto e 0) := by
  have hw := code_word_eq e 0 (by omega)
  have := starts_inscribe h p ((e % 2 ^ 32) &&& 0x7 == 0)
    (DOP_ZODIAC_CHART.getD (((e >>> 20) % 2 ^ 32) &&& 0x1F) 0) hp
  rw [show words_upto e 0 = lead_word e 0 from rfl, ← hw]
  exact this

theorem starts_next_word {s : Scroll} {l : List Nat} {e m : Nat}
    (h : StartsWith s (l ++ words_upto e m)) (q : Nat) (hq : q = l.length + 4 * m + 3)
    (hm : m + 1 ≤ 4) :
    StartsWith (inscribe_dop_rune (poke s q 32) (q + 1)
      (((e % 2 ^ 32) >>> (3 * (m + 1))) &&& 0x7 == 0)
      (DOP_ZODIAC_CHART.getD ((((e >>> 20) % 2 ^ 32) >>> (5 * (m + 1))) &&& 0x1F) 0)).1
      (l ++ words_upto e (m + 1)) := by
  have hlen : (l ++ words_upto e m).length = q := by
    rw [List.length_append, words_upto_length]; omega
  have h1 := starts_poke h q 32 hlen.symm
  have h2 := starts_inscribe h1 (q + 1)
    (((e % 2 ^ 32) >>> (3 * (m + 1))) &&& 0x7 == 0)
    (DOP_ZODIAC_CHART.getD ((((e >>> 20) % 2 ^ 32) >>> (5 * (m + 1))) &&& 0x1F) 0)
    (by rw [List.length_append, List.length_singleton, hlen])
  rw [code_word_eq e (m + 1) hm] at h2
  rw [show words_upto e (m + 1) = words_upto e m ++ [32] ++ lead_word e (m + 1) from rfl]
  simpa only [List.append_assoc] using h2

theorem starts_speak_dops {s : Scroll} {l : List Nat} (h : StartsWith s l) (p n e : Nat)
    (hp : p = l.length) :
    StartsWith (speak_dops s p n e).1 (l ++ words_upto e (min (max n 1) 5 - 1)) := by
  have h0 := starts_first_word h p e hp
  unfold speak_dops
  simp only []
  split_ifs with c2 c3 c4 c5
  · have hm : min (max n 1) 5 - 1 = 4 := by omega
    rw [hm]
    have h1 := starts_next_word h0 (p + 3) (by omega) (by omega)
    have h2 := starts_next_word h1 (p + 3 + 1 + 3) (by omega) (by omega)
    have h3 := starts_next_word h2 (p + 3 + 1 + 3 + 1 + 3) (by omega) (by omega)
    exact starts_next_word h3 (p + 3 + 1 + 3 + 1 + 3 + 1 + 3) (by omega) (by omega)
  · have hm : min (max n 1) 5 - 1 = 3 := by omega
    rw [hm]
    have h1 := starts_next_word h0 (p + 3) (by omega) (by omega)
    have h2 := starts_next_word h1 (p + 3 + 1 + 3) (by omega) (by omega)
    exact starts_next_word h2 (p + 3 + 1 + 3 + 1 + 3) (by omega) (by omega)
  · have hm : min (max n 1) 5 - 1 = 2 := by omega
    rw [hm]
    have h1 := starts_next_word h0 (p + 3) (by omega) (by omega)
    exact starts_next_word h1 (p + 3 + 1 + 3) (by omega) (by omega)
  · have hm : min (max n 1) 5 - 1 = 1 := by omega
    rw [hm]
    exact starts_next_word h0 (p + 3) (by omega) (by omega)
  · have hm : min (max n 1) 5 - 1 = 0 := by omega
    rw [hm]
    exact h0

theorem shl2 (z : Nat) : z <<< 2 = z * 4 := by rw [Nat.shiftLeft_eq]

theorem yes_word_length (i : Nat) : (yes_word i).length = 3 := by simp [yes_word, peek_length]

theorem no_word_length (i : Nat) : (no_word i).length = 2 := by simp [no_word, peek_length]

theorem starts_speak_verdict {s : Scroll} {l : List Nat} (h : StartsWith s l) (p t e : Nat)
    (hp : p = l.length) :
    StartsWith (speak_verdict s p t e).1 (l ++ [32] ++ verdict_text t e) := by
  have h0 := starts_poke h p 32 hp
  have hl0 : (l ++ [32]).length = p + 1 := by simp [hp]
  unfold speak_verdict toilet_yeet_8 toilet_yeet_4 toilet_yeet_2
  simp only []
  split_ifs with c1 c2 c3
  · have c1' : t ≥ 38 := c1
    have hv : verdict_text t e = peek INSTANT_TOILET_APPROVAL 0 8 := by
      unfold verdict_text approval_text
      rw [if_pos c1', if_pos c2]
    rw [hv]
    exact starts_yeet h0 8 (p + 1) _ 0 8 hl0.symm (le_refl _)
  · have c1' : t ≥ 38 := c1
    have hv : verdict_text t e
        = yes_word ((e >>> 40) &&& 31) ++ [32] ++ yes_word ((e >>> 45) &&& 31) ++ [33] := by
      unfold verdict_text approval_text approval_by_lookup
      rw [if_pos c1', if_neg c2]
    rw [hv]
    have h1 := starts_yeet h0 4 (p + 1) TOILET_APPROVAL_MULTIVERSE
      (DOP_ZODIAC_CHART.getD ((e >>> 40) &&& 31) 0 <<< 2) 3 hl0.symm (by omega)
    have h2 := starts_poke h1 (p + 1 + 3) 32 (by simp [peek_length, hp])
    have h3 := starts_yeet h2 4 (p + 1 + 3 + 1) TOILET_APPROVAL_MULTIVERSE
      (DOP_ZODIAC_CHART.getD ((e >>> 45) &&& 31) 0 <<< 2) 3 (by simp [peek_length, hp])
      (by omega)
    have h4 := starts_poke h3 (p + 1 + 3 + 1 + 3) 33 (by simp [peek_length, hp])
    simpa only [yes_word, List.append_assoc, shl2] using h4
  · have c1' : ¬ t ≥ 38 := c1
    have hv : verdict_text t e = peek INSTANT_TOILET_REJECTION 0 6 := by
      unfold verdict_text rejection_text
      rw [if_neg c1', if_pos c3]
    rw [hv]
    exact starts_yeet h0 8 (p + 1) _ 0 6 hl0.symm (by omega)
  · have c1' : ¬ t ≥ 38 := c1
    have hv : verdict_text t e
        = no_word ((e >>> 50) &&& 31) ++ [32] ++ no_word ((e >>> 55) &&& 31) ++ [33] := by
      unfold verdict_text rejection_text rejection_by_lookup
      rw [if_neg c1', if_neg c3]
    rw [hv]
    have h1 := starts_yeet h0 2 (p + 1) TOILET_REJECTION_MULTIVERSE
      (REJECTION_ZODIAC_CHART.getD ((e >>> 50) &&& 31) 0 <<< 2) 2 hl0.symm (le_refl _)
    have h2 := starts_poke h1 (p + 1 + 2) 32 (by simp [peek_length, hp])
    have h3 := starts_yeet h2 2 (p + 1 + 2 + 1) TOILET_REJECTION_MULTIVERSE
      (REJECTION_ZODIAC_CHART.getD ((e >>> 55) &&& 31) 0 <<< 2) 2 (by simp [peek_length, hp])
      (le_refl _)
    have h4 := starts_poke h3 (p + 1 + 2 + 1 + 2) 33 (by simp [peek_length, hp])
    simpa only [no_word, List.append_assoc, shl2] using h4

theorem verdict_text_length (t e : Nat) :
    (verdict_text t e).length = if t ≥ 38 then 8 else 6 := by
  unfold verdict_text approval_text rejection_text approval_by_lookup rejection_by_lookup
  split_ifs <;> simp [peek_length, yes_word_length, no_word_length]

theorem lead_words_eq (D2 n : Nat) (h1 : 1 ≤ n) (h5 : n ≤ 5) :
    lead_words D2 n = words_upto D2 (n - 1) := by
  interval_cases n <;> rfl

theorem word_count_bounds (D1 : Nat) : 1 ≤ word_count D1 ∧ word_count D1 ≤ 5 :=
  divine_dop_census_bounds _

/-- The expanded path as the composition of its four stages, with the prefix and verdict
bytes named. -/
theorem expanded_eq (rng : SkibidiRngState) (s : Scroll) (c : Bool) (e : Nat) :
    toilet_speak_expanded rng s c e
      = ((toilet_flush_entropy rng).2,
          speak_verdict
            (speak_dops
              (toilet_yeet_8 (toilet_yeet_8 s 0 TOILET_VIBRATION_PREFIX 0)
                ((if prefix_byte c e < 38 then 1 else 0) * 7) TOILET_GOD_NAME 0)
              ((if prefix_byte c e < 38 then 1 else 0) * 7 + 8) (word_count e)
              (toilet_flush_entropy rng).1).1
            (speak_dops
              (toilet_yeet_8 (toilet_yeet_8 s 0 TOILET_VIBRATION_PREFIX 0)
                ((if prefix_byte c e < 38 then 1 else 0) * 7) TOILET_GOD_NAME 0)
              ((if prefix_byte c e < 38 then 1 else 0) * 7 + 8) (word_count e)
              (toilet_flush_entropy rng).1).2
            (verdict_byte c e) (toilet_flush_entropy rng).1) := by
  cases c
  · unfold toilet_speak_expanded
    simp only [verdict_byte_eq]
    rfl
  · rfl

theorem starts_prefix_name (s : Scroll) (hv : Nat) (h : hv ≤ 1) :
    StartsWith
      (toilet_yeet_8 (toilet_yeet_8 s 0 TOILET_VIBRATION_PREFIX 0) (hv * 7) TOILET_GOD_NAME 0)
      ((if hv = 1 then cbytes "Brrrrr " else []) ++ cbytes "Skibidi ") := by
  have hn : peek TOILET_GOD_NAME 0 8 = cbytes "Skibidi " := by decide
  have hb : peek TOILET_VIBRATION_PREFIX 0 7 = cbytes "Brrrrr " := by decide
  unfold toilet_yeet_8
  rw [← hn, ← hb]
  interval_cases hv
  · exact starts_yeet (starts_nil _) 8 0 TOILET_GOD_NAME 0 8 rfl (le_refl _)
  · have h1 := starts_yeet (starts_nil s) 8 0 TOILET_VIBRATION_PREFIX 0 7 rfl (by omega)
    exact starts_yeet h1 8 7 TOILET_GOD_NAME 0 8 (by simp [peek_length]) (le_refl _)

theorem stages_write (s : Scroll) (hv n D2 t : Nat) (hhv : hv ≤ 1) (hn1 : 1 ≤ n)
    (hn5 : n ≤ 5) :
    (speak_verdict
        (speak_dops
          (toilet_yeet_8 (toilet_yeet_8 s 0 TOILET_VIBRATION_PREFIX 0) (hv * 7)
            TOILET_GOD_NAME 0) (hv * 7 + 8) n D2).1
        (speak_dops
          (toilet_yeet_8 (toilet_yeet_8 s 0 TOILET_VIBRATION_PREFIX 0) (hv * 7)
            TOILET_GOD_NAME 0) (hv * 7 + 8) n D2).2 t D2).2
      = ((if hv = 1 then cbytes "Brrrrr " else []) ++ cbytes "Skibidi " ++ lead_words D2 n
          ++ [32] ++ verdict_text t D2).length ∧
    StartsWith
      (speak_verdict
        (speak_dops
          (toilet_yeet_8 (toilet_yeet_8 s 0 TOILET_VIBRATION_PREFIX 0) (hv * 7)
            TOILET_GOD_NAME 0) (hv * 7 + 8) n D2).1
        (speak_dops
          (toilet_yeet_8 (toilet_yeet_8 s 0 TOILET_VIBRATION_PREFIX 0) (hv * 7)
            TOILET_GOD_NAME 0) (hv * 7 + 8) n D2).2 t D2).1
      ((if hv = 1 then cbytes "Brrrrr " else []) ++ cbytes "Skibidi " ++ lead_words D2 n
          ++ [32] ++ verdict_text t D2) := by
  have hlw := lead_words_eq D2 n hn1 hn5
  have hidx : min (max n 1) 5 - 1 = n - 1 := by omega
  have hpre : ((if hv = 1 then cbytes "Brrrrr " else []) ++ cbytes "Skibidi ").length
      = hv * 7 + 8 := by
    interval_cases hv <;> rfl
  have h1 := starts_prefix_name s hv hhv
  have h2 := starts_speak_dops h1 (hv * 7 + 8) n D2 hpre.symm
  rw [hidx, ← hlw] at h2
  have hlen2 : (((if hv = 1 then cbytes "Brrrrr " else []) ++ cbytes "Skibidi ")
      ++ lead_words D2 n).length = hv * 7 + 8 + 4 * min (max n 1) 5 - 1 := by
    rw [List.length_append, hpre, hlw, words_upto_length]
    omega
  have h3 := starts_speak_verdict h2
    (speak_dops
      (toilet_yeet_8 (toilet_yeet_8 s 0 TOILET_VIBRATION_PREFIX 0) (hv * 7)
        TOILET_GOD_NAME 0) (hv * 7 + 8) n D2).2 t D2
    ((speak_dops_pos_eq _ _ _ _).trans hlen2.symm)
  refine ⟨?_, h3⟩
  simp only [speak_verdict_pos, speak_dops_pos_eq, TOILET_REJECTION_THRESHOLD]
  rw [List.length_append, List.length_append, hlen2, verdict_text_length]
  simp only [List.length_singleton]
  split_ifs <;> omega

/-- The expanded path writes exactly `expanded_text` and returns its length. -/
theorem expanded_writes (rng : SkibidiRngState) (s : Scroll) (c : Bool) (e : Nat) :
    (toilet_speak_expanded rng s c e).2.2
        = (expanded_text c e (toilet_flush_entropy rng).1).length ∧
      StartsWith (toilet_speak_expanded rng s c e).2.1
        (expanded_text c e (toilet_flush_entropy rng).1) := by
  have hwc := word_count_bounds e
  have htext : expanded_text c e (toilet_flush_entropy rng).1
      = (if (if prefix_byte c e < 38 then 1 else 0) = 1 then cbytes "Brrrrr " else [])
          ++ cbytes "Skibidi " ++ lead_words (toilet_flush_entropy rng).1 (word_count e)
          ++ [32] ++ verdict_text (verdict_byte c e) (toilet_flush_entropy rng).1 := by
    unfold expanded_text
    by_cases hpb : prefix_byte c e < 38
    · rw [if_pos hpb, if_pos hpb, if_pos rfl]
    · rw [if_neg hpb, if_neg hpb, if_neg (by omega)]
  rw [expanded_eq, htext]
  exact stages_write s _ _ _ _ (by split_ifs <;> omega) hwc.1 hwc.2

theorem expanded_phrase (rng : SkibidiRngState) (s : Scroll) (c : Bool) (e : Nat) :
    phrase (toilet_speak_expanded rng s c e).2.1 (toilet_speak_expanded rng s c e).2.2
      = expanded_text c e (toilet_flush_entropy rng).1 :=
  phrase_of_starts (expanded_writes rng s c e).2 _ (expanded_writes rng s c e).1

theorem second_draw (rng : SkibidiRngState) :
    (toilet_flush_entropy (toilet_flush_entropy rng).2).1
      = soul_fuel (soul_step (rng.s0.get 0)) := rfl

/-- A successful `skibidi_generate_variant` call writes the expanded text of its two
draws and returns its length. -/
theorem variant_writes (build : Build) (hive : ToiletHivemind) (c : SkibidiContext)
    (b : Scroll) (buffer_size : Nat) (h : 64 ≤ buffer_size) :
    written (skibidi_generate_variant build hive (some c) (some b) buffer_size)
        = expanded_text false (soul_fuel (c.rng.s0.get 0))
            (soul_fuel (soul_step (c.rng.s0.get 0))) ∧
      (skibidi_generate_variant build hive (some c) (some b) buffer_size).2.2
        = ((expanded_text false (soul_fuel (c.rng.s0.get 0))
            (soul_fuel (soul_step (c.rng.s0.get 0)))).length : Int) := by
  have hs : ¬ buffer_size < SKIBIDI_MIN_BUFFER_SIZE := by
    simp only [SKIBIDI_MIN_BUFFER_SIZE]; omega
  have hslow := speak_ultra_slow build hive c.rng b false (fun hc => Bool.noConfusion hc.1)
  have hw := expanded_writes (toilet_flush_entropy c.rng).2 b false (toilet_flush_entropy c.rng).1
  have hp := expanded_phrase (toilet_flush_entropy c.rng).2 b false (toilet_flush_entropy c.rng).1
  rw [second_draw] at hw hp
  simp only [written, skibidi_generate_variant, hs, if_false, Int.toNat_ofNat]
  rw [hslow]
  exact ⟨hp, congrArg Int.ofNat hw.1⟩

/-- A successful `skibidi_generate` call that does not take the fast path writes the
expanded text of its two draws and returns its length. -/
theorem generate_writes (build : Build) (hive : ToiletHivemind) (c : SkibidiContext)
    (b : Scroll) (buffer_size : Nat) (h : 64 ≤ buffer_size)
    (hexp : 69 ≤ (soul_fuel (c.rng.s0.get 0) >>> 48) &&& 0xFF) :
    written (skibidi_generate build hive (some c) (some b) buffer_size)
        = expanded_text true (soul_fuel (c.rng.s0.get 0))
            (soul_fuel (soul_step (c.rng.s0.get 0))) ∧
      (skibidi_generate build hive (some c) (some b) buffer_size).2.2
        = ((expanded_text true (soul_fuel (c.rng.s0.get 0))
            (soul_fuel (soul_step (c.rng.s0.get 0)))).length : Int) := by
  have hs : ¬ buffer_size < SKIBIDI_MIN_BUFFER_SIZE := by
    simp only [SKIBIDI_MIN_BUFFER_SIZE]; omega
  have hfuel : soul_fuel (c.rng.s0.get 0) = (toilet_flush_entropy c.rng).1 := rfl
  have hslow := speak_ultra_slow build hive c.rng b true
    (fun hc => absurd hc.2 (by rw [← hfuel]; omega))
  have hw := expanded_writes (toilet_flush_entropy c.rng).2 b true (toilet_flush_entropy c.rng).1
  have hp := expanded_phrase (toilet_flush_entropy c.rng).2 b true (toilet_flush_entropy c.rng).1
  rw [second_draw] at hw hp
  simp only [written, skibidi_generate, hs, if_false, Int.toNat_ofNat]
  rw [hslow]
  exact ⟨hp, congrArg Int.ofNat hw.1⟩

theorem and_31_lt (x : Nat) : x &&& 31 < 32 := Nat.and_lt_two_pow x (by decide : 31 < 2 ^ 5)

theorem yes_word_lower (i : Nat) (h : i < 32) : (yes_word i).map to_lower = cbytes "yes" := by
  interval_cases i <;> decide

theorem no_word_lower (i : Nat) (h : i < 32) : (no_word i).map to_lower = cbytes "no" := by
  interval_cases i <;> decide

theorem dom_word_lower (i : Nat) (h : i < 32) :
    (rune_text true (DOP_ZODIAC_CHART.getD i 0)).map to_lower = cbytes "dom" := by
  interval_cases i <;> decide

theorem dop_word_lower (i : Nat) (h : i < 32) :
    (rune_text false (DOP_ZODIAC_CHART.getD i 0)).map to_lower = cbytes "dop" := by
  interval_cases i <;> decide

theorem lead_word_lower (D2 k : Nat) :
    (lead_word D2 k).map to_lower
      = if (D2 >>> (3 * k)) &&& 7 = 0 then cbytes "dom" else cbytes "dop" := by
  unfold lead_word
  by_cases h : (D2 >>> (3 * k)) &&& 7 = 0
  · rw [if_pos h, decide_eq_true h]
    exact dom_word_lower _ (and_31_lt _)
  · rw [if_neg h, decide_eq_false h]
    exact dop_word_lower _ (and_31_lt _)

theorem approval_lower (i1 i2 : Nat) (h1 : i1 < 32) (h2 : i2 < 32) :
    (approval_text i1 i2).map to_lower = cbytes "yes yes!" := by
  unfold approval_text approval_by_lookup
  split_ifs
  · decide
  · rw [List.map_append, List.map_append, List.map_append, yes_word_lower i1 h1,
      yes_word_lower i2 h2]
    decide

theorem rejection_lower (i1 i2 : Nat) (h1 : i1 < 32) (h2 : i2 < 32) :
    (rejection_text i1 i2).map to_lower = cbytes "no no!" := by
  unfold rejection_text rejection_by_lookup
  split_ifs
  · decide
  · rw [List.map_append, List.map_append, List.map_append, no_word_lower i1 h1,
      no_word_lower i2 h2]
    decide

theorem verdict_lower (t D2 : Nat) :
    (verdict_text t D2).map to_lower
      = if t ≥ 38 then cbytes "yes yes!" else cbytes "no no!" := by
  unfold verdict_text
  split_ifs
  · exact approval_lower _ _ (and_31_lt _) (and_31_lt _)
  · exact rejection_lower _ _ (and_31_lt _) (and_31_lt _)

/-- Word `k` sits at offset `4k` among `n` lead words. -/
theorem lead_words_slice (D2 n k : Nat) (hk : k < n) (hn : n ≤ 5) :
    ((lead_words D2 n).drop (4 * k)).take 3 = lead_word D2 k := by
  interval_cases n <;> interval_cases k <;> rfl

theorem lead_words_length (D2 n : Nat) (h1 : 1 ≤ n) (h5 : n ≤ 5) :
    (lead_words D2 n).length = 4 * n - 1 := by
  rw [lead_words_eq D2 n h1 h5, words_upto_length]
  omega

/-- Word `k` inside a text that carries the lead words after `pre`. -/
theorem text_word_slice (pre post : List Nat) (D2 n k : Nat) (hk : k < n) (hn : n ≤ 5) :
    ((pre ++ lead_words D2 n ++ post).drop (pre.length + 4 * k)).take 3 = lead_word D2 k := by
  have hlen := lead_words_length D2 n (by omega) hn
  rw [List.append_assoc, List.drop_append, List.drop_append_of_le_length (by omega),
    List.take_append_of_le_length (by rw [List.length_drop]; omega)]
  exact lead_words_slice D2 n k hk hn

theorem text_prefix_facts (pb : Nat) (rest : List Nat) :
    (cbytes "Brrrrr Skibidi " <+:
        (if pb < 38 then cbytes "Brrrrr " else []) ++ cbytes "Skibidi " ++ rest ↔ pb < 38) ∧
    (cbytes "Skibidi " <+:
        (if pb < 38 then cbytes "Brrrrr " else []) ++ cbytes "Skibidi " ++ rest ↔ ¬ pb < 38) ∧
    (((if pb < 38 then cbytes "Brrrrr " else []) ++ cbytes "Skibidi " ++ rest).drop
        ((if pb < 38 then 1 else 0) * 7)).take 8 = cbytes "Skibidi " := by
  have hB : cbytes "Brrrrr " = [66, 114, 114, 114, 114, 114, 32] := by decide
  have hS : cbytes "Skibidi " = [83, 107, 105, 98, 105, 100, 105, 32] := by decide
  have hBS : cbytes "Brrrrr Skibidi "
      = [66, 114, 114, 114, 114, 114, 32, 83, 107, 105, 98, 105, 100, 105, 32] := by decide
  rw [hB, hS, hBS]
  by_cases h : pb < 38
  · simp [h]
  · simp [h]

theorem text_suffix_facts (vb D2 : Nat) (head : List Nat) :
    (cbytes " yes yes!" <:+ (head ++ [32] ++ verdict_text vb D2).map to_lower ↔ vb ≥ 38) ∧
    (cbytes " no no!" <:+ (head ++ [32] ++ verdict_text vb D2).map to_lower ↔ vb < 38) := by
  have hY : cbytes " yes yes!" = [32] ++ cbytes "yes yes!" := by decide
  have hN : cbytes " no no!" = [32] ++ cbytes "no no!" := by decide
  have hne1 : ¬ cbytes " no no!" <:+ cbytes " yes yes!" := by decide
  have hmap : (head ++ [32] ++ verdict_text vb D2).map to_lower
      = head.map to_lower ++ ([32] ++ (verdict_text vb D2).map to_lower) := by
    rw [List.map_append, List.map_append, List.append_assoc]
    rfl
  rw [hmap, verdict_lower]
  by_cases h : vb ≥ 38
  · rw [if_pos h, ← hY]
    refine ⟨⟨fun _ => h, fun _ => List.suffix_append _ _⟩, ⟨fun hs => ?_, fun hlt => ?_⟩⟩
    · exact absurd (List.suffix_of_suffix_length_le hs (List.suffix_append _ _) (by decide)) hne1
    · omega
  · rw [if_neg h, ← hN]
    refine ⟨⟨fun hs => ?_, fun hge => absurd hge h⟩, ⟨fun _ => by omega, fun _ =>
      List.suffix_append _ _⟩⟩
    exact absurd (List.suffix_of_suffix_length_le (List.suffix_append _ _) hs (by decide)) hne1

set_option maxRecDepth 100000 in
/-- C12: for every byte `b` the word count decoded from the top byte of the first draw
is `1 + [b > 12] + [b > 204] + [b > 230] + [b > 243]`; it lies in 1..5, agrees with the
table `DOP_CENSUS_ORACLE`, and the numbers of byte values giving the counts 1, 2, 3, 4, 5
are 13, 192, 26, 13, 12. -/
theorem C12_word_count_distribution :
    (∀ b : Nat, divine_dop_census b
        = 1 + (if b > 12 then 1 else 0) + (if b > 204 then 1 else 0)
            + (if b > 230 then 1 else 0) + (if b > 243 then 1 else 0) ∧
      1 ≤ divine_dop_census b ∧ divine_dop_census b ≤ 5) ∧
    (∀ D1 : Nat, word_count D1 = divine_dop_census ((D1 >>> 56) &&& 0xFF) ∧
      (D1 >>> 56) &&& 0xFF < 256) ∧
    (List.range 256).map divine_dop_census = DOP_CENSUS_ORACLE ∧
    ((List.range 256).filter (fun b => divine_dop_census b = 1)).length = 13 ∧
    ((List.range 256).filter (fun b => divine_dop_census b = 2)).length = 192 ∧
    ((List.range 256).filter (fun b => divine_dop_census b = 3)).length = 26 ∧
    ((List.range 256).filter (fun b => divine_dop_census b = 4)).length = 13 ∧
    ((List.range 256).filter (fun b => divine_dop_census b = 5)).length = 12 := by
  refine ⟨fun b => ⟨rfl, divine_dop_census_bounds b⟩,
    fun D1 => ⟨rfl, Nat.and_lt_two_pow _ (by decide : 255 < 2 ^ 8)⟩,
    by decide, by decide, by decide, by decide, by decide, by decide⟩

theorem variant_text (build : Build) (hive : ToiletHivemind) (c : SkibidiContext)
    (b : Scroll) (buffer_size : Nat) (h : 64 ≤ buffer_size) :
    written (skibidi_generate_variant build hive (some c) (some b) buffer_size)
      = expanded_text false (draw_D1 c) (draw_D2 c) :=
  (variant_writes build hive c b buffer_size h).1

theorem generate_text (build : Build) (hive : ToiletHivemind) (c : SkibidiContext)
    (b : Scroll) (buffer_size : Nat) (h : 64 ≤ buffer_size)
    (hexp : 69 ≤ (draw_D1 c >>> 48) &&& 0xFF) :
    written (skibidi_generate build hive (some c) (some b) buffer_size)
      = expanded_text true (draw_D1 c) (draw_D2 c) :=
  (generate_writes build hive c b buffer_size h hexp).1

theorem expanded_text_head (m : Bool) (D1 D2 : Nat) :
    expanded_text m D1 D2
      = (if prefix_byte m D1 < 38 then cbytes "Brrrrr " else []) ++ cbytes "Skibidi "
          ++ (lead_words D2 (word_count D1) ++ [32] ++ verdict_text (verdict_byte m D1) D2) := by
  unfold expanded_text
  simp only [List.append_assoc]

theorem expanded_text_words (m : Bool) (D1 D2 : Nat) :
    expanded_text m D1 D2
      = ((if prefix_byte m D1 < 38 then cbytes "Brrrrr " else []) ++ cbytes "Skibidi ")
          ++ lead_words D2 (word_count D1) ++ ([32] ++ verdict_text (verdict_byte m D1) D2) := by
  unfold expanded_text
  simp only [List.append_assoc]

/-- Lead word `k` of the expanded text, at offset `flag * 7 + 8 + 4k`. -/
theorem expanded_word_slice (m : Bool) (D1 D2 k : Nat) (hk : k < word_count D1) :
    ((expanded_text m D1 D2).drop
        ((if prefix_byte m D1 < 38 then 1 else 0) * 7 + 8 + 4 * k)).take 3 = lead_word D2 k := by
  have hlen : ((if prefix_byte m D1 < 38 then cbytes "Brrrrr " else [])
      ++ cbytes "Skibidi ").length = (if prefix_byte m D1 < 38 then 1 else 0) * 7 + 8 := by
    split_ifs <;> rfl
  rw [expanded_text_words, ← hlen]
  exact text_word_slice _ _ D2 _ k hk (word_count_bounds D1).2

/-- C13: on the expanded path the output begins with "Brrrrr Skibidi " exactly when the
prefix byte of `D1` is below 38 and with "Skibidi " otherwise, the name standing at offset
`flag * 7`; the prefix byte is bits 55..48 of `D1` in `skibidi_generate_variant` and bits
47..40 in `skibidi_generate` (whose expanded path is taken when bits 55..48 are at least
69). -/
theorem C13_prefix_flag (build : Build) (hive : ToiletHivemind) (c : SkibidiContext)
    (b : Scroll) (buffer_size : Nat) (h : 64 ≤ buffer_size) :
    ((cbytes "Brrrrr Skibidi " <+:
          written (skibidi_generate_variant build hive (some c) (some b) buffer_size)
        ↔ (draw_D1 c >>> 48) &&& 0xFF < 38) ∧
      (cbytes "Skibidi " <+:
          written (skibidi_generate_variant build hive (some c) (some b) buffer_size)
        ↔ ¬ (draw_D1 c >>> 48) &&& 0xFF < 38) ∧
      ((written (skibidi_generate_variant build hive (some c) (some b) buffer_size)).drop
          ((if (draw_D1 c >>> 48) &&& 0xFF < 38 then 1 else 0) * 7)).take 8
        = cbytes "Skibidi ") ∧
    (69 ≤ (draw_D1 c >>> 48) &&& 0xFF →
      (cbytes "Brrrrr Skibidi " <+:
          written (skibidi_generate build hive (some c) (some b) buffer_size)
        ↔ (draw_D1 c >>> 40) &&& 0xFF < 38) ∧
      (cbytes "Skibidi " <+:
          written (skibidi_generate build hive (some c) (some b) buffer_size)
        ↔ ¬ (draw_D1 c >>> 40) &&& 0xFF < 38) ∧
      ((written (skibidi_generate build hive (some c) (some b) buffer_size)).drop
          ((if (draw_D1 c >>> 40) &&& 0xFF < 38 then 1 else 0) * 7)).take 8
        = cbytes "Skibidi ") := by
  constructor
  · rw [variant_text build hive c b buffer_size h, expanded_text_head]
    exact text_prefix_facts ((draw_D1 c >>> 48) &&& 0xFF) _
  · intro hexp
    rw [generate_text build hive c b buffer_size h hexp, expanded_text_head]
    exact text_prefix_facts ((draw_D1 c >>> 40) &&& 0xFF) _

theorem C13_prefix_flag_witness :
    64 ≤ 64 ∧ 69 ≤ (draw_D1 (init_context 0) >>> 48) &&& 0xFF ∧
    ((cbytes "Brrrrr Skibidi " <+:
          written (skibidi_generate_variant scalar_build scalar_hive (some (init_context 0))
            (some blank_scroll) 64)
        ↔ (draw_D1 (init_context 0) >>> 48) &&& 0xFF < 38) ∧
      (cbytes "Skibidi " <+:
          written (skibidi_generate_variant scalar_build scalar_hive (some (init_context 0))
            (some blank_scroll) 64)
        ↔ ¬ (draw_D1 (init_context 0) >>> 48) &&& 0xFF < 38) ∧
      ((written (skibidi_generate_variant scalar_build scalar_hive (some (init_context 0))
            (some blank_scroll) 64)).drop
          ((if (draw_D1 (init_context 0) >>> 48) &&& 0xFF < 38 then 1 else 0) * 7)).take 8
        = cbytes "Skibidi ") ∧
    ((cbytes "Brrrrr Skibidi " <+:
          written (skibidi_generate scalar_build scalar_hive (some (init_context 0))
            (some blank_scroll) 64)
        ↔ (draw_D1 (init_context 0) >>> 40) &&& 0xFF < 38) ∧
      (cbytes "Skibidi " <+:
          written (skibidi_generate scalar_build scalar_hive (some (init_context 0))
            (some blank_scroll) 64)
        ↔ ¬ (draw_D1 (init_context 0) >>> 40) &&& 0xFF < 38) ∧
      ((written (skibidi_generate scalar_build scalar_hive (some (init_context 0))
            (some blank_scroll) 64)).drop
          ((if (draw_D1 (init_context 0) >>> 40) &&& 0xFF < 38 then 1 else 0) * 7)).take 8
        = cbytes "Skibidi ") :=
  ⟨by decide, by decide,
    (C13_prefix_flag scalar_build scalar_hive (init_context 0) blank_scroll 64 (by decide)).1,
    (C13_prefix_flag scalar_build scalar_hive (init_context 0) blank_scroll 64 (by decide)).2
      (by decide)⟩

set_option maxRecDepth 100000 in
/-- C14: on the expanded path the output ends (up to letter case) with " yes yes!" exactly
when the verdict byte of `D1` is at least 38 and with " no no!" exactly when it is below
38; the verdict byte is bits 47..40 of `D1` in `skibidi_generate_variant` and bits 39..32
in `skibidi_generate`; 218 of the 256 byte values approve. -/
theorem C14_verdict_polarity (build : Build) (hive : ToiletHivemind) (c : SkibidiContext)
    (b : Scroll) (buffer_size : Nat) (h : 64 ≤ buffer_size) :
    ((cbytes " yes yes!" <:+
          (written (skibidi_generate_variant build hive (some c) (some b) buffer_size)).map
            to_lower
        ↔ (draw_D1 c >>> 40) &&& 0xFF ≥ 38) ∧
      (cbytes " no no!" <:+
          (written (skibidi_generate_variant build hive (some c) (some b) buffer_size)).map
            to_lower
        ↔ (draw_D1 c >>> 40) &&& 0xFF < 38)) ∧
    (69 ≤ (draw_D1 c >>> 48) &&& 0xFF →
      (cbytes " yes yes!" <:+
          (written (skibidi_generate build hive (some c) (some b) buffer_size)).map to_lower
        ↔ (draw_D1 c >>> 32) &&& 0xFF ≥ 38) ∧
      (cbytes " no no!" <:+
          (written (skibidi_generate build hive (some c) (some b) buffer_size)).map to_lower
        ↔ (draw_D1 c >>> 32) &&& 0xFF < 38)) ∧
    ((List.range 256).filter (fun v => v ≥ TOILET_REJECTION_THRESHOLD)).length = 218 := by
  refine ⟨?_, ?_, by decide⟩
  · rw [variant_text build hive c b buffer_size h]
    exact text_suffix_facts ((draw_D1 c >>> 40) &&& 0xFF) (draw_D2 c) _
  · intro hexp
    rw [generate_text build hive c b buffer_size h hexp]
    exact text_suffix_facts ((draw_D1 c >>> 32) &&& 0xFF) (draw_D2 c) _

theorem C14_verdict_polarity_witness :
    64 ≤ 64 ∧ 69 ≤ (draw_D1 (init_context 0) >>> 48) &&& 0xFF ∧
    ((cbytes " yes yes!" <:+
          (written (skibidi_generate_variant scalar_build scalar_hive (some (init_context 0))
            (some blank_scroll) 64)).map to_lower
        ↔ (draw_D1 (init_context 0) >>> 40) &&& 0xFF ≥ 38) ∧
      (cbytes " no no!" <:+
          (written (skibidi_generate_variant scalar_build scalar_hive (some (init_context 0))
            (some blank_scroll) 64)).map to_lower
        ↔ (draw_D1 (init_context 0) >>> 40) &&& 0xFF < 38)) ∧
    ((cbytes " yes yes!" <:+
          (written (skibidi_generate scalar_build scalar_hive (some (init_context 0))
            (some blank_scroll) 64)).map to_lower
        ↔ (draw_D1 (init_context 0) >>> 32) &&& 0xFF ≥ 38) ∧
      (cbytes " no no!" <:+
          (written (skibidi_generate scalar_build scalar_hive (some (init_context 0))
            (some blank_scroll) 64)).map to_lower
        ↔ (draw_D1 (init_context 0) >>> 32) &&& 0xFF < 38)) ∧
    ((List.range 256).filter (fun v => v ≥ TOILET_REJECTION_THRESHOLD)).length = 218 :=
  ⟨by decide, by decide,
    (C14_verdict_polarity scalar_build scalar_hive (init_context 0) blank_scroll 64
      (by decide)).1,
    (C14_verdict_polarity scalar_build scalar_hive (init_context 0) blank_scroll 64
      (by decide)).2.1 (by decide),
    (C14_verdict_polarity scalar_build scalar_hive (init_context 0) blank_scroll 64
      (by decide)).2.2⟩

theorem phrase_length (s : Scroll) (n : Nat) : (phrase s n).length = n := by
  simp [phrase]

theorem starts_self (s : Scroll) (p : Nat) : StartsWith s (phrase s p) := by
  intro i hi
  rw [phrase_length] at hi
  unfold phrase
  rw [List.getD_eq_getElem _ _ (by simpa using hi)]
  simp

/-- The lead-word stage on any buffer, position, count and second draw: it keeps the
first `p` bytes and appends the lead words decoded from `e`. -/
theorem speak_dops_phrase (s : Scroll) (p n e : Nat) (h1 : 1 ≤ n) (h5 : n ≤ 5) :
    phrase (speak_dops s p n e).1 (speak_dops s p n e).2 = phrase s p ++ lead_words e n := by
  have h := starts_speak_dops (starts_self s p) p n e (phrase_length s p).symm
  have hidx : min (max n 1) 5 - 1 = n - 1 := by omega
  rw [hidx, ← lead_words_eq e n h1 h5] at h
  apply phrase_of_starts h
  rw [speak_dops_pos_eq, List.length_append, phrase_length, lead_words_length e n h1 h5]
  omega

/-- The three bytes of slot `k` after the lead-word stage, for every second draw. -/
theorem speak_dops_slot (s : Scroll) (p n e k : Nat) (hk : k < n) (h5 : n ≤ 5) :
    ((phrase (speak_dops s p n e).1 (speak_dops s p n e).2).drop (p + 4 * k)).take 3
      = lead_word e k := by
  rw [speak_dops_phrase s p n e (by omega) h5]
  have h := text_word_slice (phrase s p) [] e n k hk h5
  rw [phrase_length, List.append_nil] at h
  exact h

theorem lead_word_eq_peek (D2 k : Nat) :
    lead_word D2 k
      = peek (if (D2 >>> (3 * k)) &&& 7 = 0 then DOM_DISGUISE_MULTIVERSE else DOP_MULTIVERSE)
          (DOP_ZODIAC_CHART.getD ((D2 >>> (20 + 5 * k)) &&& 31) 0 * 4) 3 := by
  unfold lead_word rune_text
  by_cases h : (D2 >>> (3 * k)) &&& 7 = 0 <;> simp [h]

theorem zodiac_le_7 (i : Nat) (h : i < 32) : DOP_ZODIAC_CHART.getD i 0 ≤ 7 := by
  interval_cases i <;> decide

/-- The position of lead word `k` and its three bytes in the phrase of a variant call. -/
theorem variant_word (build : Build) (hive : ToiletHivemind) (c : SkibidiContext)
    (b : Scroll) (buffer_size k : Nat) (h : 64 ≤ buffer_size)
    (hk : k < word_count (draw_D1 c)) :
    ((written (skibidi_generate_variant build hive (some c) (some b) buffer_size)).drop
        ((if (draw_D1 c >>> 48) &&& 0xFF < 38 then 1 else 0) * 7 + 8 + 4 * k)).take 3
      = lead_word (draw_D2 c) k := by
  rw [variant_text build hive c b buffer_size h]
  exact expanded_word_slice false (draw_D1 c) (draw_D2 c) k hk

/-- The position of lead word `k` and its three bytes in the phrase of a
`skibidi_generate` call on the expanded path. -/
theorem generate_word (build : Build) (hive : ToiletHivemind) (c : SkibidiContext)
    (b : Scroll) (buffer_size k : Nat) (h : 64 ≤ buffer_size)
    (hk : k < word_count (draw_D1 c)) (hexp : 69 ≤ (draw_D1 c >>> 48) &&& 0xFF) :
    ((written (skibidi_generate build hive (some c) (some b) buffer_size)).drop
        ((if (draw_D1 c >>> 40) &&& 0xFF < 38 then 1 else 0) * 7 + 8 + 4 * k)).take 3
      = lead_word (draw_D2 c) k := by
  rw [generate_text build hive c b buffer_size h hexp]
  exact expanded_word_slice true (draw_D1 c) (draw_D2 c) k hk

/-- C15: for every second draw `D2` and every lead-word slot `k` that is written, the
word is taken from the substituted ("dom") table exactly when bits `3k .. 3k+2` of `D2`
are all zero and from the primary ("dop") table otherwise: its three bytes are an entry
of that table and spell "dom", respectively "dop", up to letter case.  Stated for both
calls and, for every value of `D2`, for the lead-word stage of the generator. -/
theorem C15_substitution_bits (build : Build) (hive : ToiletHivemind) (c : SkibidiContext)
    (b : Scroll) (buffer_size k : Nat) (h : 64 ≤ buffer_size)
    (hk : k < word_count (draw_D1 c)) :
    ((((written (skibidi_generate_variant build hive (some c) (some b) buffer_size)).drop
          ((if (draw_D1 c >>> 48) &&& 0xFF < 38 then 1 else 0) * 7 + 8 + 4 * k)).take 3).map
          to_lower
        = (if (draw_D2 c >>> (3 * k)) &&& 7 = 0 then cbytes "dom" else cbytes "dop") ∧
      ∃ z, z ≤ 7 ∧
        ((written (skibidi_generate_variant build hive (some c) (some b) buffer_size)).drop
          ((if (draw_D1 c >>> 48) &&& 0xFF < 38 then 1 else 0) * 7 + 8 + 4 * k)).take 3
        = peek (if (draw_D2 c >>> (3 * k)) &&& 7 = 0 then DOM_DISGUISE_MULTIVERSE
            else DOP_MULTIVERSE) (z * 4) 3) ∧
    (69 ≤ (draw_D1 c >>> 48) &&& 0xFF →
      (((written (skibidi_generate build hive (some c) (some b) buffer_size)).drop
          ((if (draw_D1 c >>> 40) &&& 0xFF < 38 then 1 else 0) * 7 + 8 + 4 * k)).take 3).map
          to_lower
        = (if (draw_D2 c >>> (3 * k)) &&& 7 = 0 then cbytes "dom" else cbytes "dop") ∧
      ∃ z, z ≤ 7 ∧
        ((written (skibidi_generate build hive (some c) (some b) buffer_size)).drop
          ((if (draw_D1 c >>> 40) &&& 0xFF < 38 then 1 else 0) * 7 + 8 + 4 * k)).take 3
        = peek (if (draw_D2 c >>> (3 * k)) &&& 7 = 0 then DOM_DISGUISE_MULTIVERSE
            else DOP_MULTIVERSE) (z * 4) 3) ∧
    (∀ (s : Scroll) (p n e j : Nat), j < n → n ≤ 5 →
      (((phrase (speak_dops s p n e).1 (speak_dops s p n e).2).drop (p + 4 * j)).take 3).map
          to_lower
        = (if (e >>> (3 * j)) &&& 7 = 0 then cbytes "dom" else cbytes "dop")) ∧
    cbytes "dom" ≠ cbytes "dop" := by
  refine ⟨?_, ?_, ?_, by decide⟩
  rotate_left 2
  · intro s p n e j hj hn
    rw [speak_dops_slot s p n e j hj hn]
    exact lead_word_lower e j
  · rw [variant_word build hive c b buffer_size k h hk]
    exact ⟨lead_word_lower _ _, _, zodiac_le_7 _ (and_31_lt _), lead_word_eq_peek _ _⟩
  · intro hexp
    rw [generate_word build hive c b buffer_size k h hk hexp]
    exact ⟨lead_word_lower _ _, _, zodiac_le_7 _ (and_31_lt _), lead_word_eq_peek _ _⟩

/-- C16: in the single-item path, for every second draw `D2` and every lead-word slot `k`
that is written, the variant class is the case-variant table entry at index
`(D2 >> (20 + 5k)) & 31`, and the three bytes written are entry `class` of the selected
word table.  Stated for both calls and, for every value of `D2`, for the lead-word stage
of the generator. -/
theorem C16_case_variant_bits (build : Build) (hive : ToiletHivemind) (c : SkibidiContext)
    (b : Scroll) (buffer_size k : Nat) (h : 64 ≤ buffer_size)
    (hk : k < word_count (draw_D1 c)) :
    ((written (skibidi_generate_variant build hive (some c) (some b) buffer_size)).drop
        ((if (draw_D1 c >>> 48) &&& 0xFF < 38 then 1 else 0) * 7 + 8 + 4 * k)).take 3
      = peek (if (draw_D2 c >>> (3 * k)) &&& 7 = 0 then DOM_DISGUISE_MULTIVERSE
          else DOP_MULTIVERSE)
          (DOP_ZODIAC_CHART.getD ((draw_D2 c >>> (20 + 5 * k)) &&& 31) 0 * 4) 3 ∧
    (69 ≤ (draw_D1 c >>> 48) &&& 0xFF →
      ((written (skibidi_generate build hive (some c) (some b) buffer_size)).drop
        ((if (draw_D1 c >>> 40) &&& 0xFF < 38 then 1 else 0) * 7 + 8 + 4 * k)).take 3
      = peek (if (draw_D2 c >>> (3 * k)) &&& 7 = 0 then DOM_DISGUISE_MULTIVERSE
          else DOP_MULTIVERSE)
          (DOP_ZODIAC_CHART.getD ((draw_D2 c >>> (20 + 5 * k)) &&& 31) 0 * 4) 3) ∧
    (∀ (s : Scroll) (p n e j : Nat), j < n → n ≤ 5 →
      ((phrase (speak_dops s p n e).1 (speak_dops s p n e).2).drop (p + 4 * j)).take 3
        = peek (if (e >>> (3 * j)) &&& 7 = 0 then DOM_DISGUISE_MULTIVERSE
            else DOP_MULTIVERSE)
            (DOP_ZODIAC_CHART.getD ((e >>> (20 + 5 * j)) &&& 31) 0 * 4) 3) := by
  refine ⟨?_, ?_, ?_⟩
  · rw [variant_word build hive c b buffer_size k h hk]
    exact lead_word_eq_peek _ _
  · intro hexp
    rw [generate_word build hive c b buffer_size k h hk hexp]
    exact lead_word_eq_peek _ _
  · intro s p n e j hj hn
    rw [speak_dops_slot s p n e j hj hn]
    exact lead_word_eq_peek e j

theorem lead_word_dop_or_dom (D2 k : Nat) :
    (lead_word D2 k).length = 3 ∧
      ((lead_word D2 k).map to_lower = cbytes "dop" ∨
        (lead_word D2 k).map to_lower = cbytes "dom") := by
  refine ⟨lead_word_length D2 k, ?_⟩
  rw [lead_word_lower]
  split_ifs
  · exact Or.inr rfl
  · exact Or.inl rfl

theorem verdict_yes_or_no (vb D2 : Nat) :
    (verdict_text vb D2).map to_lower = cbytes "yes yes!" ∨
      (verdict_text vb D2).map to_lower = cbytes "no no!" := by
  rw [verdict_lower]
  split_ifs
  · exact Or.inl rfl
  · exact Or.inr rfl

/-- C20: on the expanded path the first `L` bytes written are exactly the optional
7-byte "Brrrrr " prefix, the 8 bytes "Skibidi ", then `word_count` three-byte lead words
joined by single spaces, then one space, then the verdict; `L` is the returned length;
each lead word is "dop" or "dom" up to letter case and the verdict is "yes yes!" or
"no no!" up to letter case.  Stated for `skibidi_generate_variant`, for
`skibidi_generate` off the fast path, and for the expanded path on any first draw. -/
theorem C20_expanded_structure (build : Build) (hive : ToiletHivemind) (c : SkibidiContext)
    (b : Scroll) (buffer_size : Nat) (h : 64 ≤ buffer_size) :
    (written (skibidi_generate_variant build hive (some c) (some b) buffer_size)
        = (if (draw_D1 c >>> 48) &&& 0xFF < 38 then cbytes "Brrrrr " else [])
            ++ cbytes "Skibidi "
            ++ List.intercalate [32] ((List.range (word_count (draw_D1 c))).map
                (lead_word (draw_D2 c)))
            ++ [32] ++ verdict_text ((draw_D1 c >>> 40) &&& 0xFF) (draw_D2 c) ∧
      (skibidi_generate_variant build hive (some c) (some b) buffer_size).2.2
        = ((written (skibidi_generate_variant build hive (some c) (some b)
            buffer_size)).length : Int)) ∧
    (69 ≤ (draw_D1 c >>> 48) &&& 0xFF →
      written (skibidi_generate build hive (some c) (some b) buffer_size)
        = (if (draw_D1 c >>> 40) &&& 0xFF < 38 then cbytes "Brrrrr " else [])
            ++ cbytes "Skibidi "
            ++ List.intercalate [32] ((List.range (word_count (draw_D1 c))).map
                (lead_word (draw_D2 c)))
            ++ [32] ++ verdict_text ((draw_D1 c >>> 32) &&& 0xFF) (draw_D2 c) ∧
      (skibidi_generate build hive (some c) (some b) buffer_size).2.2
        = ((written (skibidi_generate build hive (some c) (some b) buffer_size)).length
            : Int)) ∧
    (∀ (rng : SkibidiRngState) (s : Scroll) (m : Bool) (D1 : Nat),
      phrase (toilet_speak_expanded rng s m D1).2.1 (toilet_speak_expanded rng s m D1).2.2
        = (if (if m then (D1 >>> 40) &&& 0xFF else (D1 >>> 48) &&& 0xFF) < 38
            then cbytes "Brrrrr " else [])
            ++ cbytes "Skibidi "
            ++ List.intercalate [32] ((List.range (word_count D1)).map
                (lead_word (toilet_flush_entropy rng).1))
            ++ [32]
            ++ verdict_text (if m then (D1 >>> 32) &&& 0xFF else (D1 >>> 40) &&& 0xFF)
                (toilet_flush_entropy rng).1) ∧
    (∀ D1 : Nat, 1 ≤ word_count D1 ∧ word_count D1 ≤ 5) ∧
    (∀ D2 k : Nat, (lead_word D2 k).length = 3 ∧
      ((lead_word D2 k).map to_lower = cbytes "dop" ∨
        (lead_word D2 k).map to_lower = cbytes "dom")) ∧
    (∀ vb D2 : Nat, (verdict_text vb D2).map to_lower = cbytes "yes yes!" ∨
      (verdict_text vb D2).map to_lower = cbytes "no no!") := by
  refine ⟨?_, ?_, ?_, word_count_bounds, lead_word_dop_or_dom, verdict_yes_or_no⟩
  · have hv := variant_writes build hive c b buffer_size h
    refine ⟨hv.1, ?_⟩
    rw [hv.2, hv.1]
  · intro hexp
    have hg := generate_writes build hive c b buffer_size h hexp
    refine ⟨hg.1, ?_⟩
    rw [hg.2, hg.1]
  · intro rng s m D1
    exact expanded_phrase rng s m D1

theorem C15_substitution_bits_witness :
    64 ≤ 64 ∧ 2 < word_count (draw_D1 (init_context 134)) ∧
    69 ≤ (draw_D1 (init_context 134) >>> 48) &&& 0xFF ∧
    ((((written (skibidi_generate_variant scalar_build scalar_hive (some (init_context 134))
        (some blank_scroll) 64)).drop
          ((if (draw_D1 (init_context 134) >>> 48) &&& 0xFF < 38 then 1 else 0)
              * 7 + 8 + 4 * 2)).take 3).map
          to_lower
        = (if (draw_D2 (init_context 134) >>> (3 * 2)) &&& 7 = 0
            then cbytes "dom" else cbytes "dop") ∧
      ∃ z, z ≤ 7 ∧
        ((written (skibidi_generate_variant scalar_build scalar_hive (some (init_context 134))
            (some blank_scroll) 64)).drop
          ((if (draw_D1 (init_context 134) >>> 48) &&& 0xFF < 38 then 1 else 0)
              * 7 + 8 + 4 * 2)).take 3
        = peek (if (draw_D2 (init_context 134) >>> (3 * 2)) &&& 7 = 0 then DOM_DISGUISE_MULTIVERSE
            else DOP_MULTIVERSE) (z * 4) 3) ∧
    ((((written (skibidi_generate scalar_build scalar_hive (some (init_context 134))
        (some blank_scroll) 64)).drop
          ((if (draw_D1 (init_context 134) >>> 40) &&& 0xFF < 38 then 1 else 0)
              * 7 + 8 + 4 * 2)).take 3).map
          to_lower
        = (if (draw_D2 (init_context 134) >>> (3 * 2)) &&& 7 = 0
            then cbytes "dom" else cbytes "dop") ∧
      ∃ z, z ≤ 7 ∧
        ((written (skibidi_generate scalar_build scalar_hive (some (init_context 134))
            (some blank_scroll) 64)).drop
          ((if (draw_D1 (init_context 134) >>> 40) &&& 0xFF < 38 then 1 else 0)
              * 7 + 8 + 4 * 2)).take 3
        = peek (if (draw_D2 (init_context 134) >>> (3 * 2)) &&& 7 = 0 then DOM_DISGUISE_MULTIVERSE
            else DOP_MULTIVERSE) (z * 4) 3) ∧
    (∀ (s : Scroll) (p n e j : Nat), j < n → n ≤ 5 →
      (((phrase (speak_dops s p n e).1 (speak_dops s p n e).2).drop (p + 4 * j)).take 3).map
          to_lower
        = (if (e >>> (3 * j)) &&& 7 = 0 then cbytes "dom" else cbytes "dop")) ∧
    cbytes "dom" ≠ cbytes "dop" :=
  ⟨by decide, by decide, by decide,
    (C15_substitution_bits scalar_build scalar_hive (init_context 134) blank_scroll 64 2
      (by decide) (by decide)).1,
    (C15_substitution_bits scalar_build scalar_hive (init_context 134) blank_scroll 64 2
      (by decide) (by decide)).2.1 (by decide),
    (C15_substitution_bits scalar_build scalar_hive (init_context 134) blank_scroll 64 2
      (by decide) (by decide)).2.2⟩

theorem C16_case_variant_bits_witness :
    64 ≤ 64 ∧ 2 < word_count (draw_D1 (init_context 134)) ∧
    69 ≤ (draw_D1 (init_context 134) >>> 48) &&& 0xFF ∧
    ((written (skibidi_generate_variant scalar_build scalar_hive (some (init_context 134))
        (some blank_scroll) 64)).drop
        ((if (draw_D1 (init_context 134) >>> 48) &&& 0xFF < 38 then 1 else 0)
            * 7 + 8 + 4 * 2)).take 3
      = peek (if (draw_D2 (init_context 134) >>> (3 * 2)) &&& 7 = 0 then DOM_DISGUISE_MULTIVERSE
          else DOP_MULTIVERSE)
          (DOP_ZODIAC_CHART.getD ((draw_D2 (init_context 134) >>> (20 + 5 * 2)) &&& 31) 0 * 4) 3 ∧
    (((written (skibidi_generate scalar_build scalar_hive (some (init_context 134))
        (some blank_scroll) 64)).drop
        ((if (draw_D1 (init_context 134) >>> 40) &&& 0xFF < 38 then 1 else 0)
            * 7 + 8 + 4 * 2)).take 3
      = peek (if (draw_D2 (init_context 134) >>> (3 * 2)) &&& 7 = 0 then DOM_DISGUISE_MULTIVERSE
          else DOP_MULTIVERSE)
          (DOP_ZODIAC_CHART.getD ((draw_D2 (init_context 134) >>> (20 + 5 * 2)) &&& 31) 0 * 4) 3) ∧
    (∀ (s : Scroll) (p n e j : Nat), j < n → n ≤ 5 →
      ((phrase (speak_dops s p n e).1 (speak_dops s p n e).2).drop (p + 4 * j)).take 3
        = peek (if (e >>> (3 * j)) &&& 7 = 0 then DOM_DISGUISE_MULTIVERSE
            else DOP_MULTIVERSE)
            (DOP_ZODIAC_CHART.getD ((e >>> (20 + 5 * j)) &&& 31) 0 * 4) 3) :=
  ⟨by decide, by decide, by decide,
    (C16_case_variant_bits scalar_build scalar_hive (init_context 134) blank_scroll 64 2
      (by decide) (by decide)).1,
    (C16_case_variant_bits scalar_build scalar_hive (init_context 134) blank_scroll 64 2
      (by decide) (by decide)).2.1 (by decide),
    (C16_case_variant_bits scalar_build scalar_hive (init_context 134) blank_scroll 64 2
      (by decide) (by decide)).2.2⟩

theorem C20_expanded_structure_witness :
    64 ≤ 64 ∧ 69 ≤ (draw_D1 (init_context 134) >>> 48) &&& 0xFF ∧
    (written (skibidi_generate_variant scalar_build scalar_hive (some (init_context 134))
        (some blank_scroll) 64)
        = (if (draw_D1 (init_context 134) >>> 48) &&& 0xFF < 38 then cbytes "Brrrrr " else [])
            ++ cbytes "Skibidi "
            ++ List.intercalate [32] ((List.range (word_count (draw_D1 (init_context 134)))).map
                (lead_word (draw_D2 (init_context 134))))
            ++ [32] ++ verdict_text ((draw_D1 (init_context 134) >>> 40) &&& 0xFF)
                (draw_D2 (init_context 134)) ∧
      (skibidi_generate_variant scalar_build scalar_hive (some (init_context 134))
          (some blank_scroll) 64).2.2
        = ((written (skibidi_generate_variant scalar_build scalar_hive (some (init_context 134))
            (some blank_scroll)
            64)).length : Int)) ∧
    (written (skibidi_generate scalar_build scalar_hive (some (init_context 134))
        (some blank_scroll) 64)
        = (if (draw_D1 (init_context 134) >>> 40) &&& 0xFF < 38 then cbytes "Brrrrr " else [])
            ++ cbytes "Skibidi "
            ++ List.intercalate [32] ((List.range (word_count (draw_D1 (init_context 134)))).map
                (lead_word (draw_D2 (init_context 134))))
            ++ [32] ++ verdict_text ((draw_D1 (init_context 134) >>> 32) &&& 0xFF)
                (draw_D2 (init_context 134)) ∧
      (skibidi_generate scalar_build scalar_hive (some (init_context 134))
          (some blank_scroll) 64).2.2
        = ((written (skibidi_generate scalar_build scalar_hive (some (init_context 134))
            (some blank_scroll) 64)).length
            : Int)) ∧
    (∀ (rng : SkibidiRngState) (s : Scroll) (m : Bool) (D1 : Nat),
      phrase (toilet_speak_expanded rng s m D1).2.1 (toilet_speak_expanded rng s m D1).2.2
        = (if (if m then (D1 >>> 40) &&& 0xFF else (D1 >>> 48) &&& 0xFF) < 38
            then cbytes "Brrrrr " else [])
            ++ cbytes "Skibidi "
            ++ List.intercalate [32] ((List.range (word_count D1)).map
                (lead_word (toilet_flush_entropy rng).1))
            ++ [32]
            ++ verdict_text (if m then (D1 >>> 32) &&& 0xFF else (D1 >>> 40) &&& 0xFF)
                (toilet_flush_entropy rng).1) ∧
    (∀ D1 : Nat, 1 ≤ word_count D1 ∧ word_count D1 ≤ 5) ∧
    (∀ D2 k : Nat, (lead_word D2 k).length = 3 ∧
      ((lead_word D2 k).map to_lower = cbytes "dop" ∨
        (lead_word D2 k).map to_lower = cbytes "dom")) ∧
    (∀ vb D2 : Nat, (verdict_text vb D2).map to_lower = cbytes "yes yes!" ∨
      (verdict_text vb D2).map to_lower = cbytes "no no!") :=
  ⟨by decide, by decide,
    (C20_expanded_structure scalar_build scalar_hive (init_context 134) blank_scroll 64
      (by decide)).1,
    (C20_expanded_structure scalar_build scalar_hive (init_context 134) blank_scroll 64
      (by decide)).2.1 (by decide),
    (C20_expanded_structure scalar_build scalar_hive (init_context 134) blank_scroll 64
      (by decide)).2.2⟩

set_option maxRecDepth 100000 in
/-- C17: the case-variant table has 32 entries; exactly 25 indices map to class 0 and
exactly one index to each of the classes 1..7; every entry is at most 7, so the 4-byte
read at offset `class * 4` stays inside each 32-byte word table. -/
theorem C17_zodiac_chart :
    DOP_ZODIAC_CHART.length = 32 ∧
    ((List.range 32).filter (fun i => DOP_ZODIAC_CHART.getD i 0 = 0)).length = 25 ∧
    (∀ cls : Fin 7,
      ((List.range 32).filter (fun i => DOP_ZODIAC_CHART.getD i 0 = cls.val + 1)).length = 1) ∧
    (∀ i : Fin 32, DOP_ZODIAC_CHART.getD i.val 0 ≤ 7 ∧
      (DOP_ZODIAC_CHART.getD i.val 0 <<< 2) + 4 ≤ DOP_MULTIVERSE.length ∧
      (DOP_ZODIAC_CHART.getD i.val 0 <<< 2) + 4 ≤ DOM_DISGUISE_MULTIVERSE.length ∧
      (DOP_ZODIAC_CHART.getD i.val 0 <<< 2) + 4 ≤ TOILET_APPROVAL_MULTIVERSE.length) ∧
    DOP_MULTIVERSE.length = 32 ∧ DOM_DISGUISE_MULTIVERSE.length = 32 ∧
    TOILET_APPROVAL_MULTIVERSE.length = 32 := by
  refine ⟨by decide, by decide, by decide, by decide, by decide, by decide, by decide⟩

set_option maxRecDepth 100000 in
/-- C18 fails as stated: index 1 of the rejection table maps to class 0, not to
`1 mod 4 = 1`, and the rejection word written for index 1 is the lowercase "no". -/
theorem C18_index_one_is_class_zero :
    REJECTION_ZODIAC_CHART.getD 1 0 = 0 ∧ 1 % 4 = 1 ∧
    no_word 1 = cbytes "no" ∧
    ¬ (∀ i : Fin 32, REJECTION_ZODIAC_CHART.getD i.val 0 = i.val % 4) := by
  refine ⟨by decide, by decide, by decide, by decide⟩

set_option maxRecDepth 100000 in
/-- C18, amended: the rejection-word lookup maps a 5-bit index `i` to class 0 for `i` in
0..25 and to class `(i - 25) mod 4` for `i` in 26..31 (26, 27, 28, 29, 30, 31 give
1, 2, 3, 0, 1, 2); classes 0, 1, 2, 3 are hit by 27, 2, 2, 1 indices; every 2-byte read
at `class * 4` stays inside the 16-byte word table; and the fixed "no no!" template
agrees with the per-word lookup for every pair of indices. -/
theorem C18_rejection_chart :
    (∀ i : Fin 32, REJECTION_ZODIAC_CHART.getD i.val 0
        = if i.val < 26 then 0 else (i.val - 25) % 4) ∧
    ((List.range 32).map (fun i => REJECTION_ZODIAC_CHART.getD i 0)).count 0 = 27 ∧
    ((List.range 32).map (fun i => REJECTION_ZODIAC_CHART.getD i 0)).count 1 = 2 ∧
    ((List.range 32).map (fun i => REJECTION_ZODIAC_CHART.getD i 0)).count 2 = 2 ∧
    ((List.range 32).map (fun i => REJECTION_ZODIAC_CHART.getD i 0)).count 3 = 1 ∧
    (∀ i : Fin 32,
      (REJECTION_ZODIAC_CHART.getD i.val 0 <<< 2) + 2 ≤ TOILET_REJECTION_MULTIVERSE.length) ∧
    (∀ i1 i2 : Fin 32, rejection_text i1.val i2.val = rejection_by_lookup i1.val i2.val) := by
  refine ⟨by decide, by decide, by decide, by decide, by decide, by decide, by decide⟩

set_option maxRecDepth 100000 in
/-- C19 fails on the code: index 25 of the case-variant table is class 1 ("Yes"), yet the
approval fast path tests `index < 26` and writes the lowercase template for it.  After
`skibidi_init(ctx, 60)` one `skibidi_generate_variant` call has the 5-bit fields
`i1 = 25`, `i2 = 20` and writes "Skibidi dop dop dom dop Dop yes yes!", where the per-word
lookup spells the verdict "Yes yes!"; the same index 25 is written "Yes" when the other
index is 26.  The template agrees with the lookup for all other pairs of indices. -/
theorem C19_index_25_written_lowercase :
    DOP_ZODIAC_CHART.getD 25 0 = 1 ∧
    (draw_D2 (init_context 60) >>> 40) &&& 31 = 25 ∧
    (draw_D2 (init_context 60) >>> 45) &&& 31 = 20 ∧
    written (skibidi_generate_variant scalar_build scalar_hive (some (init_context 60))
      (some blank_scroll) 64) = cbytes "Skibidi dop dop dom dop Dop yes yes!" ∧
    approval_by_lookup 25 20 = cbytes "Yes yes!" ∧
    phrase (speak_verdict blank_scroll 0 38 ((25 <<< 40) ||| (20 <<< 45))).1 9
      = cbytes " yes yes!" ∧
    phrase (speak_verdict blank_scroll 0 38 ((25 <<< 40) ||| (26 <<< 45))).1 9
      = cbytes " Yes yEs!" ∧
    (∀ i1 i2 : Fin 32, approval_text i1.val i2.val = approval_by_lookup i1.val i2.val ↔
      ¬ ((i1.val = 25 ∧ i2.val < 26) ∨ (i1.val < 26 ∧ i2.val = 25))) := by
  refine ⟨by decide, by decide, by decide, by decide, by decide, by decide, by decide,
    by decide⟩

theorem soul_fuel_eq (s : Nat) : soul_fuel s = (s * sacred_multiplier) % 2 ^ 64 := by
  unfold soul_fuel toilet_consciousness_mul
  exact Nat.mod_mod_of_dvd _ (by norm_num)

/-- Multiplication by an odd constant is injective on 64-bit words. -/
theorem mul_odd_inj (m x y : Nat) (hm : Nat.gcd (2 ^ 64) m = 1) (hx : x < 2 ^ 64)
    (hy : y < 2 ^ 64) (h : (x * m) % 2 ^ 64 = (y * m) % 2 ^ 64) : x = y := by
  have h1 : x ≡ y [MOD 2 ^ 64] := Nat.ModEq.cancel_right_of_coprime hm h
  have h2 : x % 2 ^ 64 = y % 2 ^ 64 := h1
  rwa [Nat.mod_eq_of_lt hx, Nat.mod_eq_of_lt hy] at h2

/-- The value of a draw determines the 64-bit state it was taken from. -/
theorem soul_fuel_inj (x y : Nat) (hx : x < 2 ^ 64) (hy : y < 2 ^ 64)
    (h : soul_fuel x = soul_fuel y) : x = y := by
  rw [soul_fuel_eq, soul_fuel_eq] at h
  exact mul_odd_inj sacred_multiplier x y (by decide) hx hy h

theorem xorshift_bits (k x y : Nat) (hk : 0 < k) (hx : x < 2 ^ 64) (hy : y < 2 ^ 64)
    (h : x ^^^ (x >>> k) = y ^^^ (y >>> k)) :
    ∀ n i : Nat, 64 ≤ i + n → x.testBit i = y.testBit i := by
  intro n
  induction n with
  | zero =>
    intro i hi
    have hp : 2 ^ 64 ≤ 2 ^ i := Nat.pow_le_pow_right (by decide) (by omega)
    rw [Nat.testBit_lt_two_pow (Nat.lt_of_lt_of_le hx hp),
      Nat.testBit_lt_two_pow (Nat.lt_of_lt_of_le hy hp)]
  | succ n ih =>
    intro i hi
    have hb := congrArg (fun z => z.testBit i) h
    simp only [Nat.testBit_xor, Nat.testBit_shiftRight] at hb
    have hup := ih (k + i) (by omega)
    rw [hup] at hb
    cases hxb : x.testBit i <;> cases hyb : y.testBit i <;> simp_all

/-- The map `x ↦ x ^ (x >> k)` is injective on 64-bit words. -/
theorem xorshift_inj (k x y : Nat) (hk : 0 < k) (hx : x < 2 ^ 64) (hy : y < 2 ^ 64)
    (h : x ^^^ (x >>> k) = y ^^^ (y >>> k)) : x = y :=
  Nat.eq_of_testBit_eq (fun i => xorshift_bits k x y hk hx hy h 64 i (by omega))

theorem xorshift_lt (k x : Nat) (hx : x < 2 ^ 64) : x ^^^ (x >>> k) < 2 ^ 64 := by
  apply Nat.xor_lt_two_pow hx
  rw [Nat.shiftRight_eq_div_pow]
  exact Nat.lt_of_le_of_lt (Nat.div_le_self _ _) hx

theorem soul_mix_lt (x : Nat) : soul_mix x < 2 ^ 64 := by
  unfold soul_mix
  exact xorshift_lt 31 _ (Nat.mod_lt _ (by norm_num))

/-- The mixing function of `skibidi_init` is injective on 64-bit words. -/
theorem soul_mix_inj (x y : Nat) (hx : x < 2 ^ 64) (hy : y < 2 ^ 64)
    (h : soul_mix x = soul_mix y) : x = y := by
  unfold soul_mix at h
  simp only [] at h
  have h3 := xorshift_inj 31 _ _ (by decide) (Nat.mod_lt _ (by norm_num))
    (Nat.mod_lt _ (by norm_num)) h
  have h2 := mul_odd_inj 0x94D049BB133111EB _ _ (by decide)
    (xorshift_lt 27 _ (Nat.mod_lt _ (by norm_num)))
    (xorshift_lt 27 _ (Nat.mod_lt _ (by norm_num))) h3
  have h1 := xorshift_inj 27 _ _ (by decide) (Nat.mod_lt _ (by norm_num))
    (Nat.mod_lt _ (by norm_num)) h2
  have h0 := mul_odd_inj 0xBF58476D1CE4E5B9 _ _ (by decide) (xorshift_lt 30 x hx)
    (xorshift_lt 30 y hy) h1
  exact xorshift_inj 30 x y (by decide) hx hy h0

theorem or_one_eq (a : Nat) : a ||| 1 = 2 * (a / 2) + 1 := by
  apply Nat.eq_of_testBit_eq
  intro i
  cases i with
  | zero =>
    simp only [Nat.testBit_zero, Nat.or_mod_two_eq_one]
    have h1 : (2 * (a / 2) + 1) % 2 = 1 := by omega
    simp [h1]
  | succ i =>
    rw [Nat.testBit_succ, Nat.testBit_succ]
    have h1 : (2 * (a / 2) + 1) / 2 = a / 2 := by omega
    rw [h1]
    rw [← Nat.testBit_succ, Nat.testBit_or, Nat.testBit_succ a]
    have h2 : Nat.testBit 1 (i + 1) = false := by
      rw [Nat.testBit_succ]; simp
    rw [h2, Bool.or_false]

theorem init_s0_zero (seed : Nat) (h : seed < 2 ^ 64) :
    (init_context seed).rng.s0.get 0 = soul_mix seed ||| 1 := by
  show init_s0 seed 0 = _
  unfold init_s0
  have : (seed + 0 * 0x9E3779B97F4A7C15 % 2 ^ 64) % 2 ^ 64 = seed := by
    rw [Nat.zero_mul, Nat.zero_mod, Nat.add_zero, Nat.mod_eq_of_lt h]
  rw [this]

theorem init_s0_zero_lt (seed : Nat) (h : seed < 2 ^ 64) :
    (init_context seed).rng.s0.get 0 < 2 ^ 64 := by
  rw [init_s0_zero seed h]
  exact Nat.or_lt_two_pow (soul_mix_lt seed) (by norm_num)

/-- C11 fails as stated: the distinct 64-bit seeds 0 and 0x966dbfc16913c5d2 are mixed to
0 and 1, which `| 1` both turns into `s0[0] = 1`; the two contexts take the same first
draw and `skibidi_generate` writes the same phrase for both. -/
theorem C11_two_seeds_same_first_draw :
    (0 : Nat) ≠ 10839530715563148754 ∧ 10839530715563148754 < 2 ^ 64 ∧
    soul_mix 0 = 0 ∧ soul_mix 10839530715563148754 = 1 ∧
    (init_context 0).rng.s0.get 0 = 1 ∧
    (init_context 10839530715563148754).rng.s0.get 0 = 1 ∧
    draw_D1 (init_context 0) = draw_D1 (init_context 10839530715563148754) ∧
    written (skibidi_generate scalar_build scalar_hive (some (init_context 0))
        (some blank_scroll) 64)
      = written (skibidi_generate scalar_build scalar_hive
        (some (init_context 10839530715563148754)) (some blank_scroll) 64) ∧
    ¬ (∀ seed1 seed2 : Nat, seed1 < 2 ^ 64 → seed2 < 2 ^ 64 → seed1 ≠ seed2 →
      draw_D1 (init_context seed1) ≠ draw_D1 (init_context seed2)) := by
  refine ⟨by decide, by decide, by decide, by decide, by decide, by decide, by decide,
    by decide, ?_⟩
  intro hall
  exact hall 0 10839530715563148754 (by decide) (by decide) (by decide) (by decide)

/-- C11, amended: two distinct 64-bit seeds are always mixed to distinct values, and the
first draw taken after `skibidi_init` (the draw on `s0[0] = mix(seed) | 1`) is the same
for both exactly when the two mixed values agree in bits 63..1, that is, differ only in
bit 0, which `| 1` erases; otherwise the first draws differ. -/
theorem C11_first_draw_differs_unless_bit0 (seed1 seed2 : Nat) (h1 : seed1 < 2 ^ 64)
    (h2 : seed2 < 2 ^ 64) (hne : seed1 ≠ seed2) :
    soul_mix seed1 ≠ soul_mix seed2 ∧
    (init_context seed1).rng.s0.get 0 = soul_mix seed1 ||| 1 ∧
    (init_context seed2).rng.s0.get 0 = soul_mix seed2 ||| 1 ∧
    (draw_D1 (init_context seed1) = draw_D1 (init_context seed2)
      ↔ soul_mix seed1 / 2 = soul_mix seed2 / 2) := by
  refine ⟨fun h => hne (soul_mix_inj seed1 seed2 h1 h2 h), init_s0_zero seed1 h1,
    init_s0_zero seed2 h2, ?_⟩
  unfold draw_D1
  constructor
  · intro h
    have hs := soul_fuel_inj _ _ (init_s0_zero_lt seed1 h1) (init_s0_zero_lt seed2 h2) h
    rw [init_s0_zero seed1 h1, init_s0_zero seed2 h2, or_one_eq, or_one_eq] at hs
    omega
  · intro h
    rw [init_s0_zero seed1 h1, init_s0_zero seed2 h2, or_one_eq, or_one_eq, h]

theorem C11_first_draw_differs_unless_bit0_witness :
    0 < 2 ^ 64 ∧ 10839530715563148754 < 2 ^ 64 ∧ (0 : Nat) ≠ 10839530715563148754 ∧
    (soul_mix 0 ≠ soul_mix 10839530715563148754 ∧
    (init_context 0).rng.s0.get 0 = soul_mix 0 ||| 1 ∧
    (init_context 10839530715563148754).rng.s0.get 0
      = soul_mix 10839530715563148754 ||| 1 ∧
    (draw_D1 (init_context 0) = draw_D1 (init_context 10839530715563148754)
      ↔ soul_mix 0 / 2 = soul_mix 10839530715563148754 / 2)) :=
  ⟨by decide, by decide, by decide,
    C11_first_draw_differs_unless_bit0 0 10839530715563148754 (by decide) (by decide)
      (by decide)⟩

/-! ## Initialisation, destruction, strategy -/

/-- C21: whatever the context held before, `skibidi_init` returns `SKIBIDI_OK` and
leaves `s0[i] = mix(seed + i*0x9E3779B97F4A7C15) | 1` and
`s1[i] = mix(seed + i*0x9E3779B97F4A7C15 + 0x6A09E667F3BCC908) | 1` (arithmetic mod
`2^64`, `mix` the two-round xor-shift-multiply finaliser spelled out in the last
conjunct), every other field zero; with a null context it returns
`SKIBIDI_ERR_NULL_PTR`. -/
theorem C21_init_state (build : Build) (cpu : Cpu) (hive : ToiletHivemind)
    (previous : SkibidiContext) (seed : Nat) :
    (skibidi_init build cpu hive (some previous) seed).2.2 = SKIBIDI_OK ∧
    (∃ c, (skibidi_init build cpu hive (some previous) seed).2.1 = some c ∧
      (∀ i : Fin 4,
        c.rng.s0.get i = soul_mix ((seed + i.val * 0x9E3779B97F4A7C15) % 2 ^ 64) ||| 1 ∧
        c.rng.s1.get i
          = soul_mix ((seed + i.val * 0x9E3779B97F4A7C15 + 0x6A09E667F3BCC908) % 2 ^ 64) ||| 1) ∧
      c.rng.buffer = ⟨0, 0, 0, 0⟩ ∧ c.rng.buffer_idx = 0 ∧ c.rng._padding = 0 ∧
      c.rng.reserved0 = 0 ∧ c.rng.reserved1 = 0 ∧ c.call_count = 0 ∧
      c.reserved = [0, 0, 0, 0, 0, 0, 0]) ∧
    skibidi_init build cpu hive none seed = (hive, none, SKIBIDI_ERR_NULL_PTR) ∧
    (∀ x, soul_mix x =
      (((((x ^^^ (x >>> 30)) * 0xBF58476D1CE4E5B9) % 2 ^ 64)
          ^^^ ((((x ^^^ (x >>> 30)) * 0xBF58476D1CE4E5B9) % 2 ^ 64) >>> 27))
            * 0x94D049BB133111EB % 2 ^ 64)
        ^^^ ((((((x ^^^ (x >>> 30)) * 0xBF58476D1CE4E5B9) % 2 ^ 64)
          ^^^ ((((x ^^^ (x >>> 30)) * 0xBF58476D1CE4E5B9) % 2 ^ 64) >>> 27))
            * 0x94D049BB133111EB % 2 ^ 64) >>> 31)) := by
  refine ⟨rfl, ⟨init_context seed, rfl, ?_, rfl, rfl, rfl, rfl, rfl, rfl, rfl⟩, rfl, fun x => rfl⟩
  intro i
  have h0 : ∀ k : Nat, (seed + k * 0x9E3779B97F4A7C15 % 2 ^ 64) % 2 ^ 64
      = (seed + k * 0x9E3779B97F4A7C15) % 2 ^ 64 := fun k => by omega
  have h1 : ∀ k : Nat,
      ((seed + k * 0x9E3779B97F4A7C15 % 2 ^ 64) % 2 ^ 64 + 0x6A09E667F3BCC908) % 2 ^ 64
        = (seed + k * 0x9E3779B97F4A7C15 + 0x6A09E667F3BCC908) % 2 ^ 64 := fun k => by omega
  fin_cases i <;>
    exact ⟨congrArg (fun v => soul_mix v ||| 1) (h0 _), congrArg (fun v => soul_mix v ||| 1) (h1 _)⟩

/-- C23: `skibidi_generate_batch` returns 0 and leaves the context, the buffer and the
lengths array as they were whenever `count <= 0`, the context is null, the buffer is
null or `buffer_size < 64`. -/
theorem C23_batch_rejects (build : Build) (hive : ToiletHivemind)
    (ctx : Option SkibidiContext) (buffer : Option Scroll) (buffer_size : Nat) (count : Int)
    (lengths : Option (Nat → Int))
    (h : count ≤ 0 ∨ ctx = none ∨ buffer = none ∨ buffer_size < 64) :
    skibidi_generate_batch build hive ctx buffer buffer_size count lengths
      = (ctx, buffer, lengths, 0) := by
  unfold skibidi_generate_batch
  cases ctx with
  | none => rfl
  | some c =>
    cases buffer with
    | none => rfl
    | some b =>
      dsimp only
      by_cases hs : buffer_size < SKIBIDI_MIN_BUFFER_SIZE
      · rw [if_pos hs]
      · rw [if_neg hs]
        have hc : count ≤ 0 := by
          rcases h with h | h | h | h
          · exact h
          · exact Option.noConfusion h
          · exact Option.noConfusion h
          · exact absurd h hs
        rw [if_pos hc]

theorem C23_batch_rejects_witness :
    ((0 : Int) ≤ 0 ∨ some (init_context 42) = none ∨ some blank_scroll = none ∨ 256 < 64) ∧
    skibidi_generate_batch avx2_build avx2_hive (some (init_context 42)) (some blank_scroll)
        256 0 none
      = (some (init_context 42), some blank_scroll, none, 0) :=
  ⟨Or.inl (le_refl _),
    C23_batch_rejects avx2_build avx2_hive (some (init_context 42)) (some blank_scroll) 256 0
      none (Or.inl (le_refl _))⟩

theorem wipe_apply (n : Nat) (m : Porcelain) (i : Nat) :
    (List.range n).foldl (fun porcelain shard => store porcelain shard 0)
      m i = if i < n then 0 else m i := by
  induction n with
  | zero => simp
  | succ n ih =>
    rw [List.range_succ, List.foldl_append]
    simp only [List.foldl_cons, List.foldl_nil]
    show store _ n 0 i = _
    by_cases h : i = n
    · subst h
      simp [store]
    · show (if i = n then 0 else _) = _
      rw [if_neg h, ih]
      split_ifs <;> first | rfl | omega

theorem map_range_zero (n : Nat) (f : Nat → Nat) (h : ∀ i, i < n → f i = 0) :
    (List.range n).map f = List.replicate n 0 := by
  apply List.ext_getElem
  · simp
  · intro i h1 h2
    simp only [List.length_map, List.length_range] at h1
    simp [h i h1]

theorem wipe_words (m : Porcelain) :
    porcelain_words ((List.range CONTEXT_WORDS).foldl
      (fun porcelain shard => store porcelain shard 0) m)
      = List.replicate 24 0 := by
  unfold porcelain_words
  exact map_range_zero 24 _ (fun i hi => by rw [wipe_apply]; exact if_pos hi)

theorem wipe_bytes (m : Porcelain) :
    (List.range 192).map (porcelain_byte ((List.range CONTEXT_WORDS).foldl
      (fun porcelain shard => store porcelain shard 0) m))
      = List.replicate 192 0 := by
  apply map_range_zero
  intro i hi
  unfold porcelain_byte
  rw [wipe_apply, if_pos (by unfold CONTEXT_WORDS; omega)]
  simp

theorem wipe_beyond (m : Porcelain) (k : Nat) :
    (List.range CONTEXT_WORDS).foldl
      (fun porcelain shard => store porcelain shard 0) m
        (CONTEXT_WORDS + k) = m (CONTEXT_WORDS + k) := by
  rw [wipe_apply, if_neg (by omega)]

theorem context_words_length (c : SkibidiContext) (tail : Nat) :
    (context_words c tail).length = 24 := by
  simp [context_words]

/-- C26: `skibidi_destroy` on a non-null pointer leaves each of the 24 words at that
address zero, whatever the memory held before, the tail padding word of the generator
(word 15, which no field names) included; so each of the 192 bytes is zero and every
field read from that memory (`s0`, `s1`, `buffer`, `buffer_idx`, `_padding`, the reserved
words and `call_count`) is zero; the memory behind the object is left as it was. In
particular this holds for the memory of any context `c` with any tail padding `tail`,
which has 24 words of 8 bytes, 192 bytes; `skibidi_destroy(NULL)` does nothing. -/
theorem C26_destroy_zeroes (m : Porcelain) (c : SkibidiContext) (tail : Nat)
    (beyond : Porcelain) :
    (∃ z, skibidi_destroy (some m) = some z ∧
      porcelain_words z = List.replicate 24 0 ∧
      (List.range 192).map (porcelain_byte z) = List.replicate 192 0 ∧
      (∀ k, z (CONTEXT_WORDS + k) = m (CONTEXT_WORDS + k)) ∧
      (context_of_words (porcelain_words z)).rng.s0 = ⟨0, 0, 0, 0⟩ ∧
      (context_of_words (porcelain_words z)).rng.s1 = ⟨0, 0, 0, 0⟩ ∧
      (context_of_words (porcelain_words z)).rng.buffer = ⟨0, 0, 0, 0⟩ ∧
      (context_of_words (porcelain_words z)).rng.buffer_idx = 0 ∧
      (context_of_words (porcelain_words z)).rng._padding = 0 ∧
      (context_of_words (porcelain_words z)).rng.reserved0 = 0 ∧
      (context_of_words (porcelain_words z)).rng.reserved1 = 0 ∧
      (context_of_words (porcelain_words z)).call_count = 0 ∧
      (context_of_words (porcelain_words z)).reserved = [0, 0, 0, 0, 0, 0, 0]) ∧
    (context_words c tail).length = CONTEXT_WORDS ∧
    porcelain_words (context_porcelain c tail beyond) = context_words c tail ∧
    context_porcelain c tail beyond 15 = tail ∧
    (∃ z, skibidi_destroy (some (context_porcelain c tail beyond)) = some z ∧
      porcelain_words z = List.replicate 24 0 ∧
      (List.range 192).map (porcelain_byte z) = List.replicate 192 0 ∧
      (∀ k, z (CONTEXT_WORDS + k) = beyond (CONTEXT_WORDS + k))) ∧
    CONTEXT_WORDS * 8 = 192 ∧
    skibidi_destroy none = none := by
  refine ⟨⟨_, rfl, wipe_words m, wipe_bytes m, wipe_beyond m, ?_⟩, context_words_length c tail,
    ?_, ?_, ⟨_, rfl, wipe_words _, wipe_bytes _, fun k => ?_⟩, rfl, rfl⟩
  · rw [wipe_words]
    decide
  · apply List.ext_getElem
    · rw [context_words_length]; simp [porcelain_words, CONTEXT_WORDS]
    · intro i h1 h2
      simp only [porcelain_words, List.length_map, List.length_range] at h1
      simp only [porcelain_words, List.getElem_map, List.getElem_range, context_porcelain]
      rw [if_pos h1, List.getD_eq_getElem _ _ h2]
  · unfold context_porcelain
    rw [if_pos (by decide)]
    simp [context_words]
  · rw [wipe_beyond]
    unfold context_porcelain
    rw [if_neg (by omega)]

theorem spec_tier_range (aura : Nat) (build : Build) (allow_512 : Bool) :
    spec_tier aura build allow_512 = 0 ∨ spec_tier aura build allow_512 = 1 ∨
      spec_tier aura build allow_512 = 2 := by
  unfold spec_tier
  split_ifs <;> simp

/-- C27: with `aura` the capability mask of the probe, the first strategy resolution
selects the tier of the rule (2 for AVX-512F with 512-bit code in the build, else 1 for
AVX2 with 256-bit code, else 0) in every build whose 512-bit code comes with 256-bit
code; `skibidi_configure(c)` selects by the same rule in every build, tier 2 requiring
`c.enable_avx512 != 0` in addition; the tier is 0, 1 or 2, tier 2 only with AVX-512F
reported, 512-bit code and permission, tier 1 only with AVX2 reported and 256-bit code;
`skibidi_configure(NULL)` returns `SKIBIDI_ERR_NULL_PTR` and changes nothing. -/
theorem C27_strategy_resolution (build : Build) (cpu : Cpu) (hive : ToiletHivemind)
    (config : SkibidiConfig) :
    (hive.toilet_awake = 0 →
      (build.TOILET_HAS_GODMODE_512 = true → build.TOILET_HAS_RIZZ_256 = true) →
      (toilet_awakening_ceremony build cpu hive).flush_strategy
        = spec_tier (scan_toilet_chakras build cpu) build true) ∧
    skibidi_configure build cpu hive (some config)
      = (⟨1, scan_toilet_chakras build cpu,
          spec_tier (scan_toilet_chakras build cpu) build (decide (config.enable_avx512 ≠ 0))⟩,
        SKIBIDI_OK) ∧
    (∀ allow_512,
      (spec_tier (scan_toilet_chakras build cpu) build allow_512 = 0 ∨
        spec_tier (scan_toilet_chakras build cpu) build allow_512 = 1 ∨
        spec_tier (scan_toilet_chakras build cpu) build allow_512 = 2) ∧
      (spec_tier (scan_toilet_chakras build cpu) build allow_512 = 2 →
        scan_toilet_chakras build cpu &&& SKIBIDI_CAP_AVX512F ≠ 0 ∧
          build.TOILET_HAS_GODMODE_512 = true ∧ allow_512 = true) ∧
      (spec_tier (scan_toilet_chakras build cpu) build allow_512 = 1 →
        scan_toilet_chakras build cpu &&& SKIBIDI_CAP_AVX2 ≠ 0 ∧
          build.TOILET_HAS_RIZZ_256 = true)) ∧
    skibidi_configure build cpu hive none = (hive, SKIBIDI_ERR_NULL_PTR) := by
  refine ⟨?_, ?_, ?_, rfl⟩
  · intro ha hb
    unfold toilet_awakening_ceremony spec_tier
    rw [if_neg (by simp [ha])]
    rcases build with ⟨x, r, g⟩
    cases g <;> cases r <;> simp at hb ⊢
  · unfold skibidi_configure spec_tier
    rcases build with ⟨x, r, g⟩
    cases g <;> cases r <;> simp
  · intro allow_512
    refine ⟨spec_tier_range _ _ _, ?_, ?_⟩
    · unfold spec_tier
      split_ifs with h1 h2
      · intro _; exact h1
      · intro h; exact absurd h (by decide)
      · intro h; exact absurd h (by decide)
    · unfold spec_tier
      split_ifs with h1 h2
      · intro h; exact absurd h (by decide)
      · intro _; exact h2
      · intro h; exact absurd h (by decide)

/-- C29: for every four states, word `i` of the outputs of `toilet_quad_flush` is the
value one draw returns on state `i`, and state `i` afterwards is the state that draw
leaves; both depend on state `i` alone.  The assembly and the portable loop agree. -/
theorem C29_quad_flush_is_four_draws (toilet_souls dop_fuels : Quad) (i : Fin 4) :
    (toilet_quad_flush toilet_souls dop_fuels).2.get i
      = (toilet_consciousness_mul (toilet_souls.get i)).1 ∧
    (toilet_quad_flush toilet_souls dop_fuels).1.get i
      = (toilet_consciousness_mul (toilet_souls.get i)).2 ∧
    toilet_quad_flush_loop toilet_souls dop_fuels = toilet_quad_flush toilet_souls dop_fuels := by
  refine ⟨?_, ?_, rfl⟩
  · fin_cases i <;> rfl
  · fin_cases i <;> rfl

theorem and_byte_48 (e : Nat) : e &&& (255 * 2 ^ 48) = ((e >>> 48) &&& 255) * 2 ^ 48 := by
  apply Nat.eq_of_testBit_eq
  intro j
  rw [← Nat.shiftLeft_eq, ← Nat.shiftLeft_eq]
  simp only [Nat.testBit_and, Nat.testBit_shiftLeft, Nat.testBit_shiftRight]
  by_cases h : 48 ≤ j
  · simp [h]
  · simp [h]

/-- One lane of the classification: the comparison result has its top bit set exactly
when bits 55..48 of the draw are below 69. -/
theorem lane_top_bit (e : Nat) :
    (((if lane_signed (PROPHECY_THRESHOLD_NICE <<< 48 % 2 ^ 64)
          > lane_signed (e &&& ((0xFF <<< 48) % 2 ^ 64)) then 2 ^ 64 - 1 else 0) >>> 63) &&& 1)
      = if (e >>> 48) &&& 0xFF < 69 then 1 else 0 := by
  have hm : (0xFF <<< 48) % 2 ^ 64 = 255 * 2 ^ 48 := by decide
  have ht : lane_signed (PROPHECY_THRESHOLD_NICE <<< 48 % 2 ^ 64) = ((69 * 2 ^ 48 : Nat) : Int) := by
    decide
  have hb : (e >>> 48) &&& 255 < 256 := Nat.and_lt_two_pow _ (by decide : 255 < 2 ^ 8)
  rw [hm, and_byte_48, ht]
  have hs : lane_signed (((e >>> 48) &&& 255) * 2 ^ 48)
      = ((((e >>> 48) &&& 255) * 2 ^ 48 : Nat) : Int) := by
    unfold lane_signed
    have h1 : ((e >>> 48) &&& 255) * 2 ^ 48 % 2 ^ 64 = ((e >>> 48) &&& 255) * 2 ^ 48 := by
      apply Nat.mod_eq_of_lt
      omega
    rw [h1, if_pos (by omega)]
  rw [hs]
  have hone : ((2 ^ 64 - 1) >>> 63) &&& 1 = 1 := by
    rw [Nat.shiftRight_eq_div_pow]
    norm_num
  by_cases hc : (e >>> 48) &&& 255 < 69
  · have hlt : ((e >>> 48) &&& 255) * 2 ^ 48 < 69 * 2 ^ 48 := by omega
    rw [if_pos hc, if_pos (Int.ofNat_lt.mpr hlt)]
    exact hone
  · have hge : ¬ ((e >>> 48) &&& 255) * 2 ^ 48 < 69 * 2 ^ 48 := by omega
    rw [if_neg hc, if_neg (fun h => hge (Int.ofNat_lt.mp h))]
    rfl

theorem movemask_bits (b0 b1 b2 b3 : Nat) (h0 : b0 ≤ 1) (h1 : b1 ≤ 1) (h2 : b2 ≤ 1)
    (h3 : b3 ≤ 1) (i : Fin 4) :
    (((b0 ||| (b1 <<< 1) ||| (b2 <<< 2) ||| (b3 <<< 3)) % 2 ^ 32) >>> i.val) &&& 1
      = [b0, b1, b2, b3].getD i.val 0 := by
  interval_cases b0 <;> interval_cases b1 <;> interval_cases b2 <;> interval_cases b3 <;>
    fin_cases i <;> rfl

theorem prophecy_mask_bit (entropy1 : Quad) (i : Fin 4) :
    ((prophecy_mask entropy1) >>> i.val) &&& 1
      = if (entropy1.get i >>> 48) &&& 0xFF < 69 then 1 else 0 := by
  have h := movemask_bits
    (if (entropy1.w0 >>> 48) &&& 0xFF < 69 then 1 else 0)
    (if (entropy1.w1 >>> 48) &&& 0xFF < 69 then 1 else 0)
    (if (entropy1.w2 >>> 48) &&& 0xFF < 69 then 1 else 0)
    (if (entropy1.w3 >>> 48) &&& 0xFF < 69 then 1 else 0)
    (by split_ifs <;> omega) (by split_ifs <;> omega) (by split_ifs <;> omega)
    (by split_ifs <;> omega) i
  unfold prophecy_mask _mm256_movemask_pd _mm256_cmpgt_epi64 _mm256_and_si256
    _mm256_set1_epi64x
  dsimp only
  rw [lane_top_bit, lane_top_bit, lane_top_bit, lane_top_bit, h]
  fin_cases i <;> rfl

/-- C30: bit `i` of the classification mask, computed by the signed 64-bit vector
comparison `(69 << 48) > (e[i] & (0xFF << 48))`, is set if and only if
`((e[i] >> 48) & 0xFF) < 69`, the test of the single-item path. -/
theorem C30_classification_mask (entropy1 : Quad) (i : Fin 4) :
    ((prophecy_mask entropy1 >>> i.val) &&& 1 ≠ 0
      ↔ (entropy1.get i >>> 48) &&& 0xFF < PROPHECY_THRESHOLD_NICE) ∧
    ((prophecy_mask entropy1 >>> i.val) &&& 1 = 1
      ↔ (entropy1.get i >>> 48) &&& 0xFF < 69) := by
  rw [prophecy_mask_bit]
  have hp : PROPHECY_THRESHOLD_NICE = 69 := rfl
  rw [hp]
  split_ifs with h <;> simp [h]

theorem cleared_dom (e : Nat) : fifth_cleared e % 2 ^ 32 = e % 2 ^ 32 := by
  unfold fifth_cleared
  rw [Nat.shiftRight_eq_div_pow, Nat.shiftLeft_eq]
  omega

theorem cleared_slot (e k : Nat) (hk : k ≤ 3) :
    (((fifth_cleared e >>> 20) % 2 ^ 32) >>> (5 * k)) &&& 31
      = (((e >>> 20) % 2 ^ 32) >>> (5 * k)) &&& 31 := by
  unfold fifth_cleared
  rw [and_31_eq_mod, and_31_eq_mod]
  simp only [Nat.shiftRight_eq_div_pow, Nat.shiftLeft_eq]
  interval_cases k <;> norm_num <;> omega

theorem cleared_fifth (e : Nat) :
    (((fifth_cleared e >>> 20) % 2 ^ 32) >>> 20) &&& 31 = 0 := by
  unfold fifth_cleared
  rw [and_31_eq_mod]
  simp only [Nat.shiftRight_eq_div_pow, Nat.shiftLeft_eq]
  omega

theorem cleared_slot0 (e : Nat) :
    ((fifth_cleared e >>> 20) % 2 ^ 32) &&& 31 = ((e >>> 20) % 2 ^ 32) &&& 31 := by
  have := cleared_slot e 0 (by omega)
  simpa using this

/-- The lead words of the batch assembler are those of the single-item assembler on the
second draw with bits 44..40 cleared. -/
theorem with_entropy_eq (s : Scroll) (p n e : Nat) :
    speak_dops_with_entropy s p n e = speak_dops s p n (fifth_cleared e) := by
  have h1 := cleared_slot e 1 (by omega)
  have h2 := cleared_slot e 2 (by omega)
  have h3 := cleared_slot e 3 (by omega)
  unfold speak_dops_with_entropy speak_dops
  simp only [cleared_dom, cleared_slot0, cleared_fifth, Nat.and_zero, h1, h2, h3]

theorem entropy_lead_word_eq (D2 k : Nat) (hk : k ≤ 4) :
    entropy_lead_word D2 k = lead_word (fifth_cleared D2) k := by
  have hd : (fifth_cleared D2 >>> (3 * k)) &&& 7 = (D2 >>> (3 * k)) &&& 7 := by
    unfold fifth_cleared
    rw [and_7_eq_mod, and_7_eq_mod]
    simp only [Nat.shiftRight_eq_div_pow, Nat.shiftLeft_eq]
    interval_cases k <;> norm_num <;> omega
  have hz : (fifth_cleared D2 >>> (20 + 5 * k)) &&& 31
      = if k = 4 then 0 else (D2 >>> (20 + 5 * k)) &&& 31 := by
    unfold fifth_cleared
    rw [and_31_eq_mod, and_31_eq_mod]
    simp only [Nat.shiftRight_eq_div_pow, Nat.shiftLeft_eq]
    interval_cases k <;> norm_num <;> omega
  unfold entropy_lead_word lead_word
  rw [hd, hz]

theorem entropy_lead_words_eq (D2 n : Nat) (hn : n ≤ 5) :
    entropy_lead_words D2 n = lead_words (fifth_cleared D2) n := by
  have h : (List.range n).map (entropy_lead_word D2)
      = (List.range n).map (lead_word (fifth_cleared D2)) :=
    List.map_congr_left (fun k hk =>
      entropy_lead_word_eq D2 k (by have := List.mem_range.mp hk; omega))
  unfold entropy_lead_words lead_words
  rw [h]

theorem entropy_lead_word_below (D2 k : Nat) (hk : k < 4) :
    entropy_lead_word D2 k = lead_word D2 k := by
  unfold entropy_lead_word lead_word
  rw [if_neg (by omega)]

theorem entropy_lead_words_below (D2 n : Nat) (hn : n ≤ 4) :
    entropy_lead_words D2 n = lead_words D2 n := by
  have h : (List.range n).map (entropy_lead_word D2) = (List.range n).map (lead_word D2) :=
    List.map_congr_left (fun k hk =>
      entropy_lead_word_below D2 k (by have := List.mem_range.mp hk; omega))
  unfold entropy_lead_words lead_words
  rw [h]

/-- The three stages after the prefix decision, with separate sources for the lead
words and the verdict: the length returned and the bytes written. -/
theorem stages_write_two (s : Scroll) (hv n Dw Dv t : Nat) (hhv : hv ≤ 1) (hn1 : 1 ≤ n)
    (hn5 : n ≤ 5) :
    (speak_verdict
        (speak_dops
          (toilet_yeet_8 (toilet_yeet_8 s 0 TOILET_VIBRATION_PREFIX 0) (hv * 7)
            TOILET_GOD_NAME 0) (hv * 7 + 8) n Dw).1
        (speak_dops
          (toilet_yeet_8 (toilet_yeet_8 s 0 TOILET_VIBRATION_PREFIX 0) (hv * 7)
            TOILET_GOD_NAME 0) (hv * 7 + 8) n Dw).2 t Dv).2
      = ((if hv = 1 then cbytes "Brrrrr " else []) ++ cbytes "Skibidi " ++ lead_words Dw n
          ++ [32] ++ verdict_text t Dv).length ∧
    StartsWith
      (speak_verdict
        (speak_dops
          (toilet_yeet_8 (toilet_yeet_8 s 0 TOILET_VIBRATION_PREFIX 0) (hv * 7)
            TOILET_GOD_NAME 0) (hv * 7 + 8) n Dw).1
        (speak_dops
          (toilet_yeet_8 (toilet_yeet_8 s 0 TOILET_VIBRATION_PREFIX 0) (hv * 7)
            TOILET_GOD_NAME 0) (hv * 7 + 8) n Dw).2 t Dv).1
      ((if hv = 1 then cbytes "Brrrrr " else []) ++ cbytes "Skibidi " ++ lead_words Dw n
          ++ [32] ++ verdict_text t Dv) := by
  have hlw := lead_words_eq Dw n hn1 hn5
  have hidx : min (max n 1) 5 - 1 = n - 1 := by omega
  have hpre : ((if hv = 1 then cbytes "Brrrrr " else []) ++ cbytes "Skibidi ").length
      = hv * 7 + 8 := by
    interval_cases hv <;> rfl
  have h1 := starts_prefix_name s hv hhv
  have h2 := starts_speak_dops h1 (hv * 7 + 8) n Dw hpre.symm
  rw [hidx, ← hlw] at h2
  have hlen2 : (((if hv = 1 then cbytes "Brrrrr " else []) ++ cbytes "Skibidi ")
      ++ lead_words Dw n).length = hv * 7 + 8 + 4 * min (max n 1) 5 - 1 := by
    rw [List.length_append, hpre, hlw, words_upto_length]
    omega
  have h3 := starts_speak_verdict h2
    (speak_dops
      (toilet_yeet_8 (toilet_yeet_8 s 0 TOILET_VIBRATION_PREFIX 0) (hv * 7)
        TOILET_GOD_NAME 0) (hv * 7 + 8) n Dw).2 t Dv
    ((speak_dops_pos_eq _ _ _ _).trans hlen2.symm)
  refine ⟨?_, h3⟩
  simp only [speak_verdict_pos, speak_dops_pos_eq, TOILET_REJECTION_THRESHOLD]
  rw [List.length_append, List.length_append, hlen2, verdict_text_length]
  simp only [List.length_singleton]
  split_ifs <;> omega

/-- The batch assembler writes exactly `entropy_text` and returns its length. -/
theorem entropy_writes (s : Scroll) (D1 D2 : Nat) :
    (toilet_speak_with_entropy s D1 D2).2 = (entropy_text D1 D2).length ∧
      StartsWith (toilet_speak_with_entropy s D1 D2).1 (entropy_text D1 D2) := by
  have hwc := word_count_bounds D1
  have htext : entropy_text D1 D2
      = (if (if (D1 >>> 48) &&& 0xFF < 38 then 1 else 0) = 1 then cbytes "Brrrrr " else [])
          ++ cbytes "Skibidi " ++ lead_words (fifth_cleared D2) (word_count D1)
          ++ [32] ++ verdict_text ((D1 >>> 32) &&& 0xFF) D2 := by
    unfold entropy_text
    rw [entropy_lead_words_eq D2 _ hwc.2]
    by_cases hpb : (D1 >>> 48) &&& 0xFF < 38
    · rw [if_pos hpb, if_pos hpb, if_pos rfl]
    · rw [if_neg hpb, if_neg hpb, if_neg (by omega)]
  have hcode : toilet_speak_with_entropy s D1 D2
      = speak_verdict
          (speak_dops
            (toilet_yeet_8 (toilet_yeet_8 s 0 TOILET_VIBRATION_PREFIX 0)
              ((if (D1 >>> 48) &&& 0xFF < 38 then 1 else 0) * 7) TOILET_GOD_NAME 0)
            ((if (D1 >>> 48) &&& 0xFF < 38 then 1 else 0) * 7 + 8) (word_count D1)
            (fifth_cleared D2)).1
          (speak_dops
            (toilet_yeet_8 (toilet_yeet_8 s 0 TOILET_VIBRATION_PREFIX 0)
              ((if (D1 >>> 48) &&& 0xFF < 38 then 1 else 0) * 7) TOILET_GOD_NAME 0)
            ((if (D1 >>> 48) &&& 0xFF < 38 then 1 else 0) * 7 + 8) (word_count D1)
            (fifth_cleared D2)).2
          ((D1 >>> 32) &&& 0xFF) D2 := by
    unfold toilet_speak_with_entropy
    simp only [with_entropy_eq]
    rfl
  rw [hcode, htext]
  exact stages_write_two s _ _ _ _ _ (by split_ifs <;> omega) hwc.1 hwc.2

theorem entropy_phrase (s : Scroll) (D1 D2 : Nat) :
    phrase (toilet_speak_with_entropy s D1 D2).1 (toilet_speak_with_entropy s D1 D2).2
      = entropy_text D1 D2 :=
  phrase_of_starts (entropy_writes s D1 D2).2 _ (entropy_writes s D1 D2).1

/-- With at most four lead words the text of the single-item expanded path is the text
of the batch assembler behind the prefix decided by bits 47..40. -/
theorem expanded_vs_entropy_text (D1 D2 : Nat) (h69 : 69 ≤ (D1 >>> 48) &&& 0xFF)
    (hn : word_count D1 ≤ 4) :
    expanded_text true D1 D2
      = (if (D1 >>> 40) &&& 0xFF < 38 then cbytes "Brrrrr " else []) ++ entropy_text D1 D2 := by
  have hp : ¬ (D1 >>> 48) &&& 0xFF < 38 := by omega
  unfold expanded_text entropy_text
  rw [if_neg hp, entropy_lead_words_below D2 _ hn]
  simp only [prefix_byte, verdict_byte, if_true, List.nil_append, List.append_assoc]

set_option maxRecDepth 100000 in
/-- C24, as stated, fails.  The context seeded with 0 takes the expanded path (bits
55..48 of its first draw are 148) and `skibidi_generate` writes the 35 bytes
"Brrrrr Skibidi dom dom dom yes yes!", while the batch assembler on the same two draws
returns 28 and writes "Skibidi dom dom dom yes yes!".  The context seeded with 288 draws
five lead words: `skibidi_generate` writes "Skibidi dop dop dop dop Dom yes yes!", the
batch assembler "Skibidi dop dop dop dop dom yes yes!". -/
theorem C24_batch_assembler_differs :
    (draw_D1 (init_context 0) >>> 48) &&& 0xFF = 148 ∧
    (skibidi_generate scalar_build scalar_hive (some (init_context 0)) (some blank_scroll)
      64).2.2 = 35 ∧
    written (skibidi_generate scalar_build scalar_hive (some (init_context 0))
      (some blank_scroll) 64) = cbytes "Brrrrr Skibidi dom dom dom yes yes!" ∧
    (toilet_speak_with_entropy blank_scroll (draw_D1 (init_context 0))
      (draw_D2 (init_context 0))).2 = 28 ∧
    phrase (toilet_speak_with_entropy blank_scroll (draw_D1 (init_context 0))
      (draw_D2 (init_context 0))).1 28 = cbytes "Skibidi dom dom dom yes yes!" ∧
    (draw_D1 (init_context 288) >>> 48) &&& 0xFF = 141 ∧
    written (skibidi_generate scalar_build scalar_hive (some (init_context 288))
      (some blank_scroll) 64) = cbytes "Skibidi dop dop dop dop Dom yes yes!" ∧
    phrase (toilet_speak_with_entropy blank_scroll (draw_D1 (init_context 288))
      (draw_D2 (init_context 288))).1 36 = cbytes "Skibidi dop dop dop dop dom yes yes!" := by
  decide

/-- C24 (amended): when bits 55..48 of the first draw are at least 69 and the word count
is at most 4, `skibidi_generate` writes the optional prefix "Brrrrr " (present exactly
when bits 47..40 of the first draw are below 38) followed by the bytes
`toilet_speak_with_entropy` writes for the same two draws, and returns the batch
assembler's length plus the length of that prefix. -/
theorem C24_batch_assembler_up_to_prefix (build : Build) (hive : ToiletHivemind)
    (c : SkibidiContext) (b s : Scroll) (buffer_size : Nat) (h : 64 ≤ buffer_size)
    (hexp : 69 ≤ (draw_D1 c >>> 48) &&& 0xFF) (hn : word_count (draw_D1 c) ≤ 4) :
    written (skibidi_generate build hive (some c) (some b) buffer_size)
      = (if (draw_D1 c >>> 40) &&& 0xFF < 38 then cbytes "Brrrrr " else [])
        ++ phrase (toilet_speak_with_entropy s (draw_D1 c) (draw_D2 c)).1
            (toilet_speak_with_entropy s (draw_D1 c) (draw_D2 c)).2 ∧
    (skibidi_generate build hive (some c) (some b) buffer_size).2.2
      = (if (draw_D1 c >>> 40) &&& 0xFF < 38 then 7 else 0)
        + ((toilet_speak_with_entropy s (draw_D1 c) (draw_D2 c)).2 : Int) := by
  obtain ⟨g1, g2⟩ := generate_writes build hive c b buffer_size h hexp
  have ht := expanded_vs_entropy_text (draw_D1 c) (draw_D2 c) hexp hn
  have g1' : written (skibidi_generate build hive (some c) (some b) buffer_size)
      = expanded_text true (draw_D1 c) (draw_D2 c) := g1
  have g2' : (skibidi_generate build hive (some c) (some b) buffer_size).2.2
      = ((expanded_text true (draw_D1 c) (draw_D2 c)).length : Int) := g2
  rw [g1', g2', ht, entropy_phrase, (entropy_writes s (draw_D1 c) (draw_D2 c)).1]
  refine ⟨rfl, ?_⟩
  rw [List.length_append]
  split_ifs <;> simp [cbytes]

set_option maxRecDepth 100000 in
/-- C28: the context seeded with 11 makes `skibidi_generate_variant` return 24 and write
"Skibidi dop dop yes yes!", the canonical phrase, through the expanded path. -/
theorem C28_variant_speaks_original :
    (skibidi_generate_variant scalar_build scalar_hive (some (init_context 11))
      (some blank_scroll) 64).2.2 = 24 ∧
    written (skibidi_generate_variant scalar_build scalar_hive (some (init_context 11))
      (some blank_scroll) 64) = cbytes "Skibidi dop dop yes yes!" ∧
    written (skibidi_generate_variant scalar_build scalar_hive (some (init_context 11))
      (some blank_scroll) 64) = phrase (fun i => SACRED_PROPHECY.getD i 0) 24 := by
  decide

/-! ## The shape of one assembled phrase -/

theorem assemble_writes (s : Scroll) (hv n Dw Dv t : Nat) (hhv : hv ≤ 1) (hn1 : 1 ≤ n)
    (hn5 : n ≤ 5) :
    (assemble s hv n Dw Dv t).2 = (assemble_text hv n Dw Dv t).length ∧
      StartsWith (assemble s hv n Dw Dv t).1 (assemble_text hv n Dw Dv t) :=
  stages_write_two s hv n Dw Dv t hhv hn1 hn5

theorem assemble_len (s : Scroll) (hv n Dw Dv t : Nat) :
    (assemble s hv n Dw Dv t).2
      = hv * 7 + 8 + 4 * min (max n 1) 5 - 1 + (if t ≥ 38 then 9 else 7) := by
  unfold assemble
  simp only [speak_verdict_pos, speak_dops_pos_eq, TOILET_REJECTION_THRESHOLD]
  split_ifs <;> omega

theorem assemble_len_bounds (s : Scroll) (hv n Dw Dv t : Nat) (hhv : hv ≤ 1) :
    18 ≤ (assemble s hv n Dw Dv t).2 ∧ (assemble s hv n Dw Dv t).2 ≤ 43 := by
  rw [assemble_len]
  split_ifs <;> omega

theorem speak_dops_frame_above (scroll : Scroll) (p n e i : Nat)
    (h : (speak_dops scroll p n e).2 < i) : (speak_dops scroll p n e).1 i = scroll i := by
  rw [speak_dops_pos_eq] at h
  unfold speak_dops
  simp only [inscribe_dop_rune, toilet_yeet_4]
  split_ifs <;> simp only [] <;>
    repeat (first
      | rw [yeet_frame _ _ _ _ _ _ (by omega)]
      | rw [poke_frame _ _ _ _ (by omega)])

theorem rejection_padding (k : Nat) (h1 : 6 ≤ k) : INSTANT_TOILET_REJECTION.getD k 0 = 0 := by
  by_cases h : k < 8
  · interval_cases k <;> rfl
  · exact List.getD_eq_default _ _ (by simpa [INSTANT_TOILET_REJECTION, carray, cbytes] using h)

theorem speak_verdict_tail (scroll : Scroll) (p t e i : Nat)
    (h : (speak_verdict scroll p t e).2 ≤ i) :
    (speak_verdict scroll p t e).1 i = scroll i ∨ (speak_verdict scroll p t e).1 i = 0 := by
  by_cases hi : p + 9 ≤ i
  · exact Or.inl (speak_verdict_frame scroll p t e i (Or.inr hi))
  · rw [speak_verdict_pos] at h
    have ht : ¬ t ≥ TOILET_REJECTION_THRESHOLD := by
      intro ht
      rw [if_pos ht] at h
      omega
    rw [if_neg ht] at h
    unfold speak_verdict toilet_yeet_8 toilet_yeet_2
    simp only []
    rw [if_neg ht]
    split_ifs
    · right
      unfold yeet
      dsimp only
      rw [if_pos (by omega)]
      exact rejection_padding _ (by omega)
    · left
      dsimp only
      rw [poke_frame _ _ _ _ (by omega), yeet_frame _ _ _ _ _ _ (by omega),
        poke_frame _ _ _ _ (by omega), yeet_frame _ _ _ _ _ _ (by omega),
        poke_frame _ _ _ _ (by omega)]

theorem assemble_tail (s : Scroll) (hv n Dw Dv t i : Nat) (hhv : hv ≤ 1)
    (h : (assemble s hv n Dw Dv t).2 ≤ i) :
    (assemble s hv n Dw Dv t).1 i = s i ∨ (assemble s hv n Dw Dv t).1 i = 0 := by
  have hlen := assemble_len s hv n Dw Dv t
  have hpos := speak_dops_pos_eq
    (toilet_yeet_8 (toilet_yeet_8 s 0 TOILET_VIBRATION_PREFIX 0) (hv * 7) TOILET_GOD_NAME 0)
    (hv * 7 + 8) n Dw
  have hi : hv * 7 + 8 + 4 * min (max n 1) 5 - 1 + 7 ≤ i := by
    rw [hlen] at h
    split_ifs at h <;> omega
  have hd : (speak_dops
      (toilet_yeet_8 (toilet_yeet_8 s 0 TOILET_VIBRATION_PREFIX 0) (hv * 7) TOILET_GOD_NAME 0)
      (hv * 7 + 8) n Dw).1 i = s i := by
    rw [speak_dops_frame_above _ _ _ _ _ (by rw [hpos]; omega)]
    unfold toilet_yeet_8
    rw [yeet_frame _ _ _ _ _ _ (by omega), yeet_frame _ _ _ _ _ _ (by omega)]
  have hv := speak_verdict_tail
    (speak_dops
      (toilet_yeet_8 (toilet_yeet_8 s 0 TOILET_VIBRATION_PREFIX 0) (hv * 7) TOILET_GOD_NAME 0)
      (hv * 7 + 8) n Dw).1
    (speak_dops
      (toilet_yeet_8 (toilet_yeet_8 s 0 TOILET_VIBRATION_PREFIX 0) (hv * 7) TOILET_GOD_NAME 0)
      (hv * 7 + 8) n Dw).2 t Dv i h
  rw [hd] at hv
  exact hv

theorem assemble_frame (s : Scroll) (hv n Dw Dv t i : Nat) (hhv : hv ≤ 1) (h : 43 ≤ i) :
    (assemble s hv n Dw Dv t).1 i = s i := by
  have hpos := speak_dops_pos_eq
    (toilet_yeet_8 (toilet_yeet_8 s 0 TOILET_VIBRATION_PREFIX 0) (hv * 7) TOILET_GOD_NAME 0)
    (hv * 7 + 8) n Dw
  unfold assemble
  rw [speak_verdict_frame _ _ _ _ _ (by rw [hpos]; omega),
    speak_dops_frame_above _ _ _ _ _ (by rw [hpos]; omega)]
  unfold toilet_yeet_8
  rw [yeet_frame _ _ _ _ _ _ (by omega), yeet_frame _ _ _ _ _ _ (by omega)]

theorem expanded_eq_assemble (rng : SkibidiRngState) (s : Scroll) (c : Bool) (e : Nat) :
    toilet_speak_expanded rng s c e
      = ((toilet_flush_entropy rng).2,
          assemble s (if prefix_byte c e < 38 then 1 else 0) (word_count e)
            (toilet_flush_entropy rng).1 (toilet_flush_entropy rng).1 (verdict_byte c e)) :=
  expanded_eq rng s c e

theorem entropy_eq_assemble (s : Scroll) (D1 D2 : Nat) :
    toilet_speak_with_entropy s D1 D2
      = assemble s (if (D1 >>> 48) &&& 0xFF < 38 then 1 else 0) (word_count D1)
          (fifth_cleared D2) D2 ((D1 >>> 32) &&& 0xFF) := by
  unfold toilet_speak_with_entropy assemble
  simp only [with_entropy_eq]
  rfl

theorem rune_text_bytes (d : Bool) (z : Nat) (hz : z ≤ 7) :
    ∀ x ∈ rune_text d z, phrase_byte x = true := by
  cases d <;> interval_cases z <;> decide

theorem lead_word_bytes (D2 k : Nat) : ∀ x ∈ lead_word D2 k, phrase_byte x = true :=
  rune_text_bytes _ _ (zodiac_le_7 _ (and_31_lt _))

theorem words_upto_bytes (D2 m : Nat) : ∀ x ∈ words_upto D2 m, phrase_byte x = true := by
  induction m with
  | zero => exact lead_word_bytes D2 0
  | succ m ih =>
    intro x hx
    rw [show words_upto D2 (m + 1) = words_upto D2 m ++ [32] ++ lead_word D2 (m + 1) from rfl,
      List.mem_append, List.mem_append, List.mem_singleton] at hx
    rcases hx with (hx | hx) | hx
    · exact ih x hx
    · subst hx; rfl
    · exact lead_word_bytes D2 (m + 1) x hx

theorem yes_word_bytes (i : Nat) (h : i < 32) : ∀ x ∈ yes_word i, phrase_byte x = true := by
  interval_cases i <;> decide

theorem no_word_bytes (i : Nat) (h : i < 32) : ∀ x ∈ no_word i, phrase_byte x = true := by
  interval_cases i <;> decide

theorem verdict_text_bytes (t D2 : Nat) : ∀ x ∈ verdict_text t D2, phrase_byte x = true := by
  have ha : ∀ x ∈ peek INSTANT_TOILET_APPROVAL 0 8, phrase_byte x = true := by decide
  have hr : ∀ x ∈ peek INSTANT_TOILET_REJECTION 0 6, phrase_byte x = true := by decide
  intro x hx
  unfold verdict_text approval_text rejection_text approval_by_lookup rejection_by_lookup at hx
  split_ifs at hx
  · exact ha x hx
  · simp only [List.mem_append, List.mem_singleton] at hx
    rcases hx with ((hx | hx) | hx) | hx
    · exact yes_word_bytes _ (and_31_lt _) x hx
    · subst hx; rfl
    · exact yes_word_bytes _ (and_31_lt _) x hx
    · subst hx; rfl
  · exact hr x hx
  · simp only [List.mem_append, List.mem_singleton] at hx
    rcases hx with ((hx | hx) | hx) | hx
    · exact no_word_bytes _ (and_31_lt _) x hx
    · subst hx; rfl
    · exact no_word_bytes _ (and_31_lt _) x hx
    · subst hx; rfl

theorem assemble_text_bytes (hv n Dw Dv t : Nat) (hn1 : 1 ≤ n) (hn5 : n ≤ 5) :
    ∀ x ∈ assemble_text hv n Dw Dv t, phrase_byte x = true := by
  have hb : ∀ x ∈ cbytes "Brrrrr ", phrase_byte x = true := by decide
  have hs : ∀ x ∈ cbytes "Skibidi ", phrase_byte x = true := by decide
  intro x hx
  unfold assemble_text at hx
  rw [lead_words_eq Dw n hn1 hn5] at hx
  simp only [List.mem_append, List.mem_singleton] at hx
  rcases hx with (((hx | hx) | hx) | hx) | hx
  · split_ifs at hx
    · exact hb x hx
    · exact absurd hx (List.not_mem_nil x)
  · exact hs x hx
  · exact words_upto_bytes Dw _ x hx
  · subst hx; rfl
  · exact verdict_text_bytes t Dv x hx

/-- What `assemble` leaves at its output pointer. -/
theorem assemble_item (s : Scroll) (hv n Dw Dv t : Nat) (hhv : hv ≤ 1) (hn1 : 1 ≤ n)
    (hn5 : n ≤ 5) :
    ItemOK s (assemble s hv n Dw Dv t).1 (assemble s hv n Dw Dv t).2
      (assemble_text hv n Dw Dv t) where
  length_eq := (assemble_writes s hv n Dw Dv t hhv hn1 hn5).1
  lower := by have := (assemble_len_bounds s hv n Dw Dv t hhv).1; omega
  upper := (assemble_len_bounds s hv n Dw Dv t hhv).2
  text := (assemble_writes s hv n Dw Dv t hhv hn1 hn5).2
  bytes := assemble_text_bytes hv n Dw Dv t hn1 hn5
  tail := fun i hi => assemble_tail s hv n Dw Dv t i hhv hi
  frame := fun i hi => assemble_frame s hv n Dw Dv t i hhv hi

theorem prophecy_bytes : ∀ x ∈ cbytes "Skibidi dop dop yes yes!", phrase_byte x = true := by
  decide

theorem starts_of_phrase {s : Scroll} {l : List Nat} (n : Nat) (hn : n = l.length)
    (h : phrase s n = l) : StartsWith s l := by
  intro i hi
  subst hn
  have := congrArg (fun q => q.getD i 0) h
  simp only [phrase] at this
  rw [List.getD_eq_getElem _ _ (by simpa using hi)] at this
  simpa using this

/-- What the 32-byte copy of the canonical phrase leaves at its output pointer. -/
theorem prophecy_vector_item (s : Scroll) :
    ItemOK s (toilet_omega_flush_32 s 0 SACRED_PROPHECY 0) 24
      (cbytes "Skibidi dop dop yes yes!") where
  length_eq := rfl
  lower := by omega
  upper := by omega
  text := starts_of_phrase 24 rfl (by
    rw [← prophecy_phrase]
    exact phrase_congr (fun i hi => prophecy_vector_bytes s i (by omega)))
  bytes := prophecy_bytes
  tail := fun i hi => by
    by_cases h : i < 32
    · right
      rw [prophecy_vector_bytes s i h]
      exact prophecy_padding i hi h
    · left
      unfold toilet_omega_flush_32
      rw [yeet_frame _ _ _ _ _ _ (by omega)]
  frame := fun i hi => by
    unfold toilet_omega_flush_32
    rw [yeet_frame _ _ _ _ _ _ (by omega)]

/-- What the 24-byte copy of the canonical phrase leaves at its output pointer. -/
theorem prophecy_scalar_item (s : Scroll) :
    ItemOK s (toilet_yeet_24 s 0 SACRED_PROPHECY 0) 24
      (cbytes "Skibidi dop dop yes yes!") where
  length_eq := rfl
  lower := by omega
  upper := by omega
  text := starts_of_phrase 24 rfl (by
    rw [← prophecy_phrase]
    exact phrase_congr (fun i hi => prophecy_scalar_bytes s i hi))
  bytes := prophecy_bytes
  tail := fun i hi => by
    left
    unfold toilet_yeet_24
    rw [yeet_frame _ _ _ _ _ _ (by omega), yeet_frame _ _ _ _ _ _ (by omega),
      yeet_frame _ _ _ _ _ _ (by omega)]
  frame := fun i hi => by
    unfold toilet_yeet_24
    rw [yeet_frame _ _ _ _ _ _ (by omega), yeet_frame _ _ _ _ _ _ (by omega),
      yeet_frame _ _ _ _ _ _ (by omega)]

/-- Every call of the core generator in `skibidi_generate` mode leaves a phrase. -/
theorem speak_ultra_item (build : Build) (hive : ToiletHivemind) (rng : SkibidiRngState)
    (s : Scroll) :
    ∃ p, ItemOK s (toilet_speak_ultra build hive rng s true).2.1
      (toilet_speak_ultra build hive rng s true).2.2 p := by
  by_cases hf : ((toilet_flush_entropy rng).1 >>> 48) &&& 0xFF < 69
  · refine ⟨cbytes "Skibidi dop dop yes yes!", ?_⟩
    rw [speak_ultra_fast_scroll build hive rng s hf, (speak_ultra_fast build hive rng s hf).2.1]
    split_ifs
    · exact prophecy_vector_item s
    · exact prophecy_scalar_item s
  · rw [speak_ultra_slow build hive rng s true (fun hc => hf hc.2), expanded_eq_assemble]
    exact ⟨_, assemble_item s _ _ _ _ _ (by split_ifs <;> omega) (word_count_bounds _).1
      (word_count_bounds _).2⟩

/-- Every call of the batch assembler leaves a phrase. -/
theorem with_entropy_item (s : Scroll) (D1 D2 : Nat) :
    ∃ p, ItemOK s (toilet_speak_with_entropy s D1 D2).1 (toilet_speak_with_entropy s D1 D2).2
      p := by
  rw [entropy_eq_assemble]
  exact ⟨_, assemble_item s _ _ _ _ _ (by split_ifs <;> omega) (word_count_bounds _).1
    (word_count_bounds _).2⟩

/-! ## Batches -/

theorem batch_text_append (ps : List (List Nat)) (p : List Nat) :
    batch_text (ps ++ [p]) = batch_text ps ++ (p ++ [10]) := by
  induction ps with
  | nil => simp [batch_text]
  | cons q qs ih => simp [batch_text, ih]

theorem batch_text_length (ps : List (List Nat)) :
    (batch_text ps).length = (ps.map (fun p => p.length + 1)).sum := by
  induction ps with
  | nil => rfl
  | cons q qs ih => simp [batch_text, ih]; omega

theorem starts_scroll_back {s out : Scroll} {l p : List Nat} (h : StartsWith s l) (off : Nat)
    (hoff : off = l.length) (hp : StartsWith out p) :
    StartsWith (scroll_back s off out) (l ++ p) := by
  intro i hi
  rw [List.length_append] at hi
  unfold scroll_back
  by_cases hc : i < l.length
  · rw [if_neg (by omega), List.getD_append _ _ _ _ hc]
    exact h i hc
  · rw [if_pos (by omega), List.getD_append_right _ _ _ _ (by omega), hoff]
    exact hp _ (by omega)

theorem lengths_after_nil (lens0 : Option (Nat → Int)) : lengths_after lens0 [] = lens0 := by
  cases lens0 <;> rfl

theorem lengths_after_snoc (lens0 : Option (Nat → Int)) (ps : List (List Nat))
    (p : List Nat) :
    (lengths_after lens0 ps).map (fun a => Function.update a ps.length (p.length : Int))
      = lengths_after lens0 (ps ++ [p]) := by
  cases lens0 with
  | none => rfl
  | some a =>
    simp only [lengths_after, Option.map_some']
    congr 1
    funext i
    by_cases hi : i = ps.length
    · subst hi
      simp
    · rw [Function.update_noteq hi]
      by_cases hlt : i < ps.length
      · rw [if_pos hlt, if_pos (by rw [List.length_append]; omega),
          List.getD_append _ _ _ _ hlt]
      · rw [if_neg hlt, if_neg (by rw [List.length_append, List.length_singleton]; omega)]

/-- The bookkeeping after one phrase extends the layout by that phrase and its
newline. -/
theorem bookkeeping_inv {buf0 : Scroll} {lens0 : Option (Nat → Int)} {size : Nat}
    {st : Factory} {ps : List (List Nat)} (h : BatchInv buf0 lens0 size st ps)
    (hroom : st.scroll_offset + 64 ≤ size) (rng : SkibidiRngState) {out : Scroll} {len : Nat}
    {p : List Nat} (hitem : ItemOK (scroll_at st.scroll st.scroll_offset) out len p) :
    BatchInv buf0 lens0 size (batch_bookkeeping st rng out len st.toilets_flushed)
      (ps ++ [p]) where
  flushed := by
    rw [List.length_append, List.length_singleton, ← h.flushed]
    rfl
  offset := by
    rw [batch_text_append, List.length_append, List.length_append, List.length_singleton,
      ← h.offset, ← hitem.length_eq]
    rfl
  fits := by
    have := hitem.upper
    show st.scroll_offset + (len + 1) ≤ size
    omega
  text := by
    rw [batch_text_append, ← List.append_assoc]
    have h1 := starts_scroll_back h.text st.scroll_offset h.offset hitem.text
    exact starts_poke h1 (st.scroll_offset + len) 10
      (by rw [List.length_append, ← h.offset, ← hitem.length_eq])
  good := by
    intro q hq
    rw [List.mem_append, List.mem_singleton] at hq
    rcases hq with hq | hq
    · exact h.good q hq
    · subst hq
      exact ⟨by rw [← hitem.length_eq]; exact hitem.lower,
        by rw [← hitem.length_eq]; exact hitem.upper, hitem.bytes⟩
  tail := by
    intro j hj
    have hj' : st.scroll_offset + (len + 1) ≤ j := hj
    show poke (scroll_back st.scroll st.scroll_offset out) (st.scroll_offset + len) 10 j = _ ∨
      poke (scroll_back st.scroll st.scroll_offset out) (st.scroll_offset + len) 10 j = 0
    rw [poke_frame _ _ _ _ (by omega)]
    unfold scroll_back
    rw [if_pos (by omega)]
    have hs : scroll_at st.scroll st.scroll_offset (j - st.scroll_offset) = st.scroll j := by
      unfold scroll_at
      congr 1
      omega
    rcases hitem.tail (j - st.scroll_offset) (by omega) with ht | ht
    · rw [ht, hs]
      exact h.tail j (by omega)
    · exact Or.inr ht
  frame := by
    intro j hj
    show poke (scroll_back st.scroll st.scroll_offset out) (st.scroll_offset + len) 10 j = _
    have := hitem.upper
    rw [poke_frame _ _ _ _ (by omega)]
    unfold scroll_back
    rw [if_pos (by omega), hitem.frame _ (by omega)]
    unfold scroll_at
    rw [show st.scroll_offset + (j - st.scroll_offset) = j by omega]
    exact h.frame j hj
  lens := by
    show st.inscription_lengths.map (fun a => Function.update a st.toilets_flushed (len : Int))
      = _
    rw [h.lens, h.flushed, hitem.length_eq]
    exact lengths_after_snoc lens0 ps p

theorem batch_inv_start (b : Scroll) (lengths : Option (Nat → Int)) (size : Nat)
    (c : SkibidiContext) : BatchInv b lengths size ⟨c, b, lengths, 0, 0⟩ [] where
  flushed := rfl
  offset := rfl
  fits := Nat.zero_le _
  text := starts_nil _
  good := fun p hp => absurd hp (List.not_mem_nil p)
  tail := fun _ _ => Or.inl rfl
  frame := fun _ _ => rfl
  lens := (lengths_after_nil lengths).symm

/-- The scalar loop keeps the layout, produces at most `count` phrases, and stops only
when `count` phrases were produced or fewer than 64 bytes remain. -/
theorem scalar_loop_inv (build : Build) (hive : ToiletHivemind) (buf0 : Scroll)
    (lens0 : Option (Nat → Int)) (count size : Nat) :
    ∀ (fuel soul : Nat) (st : Factory) (ps : List (List Nat)),
      BatchInv buf0 lens0 size st ps → soul = st.toilets_flushed → soul ≤ count →
      ∃ ps', BatchInv buf0 lens0 size
          (batch_scalar_loop build hive count size fuel soul st) ps' ∧
        ps'.length ≤ count ∧
        (count ≤ soul + fuel → ps'.length = count ∨ size < (batch_text ps').length + 64) := by
  intro fuel
  induction fuel with
  | zero =>
    intro soul st ps h hs hc
    refine ⟨ps, h, by rw [← h.flushed, ← hs]; exact hc, fun hx => Or.inl ?_⟩
    rw [← h.flushed, ← hs]
    omega
  | succ n ih =>
    intro soul st ps h hs hc
    rw [batch_scalar_loop]
    by_cases hg : soul < count ∧ st.scroll_offset + SKIBIDI_MIN_BUFFER_SIZE ≤ size
    · rw [if_pos hg]
      obtain ⟨p, hp⟩ := speak_ultra_item build hive st.ctx.rng
        (scroll_at st.scroll st.scroll_offset)
      have hb := bookkeeping_inv h hg.2 (toilet_speak_ultra build hive st.ctx.rng
        (scroll_at st.scroll st.scroll_offset) true).1 hp
      rw [← hs] at hb
      obtain ⟨ps', h1, h2, h3⟩ := ih (soul + 1) _ (ps ++ [p]) hb (by rw [hs]; rfl) hg.1
      exact ⟨ps', h1, h2, fun hx => h3 (by omega)⟩
    · rw [if_neg hg]
      refine ⟨ps, h, by rw [← h.flushed, ← hs]; exact hc, fun _ => ?_⟩
      by_cases hlt : soul < count
      · right
        have : ¬ st.scroll_offset + SKIBIDI_MIN_BUFFER_SIZE ≤ size := fun hx => hg ⟨hlt, hx⟩
        rw [← h.offset]
        simp only [SKIBIDI_MIN_BUFFER_SIZE] at this
        omega
      · left
        rw [← h.flushed, ← hs]
        omega

theorem straggler_eq_scalar (build : Build) (hive : ToiletHivemind) (quota cap : Nat) :
    ∀ (fuel : Nat) (st : Factory),
      factory_straggler_loop build hive quota cap fuel st
        = batch_scalar_loop build hive quota cap fuel st.toilets_flushed st := by
  intro fuel
  induction fuel with
  | zero => intro st; rfl
  | succ n ih =>
    intro st
    rw [factory_straggler_loop, batch_scalar_loop]
    split_ifs
    · exact ih _
    · rfl

theorem batch_inv_rng {buf0 : Scroll} {lens0 : Option (Nat → Int)} {size : Nat}
    {st : Factory} {ps : List (List Nat)} (h : BatchInv buf0 lens0 size st ps)
    (ctx : SkibidiContext) : BatchInv buf0 lens0 size { st with ctx := ctx } ps where
  flushed := h.flushed
  offset := h.offset
  fits := h.fits
  text := h.text
  good := h.good
  tail := h.tail
  frame := h.frame
  lens := h.lens

/-- One item of a group extends the layout by one phrase of at most 43 bytes. -/
theorem factory_item_inv {buf0 : Scroll} {lens0 : Option (Nat → Int)} {size : Nat}
    {st : Factory} {ps : List (List Nat)} (h : BatchInv buf0 lens0 size st ps)
    (hroom : st.scroll_offset + 64 ≤ size) (mask : Nat) (entropy1 entropy2 : Quad)
    (i : Fin 4) :
    ∃ p, BatchInv buf0 lens0 size (factory_item st mask entropy1 entropy2 i) (ps ++ [p]) ∧
      (factory_item st mask entropy1 entropy2 i).scroll_offset ≤ st.scroll_offset + 44 := by
  unfold factory_item
  dsimp only
  split_ifs
  · have hp := prophecy_vector_item (scroll_at st.scroll st.scroll_offset)
    refine ⟨_, bookkeeping_inv h hroom st.ctx.rng hp, ?_⟩
    show st.scroll_offset + (24 + 1) ≤ st.scroll_offset + 44
    omega
  · obtain ⟨p, hp⟩ := with_entropy_item (scroll_at st.scroll st.scroll_offset)
      (entropy1.get i) (entropy2.get i)
    refine ⟨p, bookkeeping_inv h hroom st.ctx.rng hp, ?_⟩
    have := hp.upper
    show st.scroll_offset + (_ + 1) ≤ _
    omega

/-- One pass of the main loop extends the layout by four phrases. -/
theorem factory_group_inv {buf0 : Scroll} {lens0 : Option (Nat → Int)} {size : Nat}
    {st : Factory} {ps : List (List Nat)} (h : BatchInv buf0 lens0 size st ps)
    (hroom : st.scroll_offset + 256 ≤ size) :
    ∃ ps', BatchInv buf0 lens0 size (factory_group st) ps' ∧ ps'.length = ps.length + 4 := by
  unfold factory_group
  dsimp only
  rw [show List.finRange 4 = [0, 1, 2, 3] from rfl]
  simp only [List.foldl_cons, List.foldl_nil]
  have h0 := batch_inv_rng h
    { st.ctx with rng := { st.ctx.rng with
        s0 := (toilet_quad_flush (toilet_quad_flush st.ctx.rng.s0 Quad.zero).1 Quad.zero).1 } }
  obtain ⟨p0, i0, o0⟩ := factory_item_inv h0 (by show st.scroll_offset + 64 ≤ size; omega)
    (prophecy_mask (toilet_quad_flush st.ctx.rng.s0 Quad.zero).2)
    (toilet_quad_flush st.ctx.rng.s0 Quad.zero).2
    (toilet_quad_flush (toilet_quad_flush st.ctx.rng.s0 Quad.zero).1 Quad.zero).2 0
  have o0' : _ ≤ st.scroll_offset + 44 := o0
  obtain ⟨p1, i1, o1⟩ := factory_item_inv i0 (by omega)
    (prophecy_mask (toilet_quad_flush st.ctx.rng.s0 Quad.zero).2)
    (toilet_quad_flush st.ctx.rng.s0 Quad.zero).2
    (toilet_quad_flush (toilet_quad_flush st.ctx.rng.s0 Quad.zero).1 Quad.zero).2 1
  obtain ⟨p2, i2, o2⟩ := factory_item_inv i1 (by omega)
    (prophecy_mask (toilet_quad_flush st.ctx.rng.s0 Quad.zero).2)
    (toilet_quad_flush st.ctx.rng.s0 Quad.zero).2
    (toilet_quad_flush (toilet_quad_flush st.ctx.rng.s0 Quad.zero).1 Quad.zero).2 2
  obtain ⟨p3, i3, _⟩ := factory_item_inv i2 (by omega)
    (prophecy_mask (toilet_quad_flush st.ctx.rng.s0 Quad.zero).2)
    (toilet_quad_flush st.ctx.rng.s0 Quad.zero).2
    (toilet_quad_flush (toilet_quad_flush st.ctx.rng.s0 Quad.zero).1 Quad.zero).2 3
  exact ⟨_, i3, by simp⟩

/-- The main loop keeps the layout and produces at most `quota` phrases. -/
theorem main_loop_inv (buf0 : Scroll) (lens0 : Option (Nat → Int)) (quota size : Nat) :
    ∀ (fuel : Nat) (st : Factory) (ps : List (List Nat)),
      BatchInv buf0 lens0 size st ps → st.toilets_flushed ≤ quota →
      ∃ ps', BatchInv buf0 lens0 size (factory_main_loop quota size fuel st) ps' ∧
        ps'.length ≤ quota := by
  intro fuel
  induction fuel with
  | zero =>
    intro st ps h hc
    exact ⟨ps, h, by rw [← h.flushed]; exact hc⟩
  | succ n ih =>
    intro st ps h hc
    rw [factory_main_loop]
    by_cases hg : st.toilets_flushed + 4 ≤ quota ∧
        st.scroll_offset + 4 * SKIBIDI_MIN_BUFFER_SIZE ≤ size
    · rw [if_pos hg]
      obtain ⟨ps1, h1, hl⟩ := factory_group_inv h
        (by have := hg.2; simp only [SKIBIDI_MIN_BUFFER_SIZE] at this; omega)
      exact ih _ ps1 h1 (by rw [h1.flushed, hl, ← h.flushed]; exact hg.1)
    · rw [if_neg hg]
      exact ⟨ps, h, by rw [← h.flushed]; exact hc⟩

theorem factory_group_flushed (st : Factory) :
    (factory_group st).toilets_flushed = st.toilets_flushed + 4 := rfl

/-- The pass bound of the main loop is never what ends it: when it returns, its loop
condition is false. -/
theorem main_loop_exit (quota size : Nat) :
    ∀ (fuel : Nat) (st : Factory), quota ≤ st.toilets_flushed + 4 * fuel →
      ¬ ((factory_main_loop quota size fuel st).toilets_flushed + 4 ≤ quota ∧
        (factory_main_loop quota size fuel st).scroll_offset + 4 * SKIBIDI_MIN_BUFFER_SIZE
          ≤ size) := by
  intro fuel
  induction fuel with
  | zero =>
    intro st h hg
    rw [factory_main_loop] at hg
    omega
  | succ n ih =>
    intro st h
    rw [factory_main_loop]
    by_cases hg : st.toilets_flushed + 4 ≤ quota ∧
        st.scroll_offset + 4 * SKIBIDI_MIN_BUFFER_SIZE ≤ size
    · rw [if_pos hg]
      exact ih _ (by rw [factory_group_flushed]; omega)
    · rw [if_neg hg]
      exact hg

/-- The vector batch path keeps the layout, produces at most `quota` phrases, and stops
only when `quota` phrases were produced or fewer than 64 bytes remain. -/
theorem factory_inv (build : Build) (hive : ToiletHivemind) (c : SkibidiContext)
    (b : Scroll) (size quota : Nat) (lengths : Option (Nat → Int)) :
    ∃ ps, BatchInv b lengths size (toilet_factory_avx2 build hive c b size quota lengths) ps ∧
      ps.length ≤ quota ∧ (ps.length = quota ∨ size < (batch_text ps).length + 64) := by
  obtain ⟨ps1, h1, hl1⟩ := main_loop_inv b lengths quota size quota ⟨c, b, lengths, 0, 0⟩ []
    (batch_inv_start b lengths size c) (Nat.zero_le _)
  unfold toilet_factory_avx2
  dsimp only
  rw [straggler_eq_scalar]
  obtain ⟨ps2, h2, hl2, hx⟩ := scalar_loop_inv build hive b lengths quota size quota
    (factory_main_loop quota size quota ⟨c, b, lengths, 0, 0⟩).toilets_flushed _ ps1 h1 rfl
    (by rw [h1.flushed]; exact hl1)
  exact ⟨ps2, h2, hl2, hx (by omega)⟩

theorem phrase_start_eq (ps : List (List Nat)) (i : Nat) :
    phrase_start ps i = (batch_text (ps.take i)).length :=
  (batch_text_length _).symm

theorem phrase_start_all (ps : List (List Nat)) :
    phrase_start ps ps.length = (batch_text ps).length := by
  rw [phrase_start_eq, List.take_length]

theorem batch_text_split (ps : List (List Nat)) (i : Nat) (hi : i < ps.length) :
    batch_text ps
      = batch_text (ps.take i) ++ (ps.getD i [] ++ [10] ++ batch_text (ps.drop (i + 1))) := by
  induction ps generalizing i with
  | nil => exact absurd hi (Nat.not_lt_zero _)
  | cons q qs ih =>
    cases i with
    | zero => simp [batch_text]
    | succ k =>
      have hk : k < qs.length := by simpa using hi
      simp only [List.take_succ_cons, List.drop_succ_cons, batch_text, List.getD_cons_succ]
      rw [ih k hk]
      simp

/-- In a buffer that begins with a layout, phrase `i` stands at its offset and is
followed by a newline. -/
theorem layout_at {s : Scroll} {ps : List (List Nat)} (h : StartsWith s (batch_text ps))
    (i : Nat) (hi : i < ps.length) :
    phrase (scroll_at s (phrase_start ps i)) (ps.getD i []).length = ps.getD i [] ∧
      s (phrase_start ps i + (ps.getD i []).length) = 10 := by
  have hsplit := batch_text_split ps i hi
  have hlen : (batch_text ps).length
      = phrase_start ps i + ((ps.getD i []).length + 1
          + (batch_text (ps.drop (i + 1))).length) := by
    rw [hsplit, phrase_start_eq]
    simp only [List.length_append, List.length_singleton]
  constructor
  · apply phrase_of_starts _ _ rfl
    intro k hk
    unfold scroll_at
    rw [h _ (by omega), hsplit, List.getD_append_right _ _ _ _ (by rw [phrase_start_eq]; omega),
      ← phrase_start_eq, Nat.add_sub_cancel_left, List.append_assoc,
      List.getD_append _ _ _ _ hk]
  · rw [h _ (by omega), hsplit, List.getD_append_right _ _ _ _ (by rw [phrase_start_eq]; omega),
      ← phrase_start_eq, Nat.add_sub_cancel_left, List.append_assoc,
      List.getD_append_right _ _ _ _ (le_refl _), Nat.sub_self]
    rfl

/-- C22: a call with a context, a buffer of `buffer_size >= 64` bytes and
`1 <= count <= INT_MAX - 4` (so that no `int` counter of the source can overflow)
returns the number of phrases of a list `phrases` with at most `count` entries; phrase
`i` has 8 to 43 bytes, all letters, spaces or '!', stands at offset
`phrase_start phrases i` (the sum over `j < i` of `len_j + 1`) and is followed by a
newline; the lengths array, when non-null, holds `len_i` at the indices below the
count and is otherwise as before; the layout ends within the buffer, behind it every
byte is as before or NUL, from `buffer_size` on every byte is as before; and the call
stops short of `count` only when fewer than 64 bytes remain. -/
theorem C22_batch_layout (build : Build) (hive : ToiletHivemind) (c : SkibidiContext)
    (b : Scroll) (buffer_size : Nat) (count : Int) (lengths : Option (Nat → Int))
    (hs : 64 ≤ buffer_size) (hc : 1 ≤ count) (_hmax : count ≤ 2147483643) :
    ∃ (c' : SkibidiContext) (b' : Scroll) (phrases : List (List Nat)),
      skibidi_generate_batch build hive (some c) (some b) buffer_size count lengths
        = (some c', some b', lengths_after lengths phrases, (phrases.length : Int)) ∧
      (phrases.length : Int) ≤ count ∧
      (∀ i, i < phrases.length →
        8 ≤ (phrases.getD i []).length ∧ (phrases.getD i []).length ≤ 43 ∧
        (∀ x ∈ phrases.getD i [], phrase_byte x = true) ∧
        phrase (scroll_at b' (phrase_start phrases i)) (phrases.getD i []).length
          = phrases.getD i [] ∧
        b' (phrase_start phrases i + (phrases.getD i []).length) = 10) ∧
      phrase_start phrases phrases.length ≤ buffer_size ∧
      (∀ j, phrase_start phrases phrases.length ≤ j → b' j = b j ∨ b' j = 0) ∧
      (∀ j, buffer_size ≤ j → b' j = b j) ∧
      ((phrases.length : Int) = count ∨
        buffer_size < phrase_start phrases phrases.length + 64) := by
  have hsz : ¬ buffer_size < SKIBIDI_MIN_BUFFER_SIZE := by
    simp only [SKIBIDI_MIN_BUFFER_SIZE]; omega
  have hcount : (count.toNat : Int) = count := Int.toNat_of_nonneg (by omega)
  have key : ∃ (st : Factory) (ps : List (List Nat)),
      skibidi_generate_batch build hive (some c) (some b) buffer_size count lengths
        = (some st.ctx, some st.scroll, st.inscription_lengths, (st.toilets_flushed : Int)) ∧
      BatchInv b lengths buffer_size st ps ∧ ps.length ≤ count.toNat ∧
      (ps.length = count.toNat ∨ buffer_size < (batch_text ps).length + 64) := by
    unfold skibidi_generate_batch
    dsimp only
    rw [if_neg hsz, if_neg (by omega)]
    by_cases ht : build.TOILET_HAS_RIZZ_256 = true ∧ hive.flush_strategy ≥ 1
    · rw [if_pos ht]
      obtain ⟨ps, h1, h2, h3⟩ := factory_inv build hive c b buffer_size count.toNat lengths
      exact ⟨_, ps, rfl, h1, h2, h3⟩
    · rw [if_neg ht]
      obtain ⟨ps, h1, h2, h3⟩ := scalar_loop_inv build hive b lengths count.toNat buffer_size
        count.toNat 0 ⟨c, b, lengths, 0, 0⟩ [] (batch_inv_start b lengths buffer_size c) rfl
        (Nat.zero_le _)
      exact ⟨_, ps, rfl, h1, h2, h3 (by omega)⟩
  obtain ⟨st, ps, hres, hinv, hle, hstop⟩ := key
  refine ⟨st.ctx, st.scroll, ps, ?_, ?_, ?_, ?_, ?_, hinv.frame, ?_⟩
  · rw [hres, hinv.lens, hinv.flushed]
  · omega
  · intro i hi
    have hmem : ps.getD i [] ∈ ps := by
      rw [List.getD_eq_getElem _ _ hi]
      exact List.getElem_mem hi
    obtain ⟨g1, g2, g3⟩ := hinv.good _ hmem
    obtain ⟨l1, l2⟩ := layout_at hinv.text i hi
    exact ⟨g1, g2, g3, l1, l2⟩
  · rw [phrase_start_all, ← hinv.offset]
    exact hinv.fits
  · intro j hj
    rw [phrase_start_all, ← hinv.offset] at hj
    exact hinv.tail j hj
  · rw [phrase_start_all]
    rcases hstop with h | h
    · left; omega
    · right; exact h

theorem agree_of_phrase {n : Nat} {a b : Scroll} (h : phrase a n = phrase b n) :
    AgreeBelow n a b := by
  intro i hi
  have := congrArg (fun q => q.getD i 0) h
  simp only [phrase] at this
  rw [List.getD_eq_getElem _ _ (by simpa using hi),
    List.getD_eq_getElem _ _ (by simpa using hi)] at this
  simpa using this

/-- The bookkeeping keeps two runs in step when the phrase just written is the same. -/
theorem same_bookkeeping {st1 st2 : Factory} (h : SameBatch st1 st2) (rng : SkibidiRngState)
    {out1 out2 : Scroll} (len slot : Nat) (ho : AgreeBelow len out1 out2) :
    SameBatch (batch_bookkeeping st1 rng out1 len slot)
      (batch_bookkeeping st2 rng out2 len slot) where
  ctx := by
    show ({ st1.ctx with rng := rng, call_count := (st1.ctx.call_count + 1) % 2 ^ 64 }
        : SkibidiContext)
      = { st2.ctx with rng := rng, call_count := (st2.ctx.call_count + 1) % 2 ^ 64 }
    rw [h.ctx]
  lens := by
    show st1.inscription_lengths.map _ = st2.inscription_lengths.map _
    rw [h.lens]
  flushed := by
    show st1.toilets_flushed + 1 = st2.toilets_flushed + 1
    rw [h.flushed]
  offset := by
    show st1.scroll_offset + (len + 1) = st2.scroll_offset + (len + 1)
    rw [h.offset]
  agree := by
    intro i hi
    have hi' : i < st1.scroll_offset + (len + 1) := hi
    show poke (scroll_back st1.scroll st1.scroll_offset out1) (st1.scroll_offset + len) 10 i
      = poke (scroll_back st2.scroll st2.scroll_offset out2) (st2.scroll_offset + len) 10 i
    rw [← h.offset]
    unfold poke
    split_ifs with hc
    · rfl
    · unfold scroll_back
      split_ifs with hd
      · exact ho _ (by omega)
      · exact h.agree i (by omega)

/-- The scalar loop writes the same phrases, lengths and context under any two tiers. -/
theorem same_scalar_loop (build1 build2 : Build) (hive1 hive2 : ToiletHivemind)
    (count size : Nat) :
    ∀ (fuel soul : Nat) (st1 st2 : Factory), SameBatch st1 st2 →
      SameBatch (batch_scalar_loop build1 hive1 count size fuel soul st1)
        (batch_scalar_loop build2 hive2 count size fuel soul st2) := by
  intro fuel
  induction fuel with
  | zero => intro soul st1 st2 h; exact h
  | succ n ih =>
    intro soul st1 st2 h
    rw [batch_scalar_loop, batch_scalar_loop, ← h.offset]
    split_ifs
    · obtain ⟨e1, e2, e3⟩ := speak_ultra_indep build1 build2 hive1 hive2 st1.ctx.rng
        (scroll_at st1.scroll st1.scroll_offset) (scroll_at st2.scroll st1.scroll_offset) true
      apply ih
      rw [← h.ctx, ← e1, ← e2]
      rw [← e2] at e3
      exact same_bookkeeping h _ _ _ (agree_of_phrase e3)
    · exact h

theorem main_loop_idle (quota size : Nat) (h : quota < 4 ∨ size < 256) (fuel : Nat)
    (c : SkibidiContext) (b : Scroll) (lengths : Option (Nat → Int)) :
    factory_main_loop quota size fuel ⟨c, b, lengths, 0, 0⟩ = ⟨c, b, lengths, 0, 0⟩ := by
  cases fuel with
  | zero => rfl
  | succ n =>
    rw [factory_main_loop, if_neg]
    simp only [SKIBIDI_MIN_BUFFER_SIZE]
    omega

set_option maxRecDepth 100000 in
/-- C25, as stated, fails.  For the context seeded with 42, a 256-byte buffer and
`count = 4` the scalar tier returns the lengths 24, 28, 24, 22 and the vector tier the
lengths 24, 24, 24, 24, with different second phrases and different final states of
`s0[0]` and `s0[1]`; and for `count = 1` the vector tier leaves NUL at offset 25, behind
the newline, where the scalar tier leaves the byte that was there. -/
theorem C25_tiers_differ_on_groups :
    ((List.range 4).map
      ((skibidi_generate_batch scalar_build scalar_hive (some (init_context 42))
        (some blank_scroll) 256 4 (some (fun _ => 0))).2.2.1.getD (fun _ => 0)))
        = [24, 28, 24, 22] ∧
    ((List.range 4).map
      ((skibidi_generate_batch avx2_build avx2_hive (some (init_context 42))
        (some blank_scroll) 256 4 (some (fun _ => 0))).2.2.1.getD (fun _ => 0)))
        = [24, 24, 24, 24] ∧
    (skibidi_generate_batch scalar_build scalar_hive (some (init_context 42))
        (some blank_scroll) 256 4 none).1
      ≠ (skibidi_generate_batch avx2_build avx2_hive (some (init_context 42))
        (some blank_scroll) 256 4 none).1 ∧
    phrase (scroll_at ((skibidi_generate_batch scalar_build scalar_hive
        (some (init_context 42)) (some blank_scroll) 256 4 none).2.1.getD blank_scroll) 25) 28
      = cbytes "Skibidi dop dop dop yes yes!" ∧
    phrase (scroll_at ((skibidi_generate_batch avx2_build avx2_hive
        (some (init_context 42)) (some blank_scroll) 256 4 none).2.1.getD blank_scroll) 25) 24
      = cbytes "Skibidi dop Dop yes yes!" ∧
    ((skibidi_generate_batch scalar_build scalar_hive (some (init_context 42))
        (some blank_scroll) 64 1 none).2.1.getD blank_scroll) 25 = 0xAA ∧
    ((skibidi_generate_batch avx2_build avx2_hive (some (init_context 42))
        (some blank_scroll) 64 1 none).2.1.getD blank_scroll) 25 = 0 := by
  refine ⟨by decide, by decide, by decide, by decide, by decide, by decide, by decide⟩

/-- C25 (amended): when `count < 4` or `buffer_size < 256`, a scalar tier and a vector
tier return the same count, leave the same context and the same lengths array, and
write the same phrases and newlines: both buffers hold the same layout `phrases`, whose
length is the count returned. -/
theorem C25_tiers_agree_without_groups (build1 build2 : Build) (hive1 hive2 : ToiletHivemind)
    (c : SkibidiContext) (b : Scroll) (buffer_size : Nat) (count : Int)
    (lengths : Option (Nat → Int))
    (hscalar : ¬ (build1.TOILET_HAS_RIZZ_256 = true ∧ hive1.flush_strategy ≥ 1))
    (hvector : build2.TOILET_HAS_RIZZ_256 = true ∧ hive2.flush_strategy ≥ 1)
    (hsmall : count < 4 ∨ buffer_size < 256) :
    ∃ (ctx' : Option SkibidiContext) (b1 b2 : Scroll) (lengths' : Option (Nat → Int))
        (phrases : List (List Nat)),
      skibidi_generate_batch build1 hive1 (some c) (some b) buffer_size count lengths
        = (ctx', some b1, lengths', (phrases.length : Int)) ∧
      skibidi_generate_batch build2 hive2 (some c) (some b) buffer_size count lengths
        = (ctx', some b2, lengths', (phrases.length : Int)) ∧
      phrase b1 (phrase_start phrases phrases.length) = batch_text phrases ∧
      phrase b2 (phrase_start phrases phrases.length) = batch_text phrases := by
  by_cases hbad : buffer_size < SKIBIDI_MIN_BUFFER_SIZE ∨ count ≤ 0
  · refine ⟨some c, b, b, lengths, [], ?_, ?_, rfl, rfl⟩
    · unfold skibidi_generate_batch
      dsimp only
      rcases hbad with h | h
      · rw [if_pos h]; rfl
      · split_ifs <;> rfl
    · unfold skibidi_generate_batch
      dsimp only
      rcases hbad with h | h
      · rw [if_pos h]; rfl
      · split_ifs <;> rfl
  · have hsz : ¬ buffer_size < SKIBIDI_MIN_BUFFER_SIZE := fun h => hbad (Or.inl h)
    have hcn : ¬ count ≤ 0 := fun h => hbad (Or.inr h)
    have hidle := main_loop_idle count.toNat buffer_size
      (by rcases hsmall with h | h
          · left; omega
          · right; exact h) count.toNat c b lengths
    obtain ⟨ps, h1, _, _⟩ := scalar_loop_inv build1 hive1 b lengths count.toNat buffer_size
      count.toNat 0 ⟨c, b, lengths, 0, 0⟩ [] (batch_inv_start b lengths buffer_size c) rfl
      (Nat.zero_le _)
    have hsame := same_scalar_loop build1 build2 hive1 hive2 count.toNat buffer_size
      count.toNat 0 ⟨c, b, lengths, 0, 0⟩ ⟨c, b, lengths, 0, 0⟩
      ⟨rfl, rfl, rfl, rfl, fun _ _ => rfl⟩
    have hp1 := phrase_of_starts h1.text _ h1.offset
    refine ⟨some (batch_scalar_loop build1 hive1 count.toNat buffer_size count.toNat 0
        ⟨c, b, lengths, 0, 0⟩).ctx,
      (batch_scalar_loop build1 hive1 count.toNat buffer_size count.toNat 0
        ⟨c, b, lengths, 0, 0⟩).scroll,
      (batch_scalar_loop build2 hive2 count.toNat buffer_size count.toNat 0
        ⟨c, b, lengths, 0, 0⟩).scroll,
      (batch_scalar_loop build1 hive1 count.toNat buffer_size count.toNat 0
        ⟨c, b, lengths, 0, 0⟩).inscription_lengths, ps, ?_, ?_, ?_, ?_⟩
    · unfold skibidi_generate_batch
      dsimp only
      rw [if_neg hsz, if_neg hcn, if_neg hscalar, h1.flushed]
    · unfold skibidi_generate_batch toilet_factory_avx2
      dsimp only
      rw [if_neg hsz, if_neg hcn, if_pos hvector, hidle, straggler_eq_scalar, ← hsame.ctx,
        ← hsame.lens, ← hsame.flushed, h1.flushed]
    · rw [phrase_start_all, ← h1.offset]
      exact hp1
    · rw [phrase_start_all, ← h1.offset, ← hp1]
      exact (phrase_congr hsame.agree).symm

/-! ## Concrete instances of the batch theorems -/

theorem C22_batch_layout_witness :
    (64 ≤ 256 ∧ (1 : Int) ≤ 4 ∧ (4 : Int) ≤ 2147483643) ∧
    ∃ (c' : SkibidiContext) (b' : Scroll) (phrases : List (List Nat)),
      skibidi_generate_batch avx2_build avx2_hive (some (init_context 42)) (some blank_scroll)
          256 4 none
        = (some c', some b', lengths_after none phrases, (phrases.length : Int)) ∧
      (phrases.length : Int) ≤ 4 ∧
      (∀ i, i < phrases.length →
        8 ≤ (phrases.getD i []).length ∧ (phrases.getD i []).length ≤ 43 ∧
        (∀ x ∈ phrases.getD i [], phrase_byte x = true) ∧
        phrase (scroll_at b' (phrase_start phrases i)) (phrases.getD i []).length
          = phrases.getD i [] ∧
        b' (phrase_start phrases i + (phrases.getD i []).length) = 10) ∧
      phrase_start phrases phrases.length ≤ 256 ∧
      (∀ j, phrase_start phrases phrases.length ≤ j → b' j = blank_scroll j ∨ b' j = 0) ∧
      (∀ j, 256 ≤ j → b' j = blank_scroll j) ∧
      ((phrases.length : Int) = 4 ∨ 256 < phrase_start phrases phrases.length + 64) :=
  ⟨⟨by decide, by decide, by decide⟩,
    C22_batch_layout avx2_build avx2_hive (init_context 42) blank_scroll 256 4 none
      (by decide) (by decide) (by decide)⟩

set_option maxRecDepth 100000 in
theorem C24_batch_assembler_up_to_prefix_witness :
    (64 ≤ 64 ∧ 69 ≤ (draw_D1 (init_context 0) >>> 48) &&& 0xFF ∧
      word_count (draw_D1 (init_context 0)) ≤ 4) ∧
    written (skibidi_generate scalar_build scalar_hive (some (init_context 0))
        (some blank_scroll) 64)
      = (if (draw_D1 (init_context 0) >>> 40) &&& 0xFF < 38 then cbytes "Brrrrr " else [])
        ++ phrase (toilet_speak_with_entropy blank_scroll (draw_D1 (init_context 0))
              (draw_D2 (init_context 0))).1
            (toilet_speak_with_entropy blank_scroll (draw_D1 (init_context 0))
              (draw_D2 (init_context 0))).2 ∧
    (skibidi_generate scalar_build scalar_hive (some (init_context 0)) (some blank_scroll)
        64).2.2
      = (if (draw_D1 (init_context 0) >>> 40) &&& 0xFF < 38 then 7 else 0)
        + ((toilet_speak_with_entropy blank_scroll (draw_D1 (init_context 0))
            (draw_D2 (init_context 0))).2 : Int) :=
  ⟨⟨by decide, by decide, by decide⟩,
    C24_batch_assembler_up_to_prefix scalar_build scalar_hive (init_context 0) blank_scroll
      blank_scroll 64 (by decide) (by decide) (by decide)⟩

theorem C25_tiers_agree_without_groups_witness :
    (¬ (scalar_build.TOILET_HAS_RIZZ_256 = true ∧ scalar_hive.flush_strategy ≥ 1) ∧
      (avx2_build.TOILET_HAS_RIZZ_256 = true ∧ avx2_hive.flush_strategy ≥ 1) ∧
      ((3 : Int) < 4 ∨ 1024 < 256)) ∧
    ∃ (ctx' : Option SkibidiContext) (b1 b2 : Scroll) (lengths' : Option (Nat → Int))
        (phrases : List (List Nat)),
      skibidi_generate_batch scalar_build scalar_hive (some (init_context 42))
          (some blank_scroll) 1024 3 none
        = (ctx', some b1, lengths', (phrases.length : Int)) ∧
      skibidi_generate_batch avx2_build avx2_hive (some (init_context 42))
          (some blank_scroll) 1024 3 none
        = (ctx', some b2, lengths', (phrases.length : Int)) ∧
      phrase b1 (phrase_start phrases phrases.length) = batch_text phrases ∧
      phrase b2 (phrase_start phrases phrases.length) = batch_text phrases :=
  ⟨⟨by decide, by decide, by decide⟩,
    C25_tiers_agree_without_groups scalar_build avx2_build scalar_hive avx2_hive
      (init_context 42) blank_scroll 1024 3 none (by decide) (by decide) (by decide)⟩

theorem C27_strategy_resolution_witness :
    ((⟨0, 0, 0⟩ : ToiletHivemind).toilet_awake = 0 ∧
      ((⟨true, true, true⟩ : Build).TOILET_HAS_GODMODE_512 = true →
        (⟨true, true, true⟩ : Build).TOILET_HAS_RIZZ_256 = true)) ∧
    (toilet_awakening_ceremony ⟨true, true, true⟩
        ⟨7, TOILET_RUNE_AVX2 ||| TOILET_RUNE_AVX512F, true, 0, 0⟩ ⟨0, 0, 0⟩).flush_strategy
      = spec_tier (scan_toilet_chakras ⟨true, true, true⟩
          ⟨7, TOILET_RUNE_AVX2 ||| TOILET_RUNE_AVX512F, true, 0, 0⟩) ⟨true, true, true⟩ true ∧
    spec_tier (scan_toilet_chakras ⟨true, true, true⟩
        ⟨7, TOILET_RUNE_AVX2 ||| TOILET_RUNE_AVX512F, true, 0, 0⟩) ⟨true, true, true⟩ true = 2 ∧
    (skibidi_configure ⟨true, true, true⟩
        ⟨7, TOILET_RUNE_AVX2 ||| TOILET_RUNE_AVX512F, true, 0, 0⟩ ⟨1, 0, 2⟩
        (some ⟨0, 1, [0, 0, 0, 0, 0, 0]⟩)).1.flush_strategy = 1 :=
  ⟨⟨rfl, fun _ => rfl⟩,
    (C27_strategy_resolution ⟨true, true, true⟩
      ⟨7, TOILET_RUNE_AVX2 ||| TOILET_RUNE_AVX512F, true, 0, 0⟩ ⟨0, 0, 0⟩
      ⟨0, 1, [0, 0, 0, 0, 0, 0]⟩).1 rfl (fun _ => rfl),
    by decide, by decide⟩

/-! ## The collapse of the generator -/

theorem soul_step_eq (s : Nat) (hs : s < 2 ^ 64) :
    soul_step s = s * sacred_multiplier / 2 ^ 64 := by
  have h1 : s * sacred_multiplier < 2 ^ 128 := by
    unfold sacred_multiplier
    omega
  have h2 : s * sacred_multiplier / 2 ^ 64 < 2 ^ 64 := by
    unfold sacred_multiplier at h1 ⊢
    omega
  unfold soul_step toilet_consciousness_mul
  simp only [Nat.shiftRight_eq_div_pow]
  rw [Nat.mod_eq_of_lt h1, Nat.mod_eq_of_lt h2]

theorem soul_step_lt (s : Nat) (h0 : 0 < s) (hs : s < 2 ^ 64) : soul_step s < s := by
  rw [soul_step_eq s hs]
  unfold sacred_multiplier
  omega

theorem soul_step_le (s : Nat) (hs : s < 2 ^ 64) : soul_step s ≤ s := by
  rw [soul_step_eq s hs]
  unfold sacred_multiplier
  omega

theorem soul_step_mono (s t : Nat) (h : s ≤ t) (ht : t < 2 ^ 64) :
    soul_step s ≤ soul_step t := by
  rw [soul_step_eq s (by omega), soul_step_eq t ht]
  unfold sacred_multiplier
  omega

theorem soul_step_zero : soul_step 0 = 0 := by decide

theorem soul_fuel_zero : soul_fuel 0 = 0 := by decide

theorem soul_iterate_mono (n : Nat) :
    ∀ s t : Nat, s ≤ t → t < 2 ^ 64 → (soul_step^[n]) s ≤ (soul_step^[n]) t := by
  induction n with
  | zero => intro s t h _; exact h
  | succ n ih =>
    intro s t h ht
    rw [Function.iterate_succ_apply, Function.iterate_succ_apply]
    exact ih _ _ (soul_step_mono s t h ht)
      (Nat.lt_of_le_of_lt (soul_step_le t ht) ht)

theorem soul_iterate_zero (n : Nat) : (soul_step^[n]) 0 = 0 :=
  Function.iterate_fixed soul_step_zero n

set_option maxRecDepth 100000 in
theorem soul_top_half : (soul_step^[256]) (2 ^ 64 - 1) = 46 := by decide

set_option maxRecDepth 100000 in
theorem soul_low_half : (soul_step^[256]) 46 = 0 := by decide

theorem soul_top_collapses : (soul_step^[512]) (2 ^ 64 - 1) = 0 := by
  rw [show 512 = 256 + 256 from rfl, Function.iterate_add_apply, soul_top_half, soul_low_half]

/-- From every 64-bit state the state is 0 after 512 draws and stays 0. -/
theorem soul_collapses (s n : Nat) (hs : s < 2 ^ 64) (hn : 512 ≤ n) :
    (soul_step^[n]) s = 0 := by
  have h := soul_iterate_mono 512 s (2 ^ 64 - 1) (by omega) (by norm_num)
  rw [soul_top_collapses] at h
  have h1 : (soul_step^[512]) s = 0 := by omega
  obtain ⟨k, rfl⟩ : ∃ k, n = k + 512 := ⟨n - 512, by omega⟩
  rw [Function.iterate_add_apply, h1, soul_iterate_zero]

/-- C31: a draw maps every non-zero 64-bit state `s` to `floor(s * M / 2^64)`, which is
below `s`; state 0 is a fixed point whose draw returns 0; so from every 64-bit state the
state is 0 after 512 draws, and from then on every draw returns 0 and leaves 0. -/
theorem C31_draw_shrinks_state (s : Nat) (hs : s < 2 ^ 64) :
    (toilet_consciousness_mul s).2 = s * sacred_multiplier / 2 ^ 64 ∧
    (0 < s → (toilet_consciousness_mul s).2 < s) ∧
    toilet_consciousness_mul 0 = (0, 0) ∧
    (∀ n, 512 ≤ n →
      (soul_step^[n]) s = 0 ∧ toilet_consciousness_mul ((soul_step^[n]) s) = (0, 0)) ∧
    (∀ x, soul_step x = (toilet_consciousness_mul x).2) := by
  refine ⟨soul_step_eq s hs, fun h0 => soul_step_lt s h0 hs, by decide, fun n hn => ?_,
    fun x => rfl⟩
  rw [soul_collapses s n hs hn]
  exact ⟨rfl, by decide⟩

theorem C31_draw_shrinks_state_witness :
    12058926934050108963 < 2 ^ 64 ∧
    (toilet_consciousness_mul 12058926934050108963).2
      = 12058926934050108963 * sacred_multiplier / 2 ^ 64 ∧
    (0 < 12058926934050108963 →
      (toilet_consciousness_mul 12058926934050108963).2 < 12058926934050108963) ∧
    toilet_consciousness_mul 0 = (0, 0) ∧
    (∀ n, 512 ≤ n →
      (soul_step^[n]) 12058926934050108963 = 0 ∧
        toilet_consciousness_mul ((soul_step^[n]) 12058926934050108963) = (0, 0)) ∧
    (∀ x, soul_step x = (toilet_consciousness_mul x).2) :=
  ⟨by norm_num, C31_draw_shrinks_state 12058926934050108963 (by norm_num)⟩

/-! ## What a single-phrase call does to the context -/

theorem speak_ultra_rng (build : Build) (hive : ToiletHivemind) (rng : SkibidiRngState)
    (s : Scroll) (m : Bool) :
    (toilet_speak_ultra build hive rng s m).1
      = { rng with s0 := { rng.s0 with
            w0 := if m = true ∧ (soul_fuel (rng.s0.get 0) >>> 48) &&& 0xFF < 69
              then soul_step (rng.s0.get 0) else soul_step (soul_step (rng.s0.get 0)) } } := by
  by_cases hf : m = true ∧ ((toilet_flush_entropy rng).1 >>> 48) &&& 0xFF < 69
  · have hf' : m = true ∧ (soul_fuel (rng.s0.get 0) >>> 48) &&& 0xFF < 69 := hf
    rw [if_pos hf']
    obtain ⟨hm, hlt⟩ := hf
    subst hm
    rw [(speak_ultra_fast build hive rng s hlt).1]
    rfl
  · have hf' : ¬ (m = true ∧ (soul_fuel (rng.s0.get 0) >>> 48) &&& 0xFF < 69) := hf
    rw [if_neg hf', speak_ultra_slow build hive rng s m hf]
    rfl

/-- A successful single-phrase call of either kind: the phrase written, the value
returned and the context left behind, as functions of the primary state word. -/
theorem api_call_outcome (build : Build) (hive : ToiletHivemind) (variant : Bool)
    (c : SkibidiContext) (b : Scroll) (buffer_size : Nat) (h : 64 ≤ buffer_size) :
    written (api_call build hive variant c b buffer_size)
        = single_text variant (c.rng.s0.get 0) ∧
    (api_call build hive variant c b buffer_size).2.2
        = ((single_text variant (c.rng.s0.get 0)).length : Int) ∧
    (api_call build hive variant c b buffer_size).1 = some (context_after variant c) := by
  have hs : ¬ buffer_size < SKIBIDI_MIN_BUFFER_SIZE := by
    simp only [SKIBIDI_MIN_BUFFER_SIZE]; omega
  cases variant with
  | true =>
    obtain ⟨w1, w2⟩ := variant_writes build hive c b buffer_size h
    refine ⟨?_, ?_, ?_⟩
    · rw [show api_call build hive true c b buffer_size
        = skibidi_generate_variant build hive (some c) (some b) buffer_size from rfl, w1]
      simp [single_text]
    · rw [show api_call build hive true c b buffer_size
        = skibidi_generate_variant build hive (some c) (some b) buffer_size from rfl, w2]
      simp [single_text]
    · show (skibidi_generate_variant build hive (some c) (some b) buffer_size).1 = _
      simp only [skibidi_generate_variant, hs, if_false]
      rw [speak_ultra_rng]
      simp [context_after, single_next]
  | false =>
    have hcall : api_call build hive false c b buffer_size
        = skibidi_generate build hive (some c) (some b) buffer_size := rfl
    rw [hcall]
    refine ⟨?_, ?_, ?_⟩
    · by_cases hf : (soul_fuel (c.rng.s0.get 0) >>> 48) &&& 0xFF < 69
      · have hfast := speak_ultra_fast build hive c.rng b hf
        simp only [written, skibidi_generate, hs, if_false, Int.toNat_ofNat]
        rw [hfast.2.1, hfast.2.2]
        simp [single_text, hf]
      · rw [(generate_writes build hive c b buffer_size h (by omega)).1]
        simp [single_text, hf]
    · by_cases hf : (soul_fuel (c.rng.s0.get 0) >>> 48) &&& 0xFF < 69
      · have hfast := speak_ultra_fast build hive c.rng b hf
        simp only [skibidi_generate, hs, if_false]
        rw [hfast.2.1]
        simp [single_text, hf, cbytes]
      · rw [(generate_writes build hive c b buffer_size h (by omega)).2]
        simp [single_text, hf]
    · simp only [skibidi_generate, hs, if_false]
      rw [speak_ultra_rng]
      simp [context_after, single_next]

theorem single_next_le (variant : Bool) (s : Nat) (hs : s < 2 ^ 64) :
    single_next variant s ≤ soul_step s := by
  unfold single_next
  split_ifs
  · exact le_refl _
  · exact soul_step_le _ (Nat.lt_of_le_of_lt (soul_step_le s hs) hs)

/-- The primary state word after a sequence of successful calls is bounded by as many
draws from any bound of the starting state. -/
theorem api_calls_bound (build : Build) (hive : ToiletHivemind) :
    ∀ (calls : List (Bool × Scroll × Nat)) (c : SkibidiContext) (bound : Nat),
      (∀ x ∈ calls, 64 ≤ x.2.2) → c.rng.s0.get 0 ≤ bound → bound < 2 ^ 64 →
      (api_calls build hive calls c).rng.s0.get 0 ≤ (soul_step^[calls.length]) bound := by
  intro calls
  induction calls with
  | nil => intro c bound _ h _; exact h
  | cons x rest ih =>
    intro c bound hsz h hb
    have hx := (api_call_outcome build hive x.1 c x.2.1 x.2.2
      (hsz x (List.mem_cons_self _ _))).2.2
    rw [api_calls, hx, Option.getD_some, List.length_cons, Function.iterate_succ_apply]
    apply ih _ _ (fun y hy => hsz y (List.mem_cons_of_mem _ hy))
    · show single_next x.1 (c.rng.s0.get 0) ≤ soul_step bound
      exact le_trans (single_next_le _ _ (by omega)) (soul_step_mono _ _ h hb)
    · exact Nat.lt_of_le_of_lt (soul_step_le bound hb) hb

theorem init_s0_lt (seed : Nat) : (init_context seed).rng.s0.get 0 < 2 ^ 64 := by
  show init_s0 seed 0 < 2 ^ 64
  unfold init_s0
  exact Nat.or_lt_two_pow (soul_mix_lt _) (by norm_num)

set_option maxRecDepth 100000 in
theorem collapsed_texts :
    single_text false 0 = cbytes "Skibidi dop dop yes yes!" ∧
    single_text true 0 = cbytes "Brrrrr Skibidi dom no no!" ∧
    single_next false 0 = 0 ∧ single_next true 0 = 0 ∧
    single_text false 1 = cbytes "Brrrrr Skibidi dom dom dom yes yes!" ∧
    single_text true 1 = cbytes "Skibidi dom dom dom no no!" ∧
    single_next false 1 = 0 ∧ single_next true 1 = 0 := by
  decide

set_option maxRecDepth 100000 in
/-- C32, as stated, fails for a first call of the variant kind: on the context seeded
with 0 (`s0[0] = 1`) a first `skibidi_generate_variant` call returns 26 and writes
"Skibidi dom dom dom no no!", not the 35 bytes "Brrrrr Skibidi dom dom dom yes yes!". -/
theorem C32_variant_first_on_seed_zero :
    (init_context 0).rng.s0.get 0 = 1 ∧
    (skibidi_generate_variant scalar_build scalar_hive (some (init_context 0))
      (some blank_scroll) 64).2.2 = 26 ∧
    written (skibidi_generate_variant scalar_build scalar_hive (some (init_context 0))
      (some blank_scroll) 64) = cbytes "Skibidi dom dom dom no no!" ∧
    written (skibidi_generate_variant scalar_build scalar_hive (some (init_context 0))
      (some blank_scroll) 64) ≠ cbytes "Brrrrr Skibidi dom dom dom yes yes!" := by
  decide

/-- C32 (amended): after any 512 or more successful single-phrase calls of either kind
on a freshly initialised context, `s0[0]` is 0; on a context with `s0[0] = 0` every
`skibidi_generate` returns 24, writes "Skibidi dop dop yes yes!" and leaves `s0[0] = 0`,
and every `skibidi_generate_variant` returns 25, writes "Brrrrr Skibidi dom no no!" and
leaves `s0[0] = 0`.  For seed 0, where `s0[0] = 1`, `s0[0]` is 0 after one or more calls;
the first call returns 35 and writes "Brrrrr Skibidi dom dom dom yes yes!" when it is
`skibidi_generate`, and returns 26 and writes "Skibidi dom dom dom no no!" when it is
`skibidi_generate_variant`. -/
theorem C32_collapsed_outputs (build : Build) (hive : ToiletHivemind) (seed : Nat)
    (calls : List (Bool × Scroll × Nat)) (b : Scroll) (buffer_size : Nat)
    (hsz : ∀ x ∈ calls, 64 ≤ x.2.2) (hb : 64 ≤ buffer_size) :
    (512 ≤ calls.length →
      (api_calls build hive calls (init_context seed)).rng.s0.get 0 = 0) ∧
    (∀ c : SkibidiContext, c.rng.s0.get 0 = 0 →
      (skibidi_generate build hive (some c) (some b) buffer_size).2.2 = 24 ∧
      written (skibidi_generate build hive (some c) (some b) buffer_size)
        = cbytes "Skibidi dop dop yes yes!" ∧
      (skibidi_generate build hive (some c) (some b) buffer_size).1.map
        (fun c1 => c1.rng.s0.get 0) = some 0 ∧
      (skibidi_generate_variant build hive (some c) (some b) buffer_size).2.2 = 25 ∧
      written (skibidi_generate_variant build hive (some c) (some b) buffer_size)
        = cbytes "Brrrrr Skibidi dom no no!" ∧
      (skibidi_generate_variant build hive (some c) (some b) buffer_size).1.map
        (fun c1 => c1.rng.s0.get 0) = some 0) ∧
    (init_context 0).rng.s0.get 0 = 1 ∧
    (1 ≤ calls.length → (api_calls build hive calls (init_context 0)).rng.s0.get 0 = 0) ∧
    (skibidi_generate build hive (some (init_context 0)) (some b) buffer_size).2.2 = 35 ∧
    written (skibidi_generate build hive (some (init_context 0)) (some b) buffer_size)
      = cbytes "Brrrrr Skibidi dom dom dom yes yes!" ∧
    (skibidi_generate_variant build hive (some (init_context 0)) (some b) buffer_size).2.2
      = 26 ∧
    written (skibidi_generate_variant build hive (some (init_context 0)) (some b) buffer_size)
      = cbytes "Skibidi dom dom dom no no!" := by
  have hseed0 : (init_context 0).rng.s0.get 0 = 1 := by decide
  have hg : ∀ c : SkibidiContext,
      skibidi_generate build hive (some c) (some b) buffer_size
        = api_call build hive false c b buffer_size := fun _ => rfl
  have hv : ∀ c : SkibidiContext,
      skibidi_generate_variant build hive (some c) (some b) buffer_size
        = api_call build hive true c b buffer_size := fun _ => rfl
  obtain ⟨t1, t2, t3, t4, t5, t6, _, _⟩ := collapsed_texts
  refine ⟨fun hlen => ?_, fun c hc => ?_, hseed0, fun hlen => ?_, ?_, ?_, ?_, ?_⟩
  · have h := api_calls_bound build hive calls (init_context seed) (2 ^ 64 - 1) hsz
      (by have := init_s0_lt seed; omega) (by norm_num)
    have h0 : (soul_step^[calls.length]) (2 ^ 64 - 1) = 0 :=
      soul_collapses _ _ (by norm_num) hlen
    omega
  · obtain ⟨g1, g2, g3⟩ := api_call_outcome build hive false c b buffer_size hb
    obtain ⟨v1, v2, v3⟩ := api_call_outcome build hive true c b buffer_size hb
    rw [hg, hv, g1, g2, g3, v1, v2, v3, hc, t1, t2]
    refine ⟨rfl, rfl, ?_, rfl, rfl, ?_⟩
    · show some (single_next false (c.rng.s0.get 0)) = some 0
      rw [hc, t3]
    · show some (single_next true (c.rng.s0.get 0)) = some 0
      rw [hc, t4]
  · have h := api_calls_bound build hive calls (init_context 0) 1 hsz
      (by rw [hseed0]) (by norm_num)
    obtain ⟨k, hk⟩ : ∃ k, calls.length = k + 1 := ⟨calls.length - 1, by omega⟩
    rw [hk, Function.iterate_succ_apply, show soul_step 1 = 0 by decide,
      soul_iterate_zero] at h
    omega
  · rw [hg, (api_call_outcome build hive false _ b buffer_size hb).2.1, hseed0, t5]
    rfl
  · rw [hg, (api_call_outcome build hive false _ b buffer_size hb).1, hseed0, t5]
  · rw [hv, (api_call_outcome build hive true _ b buffer_size hb).2.1, hseed0, t6]
    rfl
  · rw [hv, (api_call_outcome build hive true _ b buffer_size hb).1, hseed0, t6]

theorem generate_calls_same (build1 build2 : Build) (hive1 hive2 : ToiletHivemind)
    (bufs1 bufs2 : Nat → Scroll) :
    ∀ (sizes : List Nat) (k1 k2 : Nat) (c1 c2 : SkibidiContext),
      (∀ x ∈ sizes, 64 ≤ x) → c1.rng.s0.get 0 = c2.rng.s0.get 0 →
      (generate_calls build1 hive1 bufs1 k1 c1 sizes).1
        = (generate_calls build2 hive2 bufs2 k2 c2 sizes).1 ∧
      (generate_calls build1 hive1 bufs1 k1 c1 sizes).2.rng.s0.get 0
        = (generate_calls build2 hive2 bufs2 k2 c2 sizes).2.rng.s0.get 0 := by
  intro sizes
  induction sizes with
  | nil => intro k1 k2 c1 c2 _ h; exact ⟨rfl, h⟩
  | cons sz rest ih =>
    intro k1 k2 c1 c2 hsz h
    have h64 := hsz sz (List.mem_cons_self _ _)
    obtain ⟨a1, a2, a3⟩ := api_call_outcome build1 hive1 false c1 (bufs1 k1) sz h64
    obtain ⟨b1, b2, b3⟩ := api_call_outcome build2 hive2 false c2 (bufs2 k2) sz h64
    have a1' : phrase ((skibidi_generate build1 hive1 (some c1) (some (bufs1 k1)) sz).2.1.getD
        (bufs1 k1)) (skibidi_generate build1 hive1 (some c1) (some (bufs1 k1)) sz).2.2.toNat
        = single_text false (c1.rng.s0.get 0) := by
      rw [← a1]
      unfold written api_call
      simp only [skibidi_generate, Bool.false_eq_true, if_false]
      split_ifs <;> rfl
    have b1' : phrase ((skibidi_generate build2 hive2 (some c2) (some (bufs2 k2)) sz).2.1.getD
        (bufs2 k2)) (skibidi_generate build2 hive2 (some c2) (some (bufs2 k2)) sz).2.2.toNat
        = single_text false (c2.rng.s0.get 0) := by
      rw [← b1]
      unfold written api_call
      simp only [skibidi_generate, Bool.false_eq_true, if_false]
      split_ifs <;> rfl
    have a2' : (skibidi_generate build1 hive1 (some c1) (some (bufs1 k1)) sz).2.2 = _ := a2
    have b2' : (skibidi_generate build2 hive2 (some c2) (some (bufs2 k2)) sz).2.2 = _ := b2
    have a3' : (skibidi_generate build1 hive1 (some c1) (some (bufs1 k1)) sz).1 = _ := a3
    have b3' : (skibidi_generate build2 hive2 (some c2) (some (bufs2 k2)) sz).1 = _ := b3
    have hnext : (context_after false c1).rng.s0.get 0 = (context_after false c2).rng.s0.get 0 := by
      show single_next false (c1.rng.s0.get 0) = single_next false (c2.rng.s0.get 0)
      rw [h]
    obtain ⟨i1, i2⟩ := ih (k1 + 1) (k2 + 1) (context_after false c1) (context_after false c2)
      (fun y hy => hsz y (List.mem_cons_of_mem _ hy)) hnext
    simp only [generate_calls]
    rw [a1', b1', a2', b2', a3', b3', Option.getD_some, Option.getD_some, h]
    exact ⟨by rw [i1], i2⟩

/-- C37: a successful `skibidi_generate` or `skibidi_generate_variant` call leaves the
context with a new `s0[0]` and with `call_count` incremented by 1 (as a 64-bit counter);
`s0[1..3]`, `s1`, `buffer`, `buffer_idx`, `_padding` and all reserved words are as
before.  The phrase, the returned length and the next `s0[0]` are functions of `s0[0]`
alone, so two contexts that agree in `s0[0]` produce the same sequence of lengths and
phrases. -/
theorem C37_call_frame (build : Build) (hive : ToiletHivemind) (c : SkibidiContext)
    (b : Scroll) (buffer_size : Nat) (h : 64 ≤ buffer_size) :
    (skibidi_generate build hive (some c) (some b) buffer_size).1
      = some (context_after false c) ∧
    (skibidi_generate_variant build hive (some c) (some b) buffer_size).1
      = some (context_after true c) ∧
    (∀ variant : Bool,
      (context_after variant c).rng.s0.w1 = c.rng.s0.w1 ∧
      (context_after variant c).rng.s0.w2 = c.rng.s0.w2 ∧
      (context_after variant c).rng.s0.w3 = c.rng.s0.w3 ∧
      (context_after variant c).rng.s1 = c.rng.s1 ∧
      (context_after variant c).rng.buffer = c.rng.buffer ∧
      (context_after variant c).rng.buffer_idx = c.rng.buffer_idx ∧
      (context_after variant c).rng._padding = c.rng._padding ∧
      (context_after variant c).rng.reserved0 = c.rng.reserved0 ∧
      (context_after variant c).rng.reserved1 = c.rng.reserved1 ∧
      (context_after variant c).reserved = c.reserved ∧
      (context_after variant c).call_count = (c.call_count + 1) % 2 ^ 64 ∧
      (c.call_count + 1 < 2 ^ 64 → (context_after variant c).call_count = c.call_count + 1)) ∧
    (∀ (build2 : Build) (hive2 : ToiletHivemind) (c2 : SkibidiContext) (b2 : Scroll)
        (size2 : Nat), 64 ≤ size2 → c2.rng.s0.get 0 = c.rng.s0.get 0 →
      (skibidi_generate build2 hive2 (some c2) (some b2) size2).2.2
        = (skibidi_generate build hive (some c) (some b) buffer_size).2.2 ∧
      written (skibidi_generate build2 hive2 (some c2) (some b2) size2)
        = written (skibidi_generate build hive (some c) (some b) buffer_size) ∧
      (skibidi_generate_variant build2 hive2 (some c2) (some b2) size2).2.2
        = (skibidi_generate_variant build hive (some c) (some b) buffer_size).2.2 ∧
      written (skibidi_generate_variant build2 hive2 (some c2) (some b2) size2)
        = written (skibidi_generate_variant build hive (some c) (some b) buffer_size) ∧
      (∀ variant : Bool, (context_after variant c2).rng.s0.get 0
        = (context_after variant c).rng.s0.get 0)) ∧
    (∀ (build2 : Build) (hive2 : ToiletHivemind) (c2 : SkibidiContext)
        (bufs bufs2 : Nat → Scroll) (sizes : List Nat),
      (∀ x ∈ sizes, 64 ≤ x) → c2.rng.s0.get 0 = c.rng.s0.get 0 →
      (generate_calls build2 hive2 bufs2 0 c2 sizes).1
        = (generate_calls build hive bufs 0 c sizes).1) := by
  have hg : ∀ (bd : Build) (hv : ToiletHivemind) (cc : SkibidiContext) (bb : Scroll) (sz : Nat),
      skibidi_generate bd hv (some cc) (some bb) sz = api_call bd hv false cc bb sz :=
    fun _ _ _ _ _ => rfl
  have hv : ∀ (bd : Build) (hv : ToiletHivemind) (cc : SkibidiContext) (bb : Scroll) (sz : Nat),
      skibidi_generate_variant bd hv (some cc) (some bb) sz = api_call bd hv true cc bb sz :=
    fun _ _ _ _ _ => rfl
  refine ⟨?_, ?_, fun variant => ?_, ?_, ?_⟩
  · rw [hg]; exact (api_call_outcome build hive false c b buffer_size h).2.2
  · rw [hv]; exact (api_call_outcome build hive true c b buffer_size h).2.2
  · refine ⟨rfl, rfl, rfl, rfl, rfl, rfl, rfl, rfl, rfl, rfl, rfl, fun hlt => ?_⟩
    exact Nat.mod_eq_of_lt hlt
  · intro build2 hive2 c2 b2 size2 h2 heq
    obtain ⟨g1, g2, _⟩ := api_call_outcome build hive false c b buffer_size h
    obtain ⟨v1, v2, _⟩ := api_call_outcome build hive true c b buffer_size h
    obtain ⟨g1', g2', _⟩ := api_call_outcome build2 hive2 false c2 b2 size2 h2
    obtain ⟨v1', v2', _⟩ := api_call_outcome build2 hive2 true c2 b2 size2 h2
    rw [hg, hg, hv, hv, g1, g2, v1, v2, g1', g2', v1', v2', heq]
    refine ⟨rfl, rfl, rfl, rfl, fun variant => ?_⟩
    show single_next variant (c2.rng.s0.get 0) = single_next variant (c.rng.s0.get 0)
    rw [heq]
  · intro build2 hive2 c2 bufs bufs2 sizes hsz heq
    exact (generate_calls_same build2 build hive2 hive bufs2 bufs sizes 0 0 c2 c hsz heq).1

/-! ## Words and bytes of a phrase -/

theorem starts_left {s : Scroll} {a b : List Nat} (h : StartsWith s (a ++ b)) :
    StartsWith s a := by
  intro i hi
  rw [h i (by rw [List.length_append]; omega), List.getD_append _ _ _ _ hi]

theorem entropy_text_plain (D1 D2 : Nat) (h : 69 ≤ (D1 >>> 48) &&& 0xFF) :
    entropy_text D1 D2
      = cbytes "Skibidi " ++ (entropy_lead_words D2 (word_count D1) ++ [32]
          ++ verdict_text ((D1 >>> 32) &&& 0xFF) D2) := by
  unfold entropy_text
  rw [if_neg (by omega)]
  simp only [List.nil_append, List.append_assoc]

/-- C33: when bits 55..48 of `D1` are at least 69, `toilet_speak_with_entropy` writes
"Skibidi " and then the lead words and the verdict, with no "Brrrrr " before the name;
and an item of a group is handed to it exactly when its mask bit is clear, which is when
bits 55..48 of its first draw are at least 69. -/
theorem C33_group_items_without_prefix (s : Scroll) (D1 D2 : Nat)
    (h : 69 ≤ (D1 >>> 48) &&& 0xFF) :
    phrase (toilet_speak_with_entropy s D1 D2).1 (toilet_speak_with_entropy s D1 D2).2
      = cbytes "Skibidi " ++ (entropy_lead_words D2 (word_count D1) ++ [32]
          ++ verdict_text ((D1 >>> 32) &&& 0xFF) D2) ∧
    phrase (toilet_speak_with_entropy s D1 D2).1 8 = cbytes "Skibidi " ∧
    ¬ (cbytes "Brrrrr " <+:
      phrase (toilet_speak_with_entropy s D1 D2).1 (toilet_speak_with_entropy s D1 D2).2) ∧
    (∀ (entropy1 : Quad) (i : Fin 4), (prophecy_mask entropy1 >>> i.val) &&& 1 = 0 →
      69 ≤ (entropy1.get i >>> 48) &&& 0xFF) := by
  have hp := entropy_phrase s D1 D2
  have ht := entropy_text_plain D1 D2 h
  have hst : StartsWith (toilet_speak_with_entropy s D1 D2).1 (cbytes "Skibidi ") := by
    have := (entropy_writes s D1 D2).2
    rw [ht] at this
    exact starts_left this
  refine ⟨by rw [hp, ht], phrase_of_starts hst 8 rfl, ?_, ?_⟩
  · rw [hp, ht]
    intro hpre
    have h0 := List.IsPrefix.getElem hpre (show 0 < (cbytes "Brrrrr ").length by decide)
    revert h0
    simp [cbytes]
  · intro entropy1 i hbit
    rw [prophecy_mask_bit] at hbit
    split_ifs at hbit with hlt
    omega

theorem C33_group_items_without_prefix_witness :
    69 ≤ (draw_D1 (init_context 0) >>> 48) &&& 0xFF ∧
    phrase (toilet_speak_with_entropy blank_scroll (draw_D1 (init_context 0))
        (draw_D2 (init_context 0))).1
      (toilet_speak_with_entropy blank_scroll (draw_D1 (init_context 0))
        (draw_D2 (init_context 0))).2
      = cbytes "Skibidi " ++ (entropy_lead_words (draw_D2 (init_context 0))
            (word_count (draw_D1 (init_context 0))) ++ [32]
          ++ verdict_text ((draw_D1 (init_context 0) >>> 32) &&& 0xFF)
            (draw_D2 (init_context 0))) ∧
    phrase (toilet_speak_with_entropy blank_scroll (draw_D1 (init_context 0))
      (draw_D2 (init_context 0))).1 8 = cbytes "Skibidi " ∧
    ¬ (cbytes "Brrrrr " <+:
      phrase (toilet_speak_with_entropy blank_scroll (draw_D1 (init_context 0))
          (draw_D2 (init_context 0))).1
        (toilet_speak_with_entropy blank_scroll (draw_D1 (init_context 0))
          (draw_D2 (init_context 0))).2) ∧
    (∀ (entropy1 : Quad) (i : Fin 4), (prophecy_mask entropy1 >>> i.val) &&& 1 = 0 →
      69 ≤ (entropy1.get i >>> 48) &&& 0xFF) :=
  ⟨by decide,
    C33_group_items_without_prefix blank_scroll (draw_D1 (init_context 0))
      (draw_D2 (init_context 0)) (by decide)⟩

theorem entropy_fifth_word (D2 : Nat) :
    entropy_lead_word D2 4 = if (D2 >>> 12) &&& 7 = 0 then cbytes "dom" else cbytes "dop" := by
  unfold entropy_lead_word
  by_cases h : (D2 >>> 12) &&& 7 = 0
  · rw [if_pos h, show 3 * 4 = 12 from rfl, decide_eq_true h, if_pos rfl]
    decide
  · rw [if_neg h, show 3 * 4 = 12 from rfl, decide_eq_false h, if_pos rfl]
    decide

/-- Lead word `k` of the batch assembler's text, at offset `flag * 7 + 8 + 4k`. -/
theorem entropy_word_slice (D1 D2 k : Nat) (hk : k < word_count D1) :
    ((entropy_text D1 D2).drop
        ((if (D1 >>> 48) &&& 0xFF < 38 then 1 else 0) * 7 + 8 + 4 * k)).take 3
      = entropy_lead_word D2 k := by
  have hwc := word_count_bounds D1
  have hlen : ((if (D1 >>> 48) &&& 0xFF < 38 then cbytes "Brrrrr " else [])
      ++ cbytes "Skibidi ").length = (if (D1 >>> 48) &&& 0xFF < 38 then 1 else 0) * 7 + 8 := by
    split_ifs <;> rfl
  have ht : entropy_text D1 D2
      = ((if (D1 >>> 48) &&& 0xFF < 38 then cbytes "Brrrrr " else []) ++ cbytes "Skibidi ")
          ++ lead_words (fifth_cleared D2) (word_count D1)
          ++ ([32] ++ verdict_text ((D1 >>> 32) &&& 0xFF) D2) := by
    unfold entropy_text
    rw [entropy_lead_words_eq D2 _ hwc.2]
    simp only [List.append_assoc]
  rw [ht, ← hlen, text_word_slice _ _ _ _ k hk hwc.2, entropy_lead_word_eq D2 k (by omega)]

/-- C34: with a word count of 5 the fifth lead word written by
`toilet_speak_with_entropy` (three bytes at offset `flag * 7 + 24`) is exactly "dom" when
bits 14..12 of `D2` are zero and exactly "dop" otherwise: its table index is
`(zodiac_bits >> 20) & 0 = 0`, whatever bits 44..40 of `D2` are. -/
theorem C34_fifth_word_lowercase (s : Scroll) (D1 D2 : Nat) (h5 : word_count D1 = 5) :
    ((phrase (toilet_speak_with_entropy s D1 D2).1 (toilet_speak_with_entropy s D1 D2).2).drop
        ((if (D1 >>> 48) &&& 0xFF < 38 then 1 else 0) * 7 + 8 + 16)).take 3
      = (if (D2 >>> 12) &&& 7 = 0 then cbytes "dom" else cbytes "dop") ∧
    (∀ E2 : Nat, (E2 >>> 12) &&& 7 = (D2 >>> 12) &&& 7 →
      ((phrase (toilet_speak_with_entropy s D1 E2).1
          (toilet_speak_with_entropy s D1 E2).2).drop
          ((if (D1 >>> 48) &&& 0xFF < 38 then 1 else 0) * 7 + 8 + 16)).take 3
        = ((phrase (toilet_speak_with_entropy s D1 D2).1
          (toilet_speak_with_entropy s D1 D2).2).drop
          ((if (D1 >>> 48) &&& 0xFF < 38 then 1 else 0) * 7 + 8 + 16)).take 3) ∧
    (∀ zodiac_bits : Nat, DOP_ZODIAC_CHART.getD ((zodiac_bits >>> 20) &&& 0) 0 = 0) := by
  have key : ∀ E2 : Nat,
      ((phrase (toilet_speak_with_entropy s D1 E2).1
          (toilet_speak_with_entropy s D1 E2).2).drop
          ((if (D1 >>> 48) &&& 0xFF < 38 then 1 else 0) * 7 + 8 + 16)).take 3
        = (if (E2 >>> 12) &&& 7 = 0 then cbytes "dom" else cbytes "dop") := by
    intro E2
    rw [entropy_phrase, ← entropy_fifth_word]
    exact entropy_word_slice D1 E2 4 (by omega)
  refine ⟨key D2, fun E2 hE => ?_, fun z => ?_⟩
  · rw [key E2, key D2, hE]
  · rw [Nat.and_zero]
    rfl

set_option maxRecDepth 100000 in
theorem C34_fifth_word_lowercase_witness :
    word_count (draw_D1 (init_context 288)) = 5 ∧
    (((phrase (toilet_speak_with_entropy blank_scroll (draw_D1 (init_context 288))
          (draw_D2 (init_context 288))).1
        (toilet_speak_with_entropy blank_scroll (draw_D1 (init_context 288))
          (draw_D2 (init_context 288))).2).drop
        ((if (draw_D1 (init_context 288) >>> 48) &&& 0xFF < 38 then 1 else 0) * 7 + 8 + 16)).take
          3
      = (if (draw_D2 (init_context 288) >>> 12) &&& 7 = 0 then cbytes "dom"
          else cbytes "dop")) :=
  ⟨by decide,
    (C34_fifth_word_lowercase blank_scroll (draw_D1 (init_context 288))
      (draw_D2 (init_context 288)) (by decide)).1⟩

/-- The verdict of the expanded text, at offset `flag * 7 + 8 + 4 * word_count`. -/
theorem expanded_verdict_slice (m : Bool) (D1 D2 : Nat) :
    (expanded_text m D1 D2).drop
        ((if prefix_byte m D1 < 38 then 1 else 0) * 7 + 8 + 4 * word_count D1)
      = verdict_text (verdict_byte m D1) D2 := by
  have hwc := word_count_bounds D1
  have hlen : (((if prefix_byte m D1 < 38 then cbytes "Brrrrr " else [])
      ++ cbytes "Skibidi ") ++ lead_words D2 (word_count D1) ++ [32]).length
      = (if prefix_byte m D1 < 38 then 1 else 0) * 7 + 8 + 4 * word_count D1 := by
    rw [List.length_append, List.length_append, lead_words_length D2 _ hwc.1 hwc.2,
      List.length_singleton]
    have : ((if prefix_byte m D1 < 38 then cbytes "Brrrrr " else [])
        ++ cbytes "Skibidi ").length = (if prefix_byte m D1 < 38 then 1 else 0) * 7 + 8 := by
      split_ifs <;> rfl
    rw [this]
    omega
  have ht : expanded_text m D1 D2
      = (((if prefix_byte m D1 < 38 then cbytes "Brrrrr " else []) ++ cbytes "Skibidi ")
          ++ lead_words D2 (word_count D1) ++ [32]) ++ verdict_text (verdict_byte m D1) D2 := by
    unfold expanded_text
    simp only [List.append_assoc]
  rw [ht, ← hlen, List.drop_left]

theorem chart_class_high (i : Nat) (hi : i < 32) (h : 2 ≤ DOP_ZODIAC_CHART.getD i 0) :
    26 ≤ i := by
  interval_cases i <;> first | omega | (revert h; decide)

theorem yes_word_not_plain (i : Nat) (hi : i < 32) (h : 2 ≤ DOP_ZODIAC_CHART.getD i 0) :
    yes_word i ≠ cbytes "yes" := by
  have h26 := chart_class_high i hi h
  interval_cases i <;> decide

theorem same_case_pattern (d : Bool) (z : Nat) (hz : z ≤ 7) :
    case_pattern (rune_text d z) = case_pattern (peek TOILET_APPROVAL_MULTIVERSE (z * 4) 3) := by
  cases d <;> interval_cases z <;> decide

/-- The written phrase of a call that takes the expanded path. -/
theorem api_call_expanded (build : Build) (hive : ToiletHivemind) (variant : Bool)
    (c : SkibidiContext) (b : Scroll) (buffer_size : Nat) (h : 64 ≤ buffer_size)
    (hexp : variant = true ∨ 69 ≤ (draw_D1 c >>> 48) &&& 0xFF) :
    written (api_call build hive variant c b buffer_size)
      = expanded_text (!variant) (draw_D1 c) (draw_D2 c) := by
  rw [(api_call_outcome build hive variant c b buffer_size h).1]
  unfold single_text
  rw [if_neg]
  · rfl
  · rintro ⟨h1, h2⟩
    rcases hexp with hv | hv
    · exact h1 hv
    · have : (draw_D1 c >>> 48) &&& 0xFF < 69 := h2
      omega

/-- C35: on the expanded path of either call, with five lead words and an approving
verdict, the fifth lead word (three bytes at offset `off + 16`, `off` the end of the
name) is entry `cls` of its table, `cls` the class of the index in bits 44..40 of `D2`;
the verdict starts at `off + 20`, and when `cls >= 2` it is not the "yes yes!" template:
its first word is entry `cls` of the approval table, with the capitalisation of the
fifth lead word. -/
theorem C35_fifth_word_shares_verdict_index (build : Build) (hive : ToiletHivemind)
    (variant : Bool) (c : SkibidiContext) (b : Scroll) (buffer_size : Nat)
    (h : 64 ≤ buffer_size)
    (hexp : variant = true ∨ 69 ≤ (draw_D1 c >>> 48) &&& 0xFF)
    (h5 : word_count (draw_D1 c) = 5)
    (happ : 38 ≤ verdict_byte (!variant) (draw_D1 c)) :
    ((written (api_call build hive variant c b buffer_size)).drop
        ((if prefix_byte (!variant) (draw_D1 c) < 38 then 1 else 0) * 7 + 8 + 16)).take 3
      = rune_text (decide ((draw_D2 c >>> 12) &&& 7 = 0))
          (DOP_ZODIAC_CHART.getD ((draw_D2 c >>> 40) &&& 31) 0) ∧
    (written (api_call build hive variant c b buffer_size)).drop
        ((if prefix_byte (!variant) (draw_D1 c) < 38 then 1 else 0) * 7 + 8 + 20)
      = approval_text ((draw_D2 c >>> 40) &&& 31) ((draw_D2 c >>> 45) &&& 31) ∧
    (2 ≤ DOP_ZODIAC_CHART.getD ((draw_D2 c >>> 40) &&& 31) 0 →
      (written (api_call build hive variant c b buffer_size)).drop
          ((if prefix_byte (!variant) (draw_D1 c) < 38 then 1 else 0) * 7 + 8 + 20)
        ≠ cbytes "yes yes!" ∧
      ((written (api_call build hive variant c b buffer_size)).drop
          ((if prefix_byte (!variant) (draw_D1 c) < 38 then 1 else 0) * 7 + 8 + 20)).take 3
        = peek TOILET_APPROVAL_MULTIVERSE
            (DOP_ZODIAC_CHART.getD ((draw_D2 c >>> 40) &&& 31) 0 * 4) 3 ∧
      case_pattern
          (((written (api_call build hive variant c b buffer_size)).drop
            ((if prefix_byte (!variant) (draw_D1 c) < 38 then 1 else 0) * 7 + 8 + 16)).take 3)
        = case_pattern
          (((written (api_call build hive variant c b buffer_size)).drop
            ((if prefix_byte (!variant) (draw_D1 c) < 38 then 1 else 0) * 7 + 8 + 20)).take
              3)) := by
  have hw := api_call_expanded build hive variant c b buffer_size h hexp
  have hword := expanded_word_slice (!variant) (draw_D1 c) (draw_D2 c) 4 (by omega)
  have hverd := expanded_verdict_slice (!variant) (draw_D1 c) (draw_D2 c)
  rw [h5] at hverd
  have hvt : verdict_text (verdict_byte (!variant) (draw_D1 c)) (draw_D2 c)
      = approval_text ((draw_D2 c >>> 40) &&& 31) ((draw_D2 c >>> 45) &&& 31) := by
    unfold verdict_text
    rw [if_pos happ]
  have hlw : lead_word (draw_D2 c) 4
      = rune_text (decide ((draw_D2 c >>> 12) &&& 7 = 0))
          (DOP_ZODIAC_CHART.getD ((draw_D2 c >>> 40) &&& 31) 0) := rfl
  rw [hw, hword, hverd, hvt, hlw]
  refine ⟨rfl, rfl, fun hcls => ?_⟩
  have h26 := chart_class_high _ (and_31_lt _) hcls
  have hat : approval_text ((draw_D2 c >>> 40) &&& 31) ((draw_D2 c >>> 45) &&& 31)
      = yes_word ((draw_D2 c >>> 40) &&& 31) ++ ([32] ++ yes_word ((draw_D2 c >>> 45) &&& 31)
          ++ [33]) := by
    unfold approval_text approval_by_lookup
    rw [if_neg (by omega)]
    simp only [List.append_assoc]
  have htake : (approval_text ((draw_D2 c >>> 40) &&& 31) ((draw_D2 c >>> 45) &&& 31)).take 3
      = yes_word ((draw_D2 c >>> 40) &&& 31) := by
    rw [hat, List.take_left' (yes_word_length _)]
  refine ⟨fun heq => ?_, ?_, ?_⟩
  · have := congrArg (fun l => l.take 3) heq
    simp only [htake] at this
    exact yes_word_not_plain _ (and_31_lt _) hcls this
  · rw [htake]
    rfl
  · rw [htake]
    exact same_case_pattern _ _ (zodiac_le_7 _ (and_31_lt _))

theorem rune_text_letters (d : Bool) (z : Nat) (hz : z ≤ 7) :
    ∀ x ∈ rune_text d z, letter_or_space x = true := by
  cases d <;> interval_cases z <;> decide

theorem words_upto_letters (D2 m : Nat) : ∀ x ∈ words_upto D2 m, letter_or_space x = true := by
  induction m with
  | zero => exact rune_text_letters _ _ (zodiac_le_7 _ (and_31_lt _))
  | succ m ih =>
    intro x hx
    rw [show words_upto D2 (m + 1) = words_upto D2 m ++ [32] ++ lead_word D2 (m + 1) from rfl,
      List.mem_append, List.mem_append, List.mem_singleton] at hx
    rcases hx with (hx | hx) | hx
    · exact ih x hx
    · subst hx; rfl
    · exact rune_text_letters _ _ (zodiac_le_7 _ (and_31_lt _)) x hx

theorem yes_word_letters (i : Nat) (h : i < 32) :
    ∀ x ∈ yes_word i, letter_or_space x = true := by
  interval_cases i <;> decide

theorem no_word_letters (i : Nat) (h : i < 32) :
    ∀ x ∈ no_word i, letter_or_space x = true := by
  interval_cases i <;> decide

/-- Every verdict is letters and spaces followed by one '!'. -/
theorem verdict_text_shape (t D2 : Nat) :
    ∃ body, verdict_text t D2 = body ++ [33] ∧ ∀ x ∈ body, letter_or_space x = true := by
  unfold verdict_text approval_text rejection_text approval_by_lookup rejection_by_lookup
  split_ifs
  · exact ⟨cbytes "yes yes", by decide, by decide⟩
  · refine ⟨yes_word ((D2 >>> 40) &&& 31) ++ [32] ++ yes_word ((D2 >>> 45) &&& 31), rfl, ?_⟩
    intro x hx
    simp only [List.mem_append, List.mem_singleton] at hx
    rcases hx with (hx | hx) | hx
    · exact yes_word_letters _ (and_31_lt _) x hx
    · subst hx; rfl
    · exact yes_word_letters _ (and_31_lt _) x hx
  · exact ⟨cbytes "no no", by decide, by decide⟩
  · refine ⟨no_word ((D2 >>> 50) &&& 31) ++ [32] ++ no_word ((D2 >>> 55) &&& 31), rfl, ?_⟩
    intro x hx
    simp only [List.mem_append, List.mem_singleton] at hx
    rcases hx with (hx | hx) | hx
    · exact no_word_letters _ (and_31_lt _) x hx
    · subst hx; rfl
    · exact no_word_letters _ (and_31_lt _) x hx

/-- Every expanded text is letters and spaces followed by one '!'. -/
theorem expanded_text_shape (m : Bool) (D1 D2 : Nat) :
    ∃ body, expanded_text m D1 D2 = body ++ [33] ∧ ∀ x ∈ body, letter_or_space x = true := by
  have hwc := word_count_bounds D1
  have hb : ∀ x ∈ cbytes "Brrrrr ", letter_or_space x = true := by decide
  have hs : ∀ x ∈ cbytes "Skibidi ", letter_or_space x = true := by decide
  obtain ⟨vb, hv, hvb⟩ := verdict_text_shape (verdict_byte m D1) D2
  refine ⟨(if prefix_byte m D1 < 38 then cbytes "Brrrrr " else []) ++ cbytes "Skibidi "
    ++ lead_words D2 (word_count D1) ++ [32] ++ vb, ?_, ?_⟩
  · unfold expanded_text
    rw [hv]
    simp only [List.append_assoc]
  · intro x hx
    rw [lead_words_eq D2 _ hwc.1 hwc.2] at hx
    simp only [List.mem_append, List.mem_singleton] at hx
    rcases hx with (((hx | hx) | hx) | hx) | hx
    · split_ifs at hx
      · exact hb x hx
      · exact absurd hx (List.not_mem_nil x)
    · exact hs x hx
    · exact words_upto_letters D2 _ x hx
    · subst hx; rfl
    · exact hvb x hx

theorem single_text_shape (variant : Bool) (s : Nat) :
    ∃ body, single_text variant s = body ++ [33] ∧ ∀ x ∈ body, letter_or_space x = true := by
  unfold single_text
  split_ifs
  · exact ⟨cbytes "Skibidi dop dop yes yes", by decide, by decide⟩
  · exact expanded_text_shape _ _ _

theorem letter_not_control (x : Nat) (h : letter_or_space x = true) :
    x ≠ 0 ∧ x ≠ 10 ∧ x ≠ 33 := by
  unfold letter_or_space at h
  simp only [Bool.or_eq_true, Bool.and_eq_true, decide_eq_true_eq, beq_iff_eq] at h
  omega

set_option maxRecDepth 100000 in
/-- C36: for both calls the phrase written (the first `L` bytes, `L` the returned
length) is letters and spaces followed by one '!' at offset `L - 1`; so none of the
first `L` bytes is NUL or newline, although the word tables and the rejection template
hold NUL bytes. -/
theorem C36_phrase_bytes (build : Build) (hive : ToiletHivemind) (c : SkibidiContext)
    (b : Scroll) (buffer_size : Nat) (h : 64 ≤ buffer_size) :
    (∃ body,
      written (skibidi_generate build hive (some c) (some b) buffer_size) = body ++ [33] ∧
      (skibidi_generate build hive (some c) (some b) buffer_size).2.2
        = ((body.length + 1 : Nat) : Int) ∧
      (∀ x ∈ body, letter_or_space x = true) ∧
      (∀ x ∈ body ++ [33], x ≠ 0 ∧ x ≠ 10)) ∧
    (∃ body,
      written (skibidi_generate_variant build hive (some c) (some b) buffer_size)
        = body ++ [33] ∧
      (skibidi_generate_variant build hive (some c) (some b) buffer_size).2.2
        = ((body.length + 1 : Nat) : Int) ∧
      (∀ x ∈ body, letter_or_space x = true) ∧
      (∀ x ∈ body ++ [33], x ≠ 0 ∧ x ≠ 10)) ∧
    (0 ∈ DOP_MULTIVERSE ∧ 0 ∈ DOM_DISGUISE_MULTIVERSE ∧ 0 ∈ TOILET_APPROVAL_MULTIVERSE ∧
      0 ∈ TOILET_REJECTION_MULTIVERSE ∧ 0 ∈ INSTANT_TOILET_REJECTION ∧ 0 ∈ SACRED_PROPHECY) := by
  have key : ∀ variant : Bool, ∃ body,
      written (api_call build hive variant c b buffer_size) = body ++ [33] ∧
      (api_call build hive variant c b buffer_size).2.2 = ((body.length + 1 : Nat) : Int) ∧
      (∀ x ∈ body, letter_or_space x = true) ∧
      (∀ x ∈ body ++ [33], x ≠ 0 ∧ x ≠ 10) := by
    intro variant
    obtain ⟨o1, o2, _⟩ := api_call_outcome build hive variant c b buffer_size h
    obtain ⟨body, hb1, hb2⟩ := single_text_shape variant (c.rng.s0.get 0)
    refine ⟨body, by rw [o1, hb1], ?_, hb2, ?_⟩
    · rw [o2, hb1, List.length_append, List.length_singleton]
    · intro x hx
      rw [List.mem_append, List.mem_singleton] at hx
      rcases hx with hx | hx
      · exact ⟨(letter_not_control x (hb2 x hx)).1, (letter_not_control x (hb2 x hx)).2.1⟩
      · subst hx
        exact ⟨by decide, by decide⟩
  exact ⟨key false, key true, by decide⟩

/-! ## Full batches -/

theorem batch_text_le (ps : List (List Nat)) (h : ∀ p ∈ ps, p.length ≤ 43) :
    (batch_text ps).length ≤ 44 * ps.length := by
  induction ps with
  | nil => simp [batch_text]
  | cons q qs ih =>
    have hq := h q (List.mem_cons_self _ _)
    have := ih (fun p hp => h p (List.mem_cons_of_mem _ hp))
    simp only [batch_text, List.length_append, List.length_singleton, List.length_cons,
      List.length_nil]
    omega

/-- A valid batch call under any tier: the final loop state, its layout, and the reason
it stopped. -/
theorem batch_run (build : Build) (hive : ToiletHivemind) (c : SkibidiContext) (b : Scroll)
    (buffer_size : Nat) (count : Int) (lengths : Option (Nat → Int)) (hs : 64 ≤ buffer_size)
    (hc : 1 ≤ count) :
    ∃ (st : Factory) (ps : List (List Nat)),
      skibidi_generate_batch build hive (some c) (some b) buffer_size count lengths
        = (some st.ctx, some st.scroll, st.inscription_lengths, (st.toilets_flushed : Int)) ∧
      BatchInv b lengths buffer_size st ps ∧ ps.length ≤ count.toNat ∧
      (ps.length = count.toNat ∨ buffer_size < (batch_text ps).length + 64) := by
  have hsz : ¬ buffer_size < SKIBIDI_MIN_BUFFER_SIZE := by
    simp only [SKIBIDI_MIN_BUFFER_SIZE]; omega
  unfold skibidi_generate_batch
  dsimp only
  rw [if_neg hsz, if_neg (by omega)]
  by_cases ht : build.TOILET_HAS_RIZZ_256 = true ∧ hive.flush_strategy ≥ 1
  · rw [if_pos ht]
    obtain ⟨ps, h1, h2, h3⟩ := factory_inv build hive c b buffer_size count.toNat lengths
    exact ⟨_, ps, rfl, h1, h2, h3⟩
  · rw [if_neg ht]
    obtain ⟨ps, h1, h2, h3⟩ := scalar_loop_inv build hive b lengths count.toNat buffer_size
      count.toNat 0 ⟨c, b, lengths, 0, 0⟩ [] (batch_inv_start b lengths buffer_size c) rfl
      (Nat.zero_le _)
    exact ⟨_, ps, rfl, h1, h2, h3 (by omega)⟩

/-- C38: under every tier, for `1 <= count <= INT_MAX - 4` (so that no `int` counter of
the source can overflow) and `buffer_size >= 64 + 44 * (count - 1)`, a batch call on a
context and a buffer returns exactly `count`; in particular it returns at least 1
whenever `buffer_size >= 64`. -/
theorem C38_batch_fills_quota (build : Build) (hive : ToiletHivemind) (c : SkibidiContext)
    (b : Scroll) (buffer_size : Nat) (count : Int) (lengths : Option (Nat → Int))
    (hc : 1 ≤ count) (_hmax : count ≤ 2147483643)
    (hroom : 64 + 44 * (count - 1) ≤ (buffer_size : Int)) :
    (skibidi_generate_batch build hive (some c) (some b) buffer_size count lengths).2.2.2
      = count ∧
    (∀ (size1 : Nat), 64 ≤ size1 →
      1 ≤ (skibidi_generate_batch build hive (some c) (some b) size1 count lengths).2.2.2) := by
  have full : ∀ (size1 : Nat) (n : Int), 1 ≤ n → n ≤ count → 64 + 44 * (n - 1) ≤ (size1 : Int) →
      n ≤ (skibidi_generate_batch build hive (some c) (some b) size1 count lengths).2.2.2 := by
    intro size1 n hn hnc hr
    obtain ⟨st, ps, hres, hinv, hle, hstop⟩ := batch_run build hive c b size1 count lengths
      (by omega) hc
    have hlen := batch_text_le ps (fun p hp => (hinv.good p hp).2.1)
    rw [hres]
    show n ≤ (st.toilets_flushed : Int)
    rw [hinv.flushed]
    rcases hstop with h | h
    · omega
    · omega
  constructor
  · obtain ⟨st, ps, hres, hinv, hle, _⟩ := batch_run build hive c b buffer_size count lengths
      (by omega) hc
    have h1 := full buffer_size count hc (le_refl _) hroom
    have h2 : (skibidi_generate_batch build hive (some c) (some b) buffer_size count
        lengths).2.2.2 ≤ count := by
      rw [hres]
      show (st.toilets_flushed : Int) ≤ count
      rw [hinv.flushed]
      omega
    omega
  · intro size1 h64
    exact full size1 1 (le_refl _) hc (by omega)

/-- What the core generator writes in `skibidi_generate` mode, as a function of the
primary state word. -/
theorem speak_ultra_single (build : Build) (hive : ToiletHivemind) (rng : SkibidiRngState)
    (s : Scroll) :
    (toilet_speak_ultra build hive rng s true).2.2
        = (single_text false (rng.s0.get 0)).length ∧
    phrase (toilet_speak_ultra build hive rng s true).2.1
        (toilet_speak_ultra build hive rng s true).2.2
      = single_text false (rng.s0.get 0) := by
  have hfuel : soul_fuel (rng.s0.get 0) = (toilet_flush_entropy rng).1 := rfl
  by_cases hf : (soul_fuel (rng.s0.get 0) >>> 48) &&& 0xFF < 69
  · have hfast := speak_ultra_fast build hive rng s hf
    have ht : single_text false (rng.s0.get 0) = cbytes "Skibidi dop dop yes yes!" := by
      simp [single_text, hf]
    rw [ht, hfast.2.1]
    exact ⟨rfl, hfast.2.2⟩
  · have hslow := speak_ultra_slow build hive rng s true (fun hc => hf hc.2)
    have ht : single_text false (rng.s0.get 0)
        = expanded_text true (soul_fuel (rng.s0.get 0))
            (soul_fuel (soul_step (rng.s0.get 0))) := by
      simp [single_text, hf]
    have hw := expanded_writes (toilet_flush_entropy rng).2 s true (toilet_flush_entropy rng).1
    have hp := expanded_phrase (toilet_flush_entropy rng).2 s true (toilet_flush_entropy rng).1
    rw [second_draw] at hw hp
    rw [hslow, ht]
    exact ⟨hw.1, hp⟩

theorem generate_calls_cons (build : Build) (hive : ToiletHivemind) (bufs : Nat → Scroll)
    (k : Nat) (c : SkibidiContext) (sz : Nat) (rest : List Nat) (h : 64 ≤ sz) :
    generate_calls build hive bufs k c (sz :: rest)
      = ((((single_text false (c.rng.s0.get 0)).length : Int),
            single_text false (c.rng.s0.get 0))
          :: (generate_calls build hive bufs (k + 1) (context_after false c) rest).1,
        (generate_calls build hive bufs (k + 1) (context_after false c) rest).2) := by
  obtain ⟨a1, a2, a3⟩ := api_call_outcome build hive false c (bufs k) sz h
  have a1' : phrase ((skibidi_generate build hive (some c) (some (bufs k)) sz).2.1.getD
      (bufs k)) (skibidi_generate build hive (some c) (some (bufs k)) sz).2.2.toNat
      = single_text false (c.rng.s0.get 0) := by
    rw [← a1]
    unfold written api_call
    simp only [skibidi_generate, Bool.false_eq_true, if_false]
    split_ifs <;> rfl
  have a2' : (skibidi_generate build hive (some c) (some (bufs k)) sz).2.2 = _ := a2
  have a3' : (skibidi_generate build hive (some c) (some (bufs k)) sz).1 = _ := a3
  simp only [generate_calls]
  rw [a1', a2', a3', Option.getD_some]

theorem bookkeeping_ctx (st : Factory) (build : Build) (hive : ToiletHivemind) (s : Scroll)
    (slot : Nat) :
    (batch_bookkeeping st (toilet_speak_ultra build hive st.ctx.rng s true).1
      (toilet_speak_ultra build hive st.ctx.rng s true).2.1
      (toilet_speak_ultra build hive st.ctx.rng s true).2.2 slot).ctx
      = context_after false st.ctx := by
  show (⟨(toilet_speak_ultra build hive st.ctx.rng s true).1,
    (st.ctx.call_count + 1) % 2 ^ 64, st.ctx.reserved⟩ : SkibidiContext) = _
  rw [speak_ultra_rng]
  simp [context_after, single_next]

/-- With room for every remaining phrase the scalar loop appends exactly the phrases of
as many successive `skibidi_generate` calls and ends in their final context. -/
theorem scalar_loop_calls (build build2 : Build) (hive hive2 : ToiletHivemind)
    (bufs : Nat → Scroll) (buf0 : Scroll) (lens0 : Option (Nat → Int)) (count size : Nat) :
    ∀ (fuel soul k : Nat) (st : Factory) (ps : List (List Nat)),
      BatchInv buf0 lens0 size st ps → soul = st.toilets_flushed → soul + fuel = count →
      (fuel = 0 ∨ st.scroll_offset + 44 * fuel + 20 ≤ size) →
      BatchInv buf0 lens0 size (batch_scalar_loop build hive count size fuel soul st)
        (ps ++ (generate_calls build2 hive2 bufs k st.ctx (List.replicate fuel 64)).1.map
          Prod.snd) ∧
      (batch_scalar_loop build hive count size fuel soul st).ctx
        = (generate_calls build2 hive2 bufs k st.ctx (List.replicate fuel 64)).2 ∧
      (generate_calls build2 hive2 bufs k st.ctx (List.replicate fuel 64)).1.map Prod.fst
        = ((generate_calls build2 hive2 bufs k st.ctx (List.replicate fuel 64)).1.map
            Prod.snd).map (fun p => (p.length : Int)) ∧
      (generate_calls build2 hive2 bufs k st.ctx (List.replicate fuel 64)).1.length = fuel := by
  intro fuel
  induction fuel with
  | zero =>
    intro soul k st ps h _ _ _
    refine ⟨?_, rfl, rfl, rfl⟩
    show BatchInv buf0 lens0 size st (ps ++ [])
    rw [List.append_nil]
    exact h
  | succ n ih =>
    intro soul k st ps h hs hsum hroom
    have hroom' : st.scroll_offset + 44 * (n + 1) + 20 ≤ size := by
      rcases hroom with hr | hr
      · omega
      · exact hr
    have hg : soul < count ∧ st.scroll_offset + SKIBIDI_MIN_BUFFER_SIZE ≤ size := by
      simp only [SKIBIDI_MIN_BUFFER_SIZE]
      omega
    obtain ⟨p, hp⟩ := speak_ultra_item build hive st.ctx.rng
      (scroll_at st.scroll st.scroll_offset)
    obtain ⟨hl, hph⟩ := speak_ultra_single build hive st.ctx.rng
      (scroll_at st.scroll st.scroll_offset)
    have hpeq : p = single_text false (st.ctx.rng.s0.get 0) := by
      rw [← hph]
      exact (phrase_of_starts hp.text _ hp.length_eq).symm
    have hb := bookkeeping_inv h (by omega) (toilet_speak_ultra build hive st.ctx.rng
        (scroll_at st.scroll st.scroll_offset) true).1 hp
    rw [← hs] at hb
    have hctx := bookkeeping_ctx st build hive (scroll_at st.scroll st.scroll_offset) soul
    have hoff : (batch_bookkeeping st (toilet_speak_ultra build hive st.ctx.rng
        (scroll_at st.scroll st.scroll_offset) true).1
        (toilet_speak_ultra build hive st.ctx.rng
          (scroll_at st.scroll st.scroll_offset) true).2.1
        (toilet_speak_ultra build hive st.ctx.rng
          (scroll_at st.scroll st.scroll_offset) true).2.2 soul).scroll_offset
        ≤ st.scroll_offset + 44 := by
      have := hp.upper
      show st.scroll_offset + (_ + 1) ≤ _
      omega
    obtain ⟨i1, i2, i3, i4⟩ := ih (soul + 1) (k + 1) _ (ps ++ [p]) hb (by rw [hs]; rfl)
      (by omega) (by
        by_cases hn : n = 0
        · exact Or.inl hn
        · right; omega)
    rw [hctx] at i1 i2 i3 i4
    rw [batch_scalar_loop, if_pos hg, List.replicate_succ,
      generate_calls_cons build2 hive2 bufs k st.ctx 64 _ (le_refl _)]
    refine ⟨?_, i2, ?_, ?_⟩
    · simp only [List.map_cons]
      rw [List.append_assoc, List.singleton_append, hpeq] at i1
      exact i1
    · simp only [List.map_cons]
      rw [i3]
    · simp only [List.length_cons]
      rw [i4]

/-- C39: under the scalar tier, for `count >= 1` and
`buffer_size >= 64 + 44 * (count - 1)`, a batch call returns `count`, leaves the context
that `count` successive `skibidi_generate` calls (under any tier, into any buffers of 64
bytes) leave, lays out exactly their phrases in their order, each followed by a newline,
and stores their returned lengths in the lengths array. -/
theorem C39_scalar_batch_is_successive_calls (build build2 : Build)
    (hive hive2 : ToiletHivemind) (bufs : Nat → Scroll) (c : SkibidiContext) (b : Scroll)
    (buffer_size : Nat) (count : Int) (lengths : Option (Nat → Int))
    (hscalar : ¬ (build.TOILET_HAS_RIZZ_256 = true ∧ hive.flush_strategy ≥ 1))
    (hc : 1 ≤ count) (hroom : 64 + 44 * (count - 1) ≤ (buffer_size : Int)) :
    ∃ b' : Scroll,
      skibidi_generate_batch build hive (some c) (some b) buffer_size count lengths
        = (some (generate_calls build2 hive2 bufs 0 c (List.replicate count.toNat 64)).2,
            some b',
            lengths_after lengths
              ((generate_calls build2 hive2 bufs 0 c (List.replicate count.toNat 64)).1.map
                Prod.snd),
            count) ∧
      phrase b'
          (batch_text ((generate_calls build2 hive2 bufs 0 c
            (List.replicate count.toNat 64)).1.map Prod.snd)).length
        = batch_text ((generate_calls build2 hive2 bufs 0 c
            (List.replicate count.toNat 64)).1.map Prod.snd) ∧
      ((generate_calls build2 hive2 bufs 0 c (List.replicate count.toNat 64)).1.length : Int)
        = count ∧
      (generate_calls build2 hive2 bufs 0 c (List.replicate count.toNat 64)).1.map Prod.fst
        = ((generate_calls build2 hive2 bufs 0 c (List.replicate count.toNat 64)).1.map
            Prod.snd).map (fun p => (p.length : Int)) := by
  have hsz : ¬ buffer_size < SKIBIDI_MIN_BUFFER_SIZE := by
    simp only [SKIBIDI_MIN_BUFFER_SIZE]; omega
  have hcount : (count.toNat : Int) = count := Int.toNat_of_nonneg (by omega)
  obtain ⟨i1, i2, i3, i4⟩ := scalar_loop_calls build build2 hive hive2 bufs b lengths
    count.toNat buffer_size count.toNat 0 0 ⟨c, b, lengths, 0, 0⟩ []
    (batch_inv_start b lengths buffer_size c) rfl (by omega)
    (Or.inr (by show 0 + 44 * count.toNat + 20 ≤ buffer_size; omega))
  rw [List.nil_append] at i1
  have i2' : (batch_scalar_loop build hive count.toNat buffer_size count.toNat 0
      ⟨c, b, lengths, 0, 0⟩).ctx
      = (generate_calls build2 hive2 bufs 0 c (List.replicate count.toNat 64)).2 := i2
  have i1' : BatchInv b lengths buffer_size
      (batch_scalar_loop build hive count.toNat buffer_size count.toNat 0
        ⟨c, b, lengths, 0, 0⟩)
      ((generate_calls build2 hive2 bufs 0 c (List.replicate count.toNat 64)).1.map
        Prod.snd) := i1
  have i3' : (generate_calls build2 hive2 bufs 0 c (List.replicate count.toNat 64)).1.map
      Prod.fst
      = ((generate_calls build2 hive2 bufs 0 c (List.replicate count.toNat 64)).1.map
          Prod.snd).map (fun p => (p.length : Int)) := i3
  have i4' : (generate_calls build2 hive2 bufs 0 c (List.replicate count.toNat 64)).1.length
      = count.toNat := i4
  refine ⟨(batch_scalar_loop build hive count.toNat buffer_size count.toNat 0
    ⟨c, b, lengths, 0, 0⟩).scroll, ?_, ?_, ?_, i3'⟩
  · unfold skibidi_generate_batch
    dsimp only
    rw [if_neg hsz, if_neg (by omega), if_neg hscalar, i2', i1'.lens, i1'.flushed,
      List.length_map, i4', hcount]
  · exact phrase_of_starts i1'.text _ rfl
  · rw [i4', hcount]

/-! ## Concrete instances of the theorems on collapse, words, bytes and full batches -/

theorem C32_collapsed_outputs_witness :
    ((∀ x ∈ List.replicate 512 ((false, blank_scroll, 64) : Bool × Scroll × Nat),
        64 ≤ x.2.2) ∧ 64 ≤ 64 ∧
      512 ≤ (List.replicate 512 ((false, blank_scroll, 64) : Bool × Scroll × Nat)).length) ∧
    (api_calls scalar_build scalar_hive
      (List.replicate 512 ((false, blank_scroll, 64) : Bool × Scroll × Nat))
      (init_context 42)).rng.s0.get 0 = 0 :=
  ⟨⟨fun x hx => by rw [List.eq_of_mem_replicate hx], by decide,
      le_of_eq (List.length_replicate _ _).symm⟩,
    (C32_collapsed_outputs scalar_build scalar_hive 42
      (List.replicate 512 ((false, blank_scroll, 64) : Bool × Scroll × Nat)) blank_scroll 64
      (fun x hx => by rw [List.eq_of_mem_replicate hx]) (by decide)).1
      (le_of_eq (List.length_replicate _ _).symm)⟩

set_option maxRecDepth 100000 in
theorem C35_fifth_word_shares_verdict_index_witness :
    (64 ≤ 64 ∧ (false = true ∨ 69 ≤ (draw_D1 (init_context 475) >>> 48) &&& 0xFF) ∧
      word_count (draw_D1 (init_context 475)) = 5 ∧
      38 ≤ verdict_byte (!false) (draw_D1 (init_context 475)) ∧
      2 ≤ DOP_ZODIAC_CHART.getD ((draw_D2 (init_context 475) >>> 40) &&& 31) 0) ∧
    ((written (api_call scalar_build scalar_hive false (init_context 475) blank_scroll
          64)).drop
        ((if prefix_byte (!false) (draw_D1 (init_context 475)) < 38 then 1 else 0) * 7 + 8
          + 16)).take 3
      = rune_text (decide ((draw_D2 (init_context 475) >>> 12) &&& 7 = 0))
          (DOP_ZODIAC_CHART.getD ((draw_D2 (init_context 475) >>> 40) &&& 31) 0) ∧
    (written (api_call scalar_build scalar_hive false (init_context 475) blank_scroll
          64)).drop
        ((if prefix_byte (!false) (draw_D1 (init_context 475)) < 38 then 1 else 0) * 7 + 8
          + 20)
      ≠ cbytes "yes yes!" :=
  ⟨⟨by decide, Or.inr (by decide), by decide, by decide, by decide⟩,
    (C35_fifth_word_shares_verdict_index scalar_build scalar_hive false (init_context 475)
      blank_scroll 64 (by decide) (Or.inr (by decide)) (by decide) (by decide)).1,
    ((C35_fifth_word_shares_verdict_index scalar_build scalar_hive false (init_context 475)
      blank_scroll 64 (by decide) (Or.inr (by decide)) (by decide) (by decide)).2.2
        (by decide)).1⟩

theorem C36_phrase_bytes_witness :
    64 ≤ 64 ∧
    (∃ body,
      written (skibidi_generate scalar_build scalar_hive (some (init_context 42))
        (some blank_scroll) 64) = body ++ [33] ∧
      (skibidi_generate scalar_build scalar_hive (some (init_context 42))
        (some blank_scroll) 64).2.2 = ((body.length + 1 : Nat) : Int) ∧
      (∀ x ∈ body, letter_or_space x = true) ∧
      (∀ x ∈ body ++ [33], x ≠ 0 ∧ x ≠ 10)) ∧
    (∃ body,
      written (skibidi_generate_variant scalar_build scalar_hive (some (init_context 42))
        (some blank_scroll) 64) = body ++ [33] ∧
      (skibidi_generate_variant scalar_build scalar_hive (some (init_context 42))
        (some blank_scroll) 64).2.2 = ((body.length + 1 : Nat) : Int) ∧
      (∀ x ∈ body, letter_or_space x = true) ∧
      (∀ x ∈ body ++ [33], x ≠ 0 ∧ x ≠ 10)) :=
  ⟨by decide,
    (C36_phrase_bytes scalar_build scalar_hive (init_context 42) blank_scroll 64
      (by decide)).1,
    (C36_phrase_bytes scalar_build scalar_hive (init_context 42) blank_scroll 64
      (by decide)).2.1⟩

theorem C37_call_frame_witness :
    64 ≤ 64 ∧
    (skibidi_generate scalar_build scalar_hive (some (init_context 42)) (some blank_scroll)
      64).1 = some (context_after false (init_context 42)) ∧
    (skibidi_generate_variant scalar_build scalar_hive (some (init_context 42))
      (some blank_scroll) 64).1 = some (context_after true (init_context 42)) :=
  ⟨by decide,
    (C37_call_frame scalar_build scalar_hive (init_context 42) blank_scroll 64 (by decide)).1,
    (C37_call_frame scalar_build scalar_hive (init_context 42) blank_scroll 64
      (by decide)).2.1⟩

theorem C38_batch_fills_quota_witness :
    ((1 : Int) ≤ 4 ∧ (4 : Int) ≤ 2147483643 ∧ 64 + 44 * ((4 : Int) - 1) ≤ ((256 : Nat) : Int)) ∧
    (skibidi_generate_batch avx2_build avx2_hive (some (init_context 42)) (some blank_scroll)
      256 4 none).2.2.2 = 4 :=
  ⟨⟨by decide, by decide, by decide⟩,
    (C38_batch_fills_quota avx2_build avx2_hive (init_context 42) blank_scroll 256 4 none
      (by decide) (by decide) (by decide)).1⟩

theorem C39_scalar_batch_is_successive_calls_witness :
    (¬ (scalar_build.TOILET_HAS_RIZZ_256 = true ∧ scalar_hive.flush_strategy ≥ 1) ∧
      (1 : Int) ≤ 4 ∧ 64 + 44 * ((4 : Int) - 1) ≤ ((256 : Nat) : Int)) ∧
    ∃ b' : Scroll,
      skibidi_generate_batch scalar_build scalar_hive (some (init_context 42))
          (some blank_scroll) 256 4 none
        = (some (generate_calls avx2_build avx2_hive (fun _ => blank_scroll) 0
              (init_context 42) (List.replicate (4 : Int).toNat 64)).2,
            some b',
            lengths_after none
              ((generate_calls avx2_build avx2_hive (fun _ => blank_scroll) 0
                (init_context 42) (List.replicate (4 : Int).toNat 64)).1.map Prod.snd),
            4) ∧
      phrase b'
          (batch_text ((generate_calls avx2_build avx2_hive (fun _ => blank_scroll) 0
            (init_context 42) (List.replicate (4 : Int).toNat 64)).1.map Prod.snd)).length
        = batch_text ((generate_calls avx2_build avx2_hive (fun _ => blank_scroll) 0
            (init_context 42) (List.replicate (4 : Int).toNat 64)).1.map Prod.snd) ∧
      ((generate_calls avx2_build avx2_hive (fun _ => blank_scroll) 0 (init_context 42)
          (List.replicate (4 : Int).toNat 64)).1.length : Int) = 4 ∧
      (generate_calls avx2_build avx2_hive (fun _ => blank_scroll) 0 (init_context 42)
          (List.replicate (4 : Int).toNat 64)).1.map Prod.fst
        = ((generate_calls avx2_build avx2_hive (fun _ => blank_scroll) 0 (init_context 42)
            (List.replicate (4 : Int).toNat 64)).1.map Prod.snd).map
              (fun p => (p.length : Int)) :=
  ⟨⟨by decide, by decide, by decide⟩,
    C39_scalar_batch_is_successive_calls scalar_build avx2_build scalar_hive avx2_hive
      (fun _ => blank_scroll) (init_context 42) blank_scroll 256 4 none (by decide)
      (by decide) (by decide)⟩

end Skibidi
